import Mathlib

/-!
# Transcoding specification pipeline of the `vod` repository

A shallow embedding of the decision logic of three Lambda handlers:

* `services/profiler/main.go`         (profile selection),
* `services/encode/main.go`           (job specification builder),
* `services/output-validate/main.go`  (output resolution).

Go values are embedded as follows.  A handler returning `(*T, error)` becomes a
function into `Outcome T`; a run-time abort of the Go program (index out of
range, nil dereference) is the third alternative `Outcome.panic`.  External
collaborators (DynamoDB, MediaConvert, S3, `encoding/json`, environment variables)
are arguments of the handlers.  Go `int` is the 64-bit two's complement integer
of the Lambda targets and is embedded in `Int` with explicit wrap-around.
-/

set_option autoImplicit false

namespace Vod

/-- Result of one handler invocation: the returned value, the returned Go
error, or a run-time abort. -/
inductive Outcome (α : Type) where
  | ok (value : α)
  | error (msg : String)
  | panic (msg : String)
deriving Repr, DecidableEq

/-- True exactly for a returned value with a nil error. -/
def Outcome.isOk {α : Type} : Outcome α → Bool
  | .ok _ => true
  | _ => false

/-- True exactly for a nil value returned together with a non-nil error. -/
def Outcome.isError {α : Type} : Outcome α → Bool
  | .error _ => true
  | _ => false

/-! ## Machine arithmetic used by the profiler -/

/-- Two's complement wrap-around of a mathematical integer into the range of
Go's 64-bit `int`. -/
def wrapInt64 (x : Int) : Int := (x + 2 ^ 63) % 2 ^ 64 - 2 ^ 63

/-- Value of `float64(x)` for a 64-bit integer `x`: the nearest number with a
53-bit significand, ties to even.  Every result is itself an integer. -/
def float64OfInt (x : Int) : Int :=
  let a := x.natAbs
  if a < 2 ^ 53 then x
  else
    let e := Nat.log2 a - 52
    let q := a / 2 ^ e
    let r := a % 2 ^ e
    let half := 2 ^ (e - 1)
    let q1 := if half < r ∨ (r = half ∧ q % 2 = 1) then q + 1 else q
    Int.sign x * ((q1 * 2 ^ e : Nat) : Int)

/-- Value of `int(f)` for an integer-valued float `f`.  Go leaves the result for
a value outside the range of `int` to the implementation; it is the argument
`oor` (the most negative integer on amd64, the largest one on arm64). -/
def intOfFloat64 (oor : Int) (f : Int) : Int :=
  if -(2 ^ 63) ≤ f ∧ f < 2 ^ 63 then f else oor

/-- The Go constant `math.MaxInt32`. -/
def maxInt32 : Int := 2147483647

namespace Profiler

/-- Go type `ProfilerInput`; `JobTemplate` is a `*string`. -/
structure ProfilerInput where
  GUID : String
  JobTemplate : Option String
deriving Repr, DecidableEq

/-- Go type `ProfilerOutput`. -/
structure ProfilerOutput where
  GUID : String
  StartTime : String
  WorkflowTrigger : String
  WorkflowStatus : String
  WorkflowName : String
  SrcBucket : String
  DestBucket : String
  CloudFront : String
  FrameCapture : Bool
  ArchiveSource : String
  JobTemplate2160p : String
  JobTemplate1080p : String
  JobTemplate720p : String
  InputRotate : String
  AcceleratedTranscoding : String
  EnableSns : Bool
  EnableSqs : Bool
  SrcVideo : String
  EnableMediaPackage : Bool
  SrcMediainfo : String
  SrcHeight : Int
  SrcWidth : Int
  EncodingProfile : Int
  FrameCaptureHeight : Int
  FrameCaptureWidth : Int
  JobTemplate : String
  IsCustomTemplate : Bool
deriving Repr, DecidableEq

/-- Go type `Video`, restricted to the two fields the handler reads. -/
structure Video where
  Width : Int
  Height : Int
deriving Repr, DecidableEq

/-- Go type `MediaInfo`, restricted to the video streams. -/
structure MediaInfo where
  Video : List Video
deriving Repr, DecidableEq

/-- The part of `dynamodb.AttributeValue` read by the handler: `S` and `BOOL`,
both pointers. -/
structure AttributeValue where
  S : Option String
  BOOL : Option Bool
deriving Repr, DecidableEq

/-- A DynamoDB item, `map[string]*dynamodb.AttributeValue`, as an association
list read at the first entry of a key. -/
abbrev Item := List (String × AttributeValue)

/-- Go type `dynamodb.GetItemOutput`; `Item` is nil when nothing was found. -/
structure GetItemOutput where
  Item : Option Item
deriving Repr, DecidableEq

/-- The request sent to DynamoDB: table name and the two key attributes. -/
structure GetItemInput where
  TableName : String
  PK : String
  SK : String
deriving Repr, DecidableEq

/-- Go interface `DynamoDBClient`. -/
structure DynamoDBClient where
  GetItem : GetItemInput → Except String GetItemOutput

/-- Go type `Handler` together with what the handler takes from its
surroundings: the environment variable `DynamoDBTable`, `json.Unmarshal` into a
`MediaInfo`, and the platform result of an out-of-range float conversion. -/
structure Handler where
  DynamoDBClient : DynamoDBClient
  DynamoDBTable : String
  Unmarshal : String → Except String MediaInfo
  oor : Int

/-- Go `getStringValue`. -/
def getStringValue (item : Item) (key : String) : String :=
  match item.lookup key with
  | some val =>
    match val.S with
    | some s => s
    | none => ""
  | none => ""

/-- Go `getBoolValue`. -/
def getBoolValue (item : Item) (key : String) : Bool :=
  match item.lookup key with
  | some val =>
    match val.BOOL with
    | some b => b
    | none => false
  | none => false

/-- The slice `profiles` of `HandleRequest`. -/
def profiles : List Int := [2160, 1080, 720]

/-- The expression `int(math.Abs(float64(output.SrcHeight - profile)))`. -/
def profileDiff (oor : Int) (srcHeight profile : Int) : Int :=
  intOfFloat64 oor |float64OfInt (wrapInt64 (srcHeight - profile))|

/-- One iteration of the loop over `profiles`; the state is the pair
`(minProfileDiff, encodingProfile)`. -/
def profileStep (oor : Int) (srcHeight : Int) (st : Int × Int) (profile : Int) : Int × Int :=
  if profileDiff oor srcHeight profile < st.1 then (profileDiff oor srcHeight profile, profile)
  else st

/-- The loop of `HandleRequest` choosing `encodingProfile`: it starts from
`minProfileDiff = math.MaxInt32` and the zero value of `encodingProfile`. -/
def selectEncodingProfile (oor : Int) (srcHeight : Int) : Int :=
  (profiles.foldl (profileStep oor srcHeight) (maxInt32, 0)).2

/-- The map literal `ratio` of `HandleRequest`, read with Go's zero default. -/
def ratioTable (profile : Int) : Int :=
  if profile = 2160 then 3840
  else if profile = 1080 then 1920
  else if profile = 720 then 1280
  else 0

/-- The map literal `jobTemplates` of `HandleRequest`, read with Go's zero
default. -/
def jobTemplates (output : ProfilerOutput) (profile : Int) : String :=
  if profile = 2160 then output.JobTemplate2160p
  else if profile = 1080 then output.JobTemplate1080p
  else if profile = 720 then output.JobTemplate720p
  else ""

/-- The three `strings.ReplaceAll` calls producing `formatedSrcMediainfo`. -/
def formatSrcMediainfo (s : String) : String :=
  ((s.replace "\n" "").replace "\\\"" "\"").replace " " ""

/-- The `ProfilerOutput` literal built from the stored item. -/
def outputOfItem (item : Item) : ProfilerOutput where
  GUID := getStringValue item "guid"
  StartTime := getStringValue item "startTime"
  WorkflowTrigger := getStringValue item "workflowTrigger"
  WorkflowStatus := getStringValue item "workflowStatus"
  WorkflowName := getStringValue item "workflowName"
  SrcBucket := getStringValue item "srcBucket"
  DestBucket := getStringValue item "destBucket"
  CloudFront := getStringValue item "cloudFront"
  FrameCapture := getBoolValue item "frameCapture"
  ArchiveSource := getStringValue item "archiveSource"
  JobTemplate2160p := getStringValue item "jobTemplate_2160p"
  JobTemplate1080p := getStringValue item "jobTemplate_1080p"
  JobTemplate720p := getStringValue item "jobTemplate_720p"
  InputRotate := getStringValue item "inputRotate"
  AcceleratedTranscoding := getStringValue item "acceleratedTranscoding"
  EnableSns := getBoolValue item "enableSns"
  EnableSqs := getBoolValue item "enableSqs"
  SrcVideo := getStringValue item "srcVideo"
  EnableMediaPackage := getBoolValue item "enableMediaPackage"
  SrcMediainfo := getStringValue item "srcMediainfo"
  SrcHeight := 0
  SrcWidth := 0
  EncodingProfile := 0
  FrameCaptureHeight := 0
  FrameCaptureWidth := 0
  JobTemplate := ""
  IsCustomTemplate := false

/-- The block `// Parse mediainfo if available`: the zero `MediaInfo` when the
stored string is empty, otherwise the result of `json.Unmarshal`. -/
def parseMediainfo (h : Handler) (output : ProfilerOutput) : Except String MediaInfo :=
  if output.SrcMediainfo ≠ "" then h.Unmarshal (formatSrcMediainfo output.SrcMediainfo)
  else .ok { Video := [] }

/-- The statements of `HandleRequest` after `mediainfo.Video[0]` has been read:
source size, tier, frame-capture geometry and template name. -/
def fillOutput (oor : Int) (event : ProfilerInput) (output : ProfilerOutput) (v : Video) :
    ProfilerOutput :=
  let output := { output with SrcHeight := v.Height, SrcWidth := v.Width }
  let encodingProfile := selectEncodingProfile oor output.SrcHeight
  let output := { output with EncodingProfile := encodingProfile }
  let output :=
    if output.FrameCapture then
      { output with FrameCaptureHeight := encodingProfile,
                    FrameCaptureWidth := ratioTable encodingProfile }
    else output
  match event.JobTemplate with
  | none =>
    { output with JobTemplate := jobTemplates output encodingProfile, IsCustomTemplate := false }
  | some _ => { output with IsCustomTemplate := true }

/-- Go `(*Handler).HandleRequest` of the profiler.  The three `json.Marshal`
calls only feed the log and cannot fail on these types, so they are left out. -/
def HandleRequest (h : Handler) (event : ProfilerInput) : Outcome ProfilerOutput :=
  match h.DynamoDBClient.GetItem
      { TableName := h.DynamoDBTable, PK := "VIDEO#" ++ event.GUID, SK := "METADATA" } with
  | .error e => .error ("profiler: main.Handler: GetItem: " ++ e)
  | .ok data =>
    match data.Item with
    | none => .error ("profiler: main.Handler: item with GUID " ++ event.GUID ++ " not found")
    | some item =>
      let output := outputOfItem item
      match parseMediainfo h output with
      | .error e => .error ("profile: main.Handler: Unmarshal " ++ e)
      | .ok mediainfo =>
        match mediainfo.Video with
        | [] => .panic "runtime error: index out of range [0] with length 0"
        | v :: _ => .ok (fillOutput h.oor event output v)

end Profiler


namespace Profiler

/-- A stored item as the upstream stages write it: identifier, media
description, the three tier templates and the frame-capture flag. -/
def sampleItem (frameCapture : Bool) (mediainfo : String) : Item :=
  [("guid", { S := some "123e4567", BOOL := none }),
   ("srcMediainfo", { S := some mediainfo, BOOL := none }),
   ("jobTemplate_2160p", { S := some "tmpl1", BOOL := none }),
   ("jobTemplate_1080p", { S := some "tmpl2", BOOL := none }),
   ("jobTemplate_720p", { S := some "tmpl3", BOOL := none }),
   ("frameCapture", { S := none, BOOL := some frameCapture })]

/-- A handler whose table holds `sampleItem` and whose media description, when
present, decodes to one video stream of the given size. -/
def sampleHandler (frameCapture : Bool) (mediainfo : String) (width height : Int) : Handler where
  DynamoDBClient := { GetItem := fun _ => .ok { Item := some (sampleItem frameCapture mediainfo) } }
  DynamoDBTable := "table"
  Unmarshal := fun _ => .ok { Video := [{ Width := width, Height := height }] }
  oor := -(2 ^ 63)

end Profiler

/-! ## Job specification builder (`services/encode/main.go`) -/

namespace Encode

/-- A value of the MediaConvert SDK as Go reflection sees it.  Every field of
the SDK structures is a pointer or a slice, so one constructor stands for a nil
pointer (or an absent field), one for each kind of pointed-to scalar, one for a
pointer to a structure (its fields by Go name, absent names being nil) and one
for a slice.  A float is kept as its value, a finite number. -/
inductive GoVal where
  | null
  | int (n : Int)
  | float (q : Rat)
  | str (s : String)
  | bool (b : Bool)
  | struct (fields : List (String × GoVal))
  | slice (elems : List GoVal)
deriving Repr

/-- Field `k` of a structure; nil when the field is not listed. -/
def lookupField (fs : List (String × GoVal)) (k : String) : GoVal :=
  match fs.lookup k with
  | some v => v
  | none => .null

/-- Assignment to field `k` of a structure. -/
def setField : List (String × GoVal) → String → GoVal → List (String × GoVal)
  | [], k, v => [(k, v)]
  | (k1, v1) :: rest, k, v =>
    if k1 = k then (k, v) :: rest else (k1, v1) :: setField rest k v

/-- The value found by following field names from a structure downwards; nil
as soon as a name is absent or the value is not a structure. -/
def GoVal.get : GoVal → List String → GoVal
  | v, [] => v
  | .struct fs, k :: p => GoVal.get (lookupField fs k) p
  | _, _ :: _ => .null

/-- The `isEmptyValue` test of mergo on a pointed-to value: zero number, empty
string, false, slice of length zero, nil pointer. -/
def isEmptyValue : GoVal → Bool
  | .null => true
  | .int n => n == 0
  | .float q => q == 0
  | .str s => s == ""
  | .bool b => !b
  | .struct _ => false
  | .slice xs => xs.isEmpty

mutual
/-- The function `deepMerge` of `dario.cat/mergo` as run by
`mergo.MergeWithOverwrite(dst, src)` (overwrite on, every other option off), on
the kinds of value found in an output group.

* pointer, `src` nil: `dst` is kept;
* pointer, `dst` nil: `dst` is set to `src`;
* both pointers to a structure: the fields are merged one by one;
* both pointers to a scalar: `dst` is set to `src` unless `src` is the zero
  value of its type;
* slice: `dst` is set to `src` unless `src` has length zero.

The two arguments of a call have the same Go type, so their kinds cannot
differ; the last line returns `dst` there.  The table of visited addresses only
stops cycles and has no effect on values, which are trees. -/
def deepMerge : GoVal → GoVal → GoVal
  | dst, .null => dst
  | dst, .slice xs =>
    match dst with
    | .null => if xs.isEmpty then .null else .slice xs
    | .slice ys => if xs.isEmpty then .slice ys else .slice xs
    | _ => dst
  | dst, .struct fs =>
    match dst with
    | .null => .struct fs
    | .struct fd => .struct (mergeFields fd fs)
    | _ => dst
  | dst, .int b =>
    match dst with
    | .null => .int b
    | .int a => if b = 0 then .int a else .int b
    | _ => dst
  | dst, .float b =>
    match dst with
    | .null => .float b
    | .float a => if b = 0 then .float a else .float b
    | _ => dst
  | dst, .str b =>
    match dst with
    | .null => .str b
    | .str a => if b = "" then .str a else .str b
    | _ => dst
  | dst, .bool b =>
    match dst with
    | .null => .bool b
    | .bool a => if b = false then .bool a else .bool b
    | _ => dst
/-- The loop of `deepMerge` over the fields of a structure: field `k` of the
result is the merge of field `k` of `dst` with field `k` of `src`. -/
def mergeFields : List (String × GoVal) → List (String × GoVal) → List (String × GoVal)
  | fd, [] => fd
  | fd, (k, v) :: rest => setField (mergeFields fd rest) k (deepMerge (lookupField fd k) v)
end

/-- Go type `EncodeInput`. -/
structure EncodeInput where
  GUID : String
  StartTime : String
  WorkflowTrigger : String
  WorkflowStatus : String
  WorkflowName : String
  SrcBucket : String
  DestBucket : String
  CloudFront : String
  FrameCapture : Bool
  ArchiveSource : String
  JobTemplate2160p : String
  JobTemplate1080p : String
  JobTemplate720p : String
  InputRotate : String
  AcceleratedTranscoding : String
  EnableSns : Bool
  EnableSqs : Bool
  SrcVideo : String
  EnableMediaPackage : Bool
  SrcMediainfo : String
  SrcHeight : Int
  SrcWidth : Int
  EncodingProfile : Int
  FrameCaptureHeight : Int
  FrameCaptureWidth : Int
  JobTemplate : String
  IsCustomTemplate : Bool
deriving Repr, DecidableEq

/-- Go type `mediaconvert.AudioSelector`, the fields set by the handler. -/
structure AudioSelector where
  Offset : Int
  DefaultSelection : String
  ProgramSelection : Int
deriving Repr, DecidableEq

/-- Go type `mediaconvert.VideoSelector`, the fields set by the handler. -/
structure VideoSelector where
  ColorSpace : String
  Rotate : String
deriving Repr, DecidableEq

/-- Go type `mediaconvert.Input`, the fields set by the handler. -/
structure Input where
  AudioSelectors : List (String × AudioSelector)
  VideoSelector : VideoSelector
  FilterEnable : String
  PsiControl : String
  FilterStrength : Int
  DeblockFilter : String
  DenoiseFilter : String
  TimecodeSource : String
  FileInput : String
deriving Repr, DecidableEq

/-- Go type `mediaconvert.TimecodeConfig`, the field set by the handler. -/
structure TimecodeConfig where
  Source : String
deriving Repr, DecidableEq

/-- Go type `mediaconvert.AccelerationSettings`. -/
structure AccelerationSettings where
  Mode : String
deriving Repr, DecidableEq

/-- Go type `mediaconvert.JobSettings`, the fields set by the handler.  The
output groups are the values the slice of pointers refers to when the job is
handed to `CreateJob`. -/
structure JobSettings where
  Inputs : List Input
  OutputGroups : List GoVal
  TimecodeConfig : Option TimecodeConfig
deriving Repr

/-- Go type `mediaconvert.CreateJobInput`, the fields set by the handler. -/
structure CreateJobInput where
  JobTemplate : String
  Role : String
  UserMetadata : List (String × String)
  Settings : JobSettings
  AccelerationSettings : Option AccelerationSettings
deriving Repr

/-- Go type `mediaconvert.JobTemplateSettings`, the field read by the handler. -/
structure JobTemplateSettings where
  OutputGroups : List GoVal
deriving Repr

/-- Go type `mediaconvert.JobTemplate`, the field read by the handler. -/
structure JobTemplate where
  Settings : Option JobTemplateSettings
deriving Repr

/-- Go type `mediaconvert.GetJobTemplateOutput`. -/
structure GetJobTemplateOutput where
  JobTemplate : Option JobTemplate
deriving Repr

/-- Go type `mediaconvert.Job`, the field read by the handler. -/
structure Job where
  Id : Option String
deriving Repr, DecidableEq

/-- Go type `mediaconvert.CreateJobOutput`. -/
structure CreateJobOutput where
  Job : Option Job
deriving Repr, DecidableEq

/-- Go interface `MediaConvertClient`; `GetJobTemplate` is given the template
name of its input. -/
structure MediaConvertClient where
  GetJobTemplate : String → Except String GetJobTemplateOutput
  CreateJob : CreateJobInput → Except String CreateJobOutput

/-- Go type `Handler` together with the environment variable
`MediaConvertRole`. -/
structure Handler where
  MediaConvertClient : MediaConvertClient
  MediaConvertRole : String

/-- Go type `EncodeResponse`: the fields of the event, the job and its id. -/
structure EncodeResponse extends EncodeInput where
  EncodingJob : CreateJobInput
  EncodeJobId : String
deriving Repr

/-- Go `getMp4Group`. -/
def getMp4Group (outputPath : String) : GoVal :=
  .struct [
    ("Name", .str "File Group"),
    ("OutputGroupSettings", .struct [
      ("Type", .str "FILE_GROUP_SETTINGS"),
      ("FileGroupSettings", .struct [
        ("Destination", .str (outputPath ++ "/mp4/"))])]),
    ("Outputs", .slice [])]

/-- Go `getHlsGroup`. -/
def getHlsGroup (outputPath : String) : GoVal :=
  .struct [
    ("Name", .str "HLS Group"),
    ("OutputGroupSettings", .struct [
      ("Type", .str "HLS_GROUP_SETTINGS"),
      ("HlsGroupSettings", .struct [
        ("SegmentLength", .int 5),
        ("MinSegmentLength", .int 0),
        ("Destination", .str (outputPath ++ "/hls/"))])]),
    ("Outputs", .slice [])]

/-- Go `getDashGroup`. -/
def getDashGroup (outputPath : String) : GoVal :=
  .struct [
    ("Name", .str "DASH ISO"),
    ("OutputGroupSettings", .struct [
      ("Type", .str "DASH_ISO_GROUP_SETTINGS"),
      ("DashIsoGroupSettings", .struct [
        ("SegmentLength", .int 30),
        ("FragmentLength", .int 3),
        ("Destination", .str (outputPath ++ "/dash/"))])]),
    ("Outputs", .slice [])]

/-- Go `getCmafGroup`. -/
def getCmafGroup (outputPath : String) : GoVal :=
  .struct [
    ("Name", .str "CMAF"),
    ("OutputGroupSettings", .struct [
      ("Type", .str "CMAF_GROUP_SETTINGS"),
      ("CmafGroupSettings", .struct [
        ("SegmentLength", .int 30),
        ("FragmentLength", .int 3),
        ("Destination", .str (outputPath ++ "/cmaf/"))])]),
    ("Outputs", .slice [])]

/-- Go `getMssGroup`. -/
def getMssGroup (outputPath : String) : GoVal :=
  .struct [
    ("Name", .str "MS Smooth"),
    ("OutputGroupSettings", .struct [
      ("Type", .str "MS_SMOOTH_GROUP_SETTINGS"),
      ("MsSmoothGroupSettings", .struct [
        ("FragmentLength", .int 2),
        ("ManifestEncoding", .str "UTF8"),
        ("Destination", .str (outputPath ++ "/mss/"))])]),
    ("Outputs", .slice [])]

/-- Go `getFrameGroup`.  `int64(event.FrameCaptureHeight)` is the identity on a
64-bit `int`. -/
def getFrameGroup (event : EncodeInput) (ouputPath : String) : GoVal :=
  .struct [
    ("CustomName", .str "Frame Capture"),
    ("Name", .str "File Group"),
    ("OutputGroupSettings", .struct [
      ("Type", .str "FILE_GROUP_SETTINGS"),
      ("FileGroupSettings", .struct [
        ("Destination", .str (ouputPath ++ "/thumbnails/"))])]),
    ("Outputs", .slice [
      .struct [
        ("NameModifier", .str "_thumb"),
        ("ContainerSettings", .struct [
          ("Container", .str "RAW")]),
        ("VideoDescription", .struct [
          ("ColorMetadata", .str "INSERT"),
          ("AfdSignaling", .str "NONE"),
          ("Sharpness", .int 100),
          ("Height", .int event.FrameCaptureHeight),
          ("RespondToAfd", .str "NONE"),
          ("TimecodeInsertion", .str "DISABLED"),
          ("Width", .int event.FrameCaptureWidth),
          ("ScalingBehavior", .str "DEFAULT"),
          ("AntiAlias", .str "ENABLED"),
          ("CodecSettings", .struct [
            ("FrameCaptureSettings", .struct [
              ("MaxCaptures", .int 10000000),
              ("Quality", .int 80),
              ("FramerateDenominator", .int 5),
              ("FramerateNumerator", .int 1)]),
            ("Codec", .str "FRAME_CAPTURE")]),
          ("DropFrameTimecode", .str "ENABLED")])]])]

mutual
/-- Whether two values can be values of one Go type: wherever both are set
they are of the same kind, field by field. -/
def sameKind : GoVal → GoVal → Bool
  | _, .null => true
  | dst, .slice _ =>
    match dst with
    | .null => true
    | .slice _ => true
    | _ => false
  | dst, .struct fs =>
    match dst with
    | .null => true
    | .struct fd => sameKindFields fd fs
    | _ => false
  | dst, .int _ =>
    match dst with
    | .null => true
    | .int _ => true
    | _ => false
  | dst, .float _ =>
    match dst with
    | .null => true
    | .float _ => true
    | _ => false
  | dst, .str _ =>
    match dst with
    | .null => true
    | .str _ => true
    | _ => false
  | dst, .bool _ =>
    match dst with
    | .null => true
    | .bool _ => true
    | _ => false
/-- The field-by-field part of `sameKind`. -/
def sameKindFields : List (String × GoVal) → List (String × GoVal) → Bool
  | _, [] => true
  | fd, (k, v) :: rest => sameKind (lookupField fd k) v && sameKindFields fd rest
end

/-- A scalar or a slice, as opposed to a nil pointer or a structure. -/
def GoVal.isLeaf : GoVal → Bool
  | .null => false
  | .struct _ => false
  | _ => true

/-- The six group variables of `HandleRequest`; each is a pointer, and the job
refers to the groups through these pointers. -/
inductive GroupRef where
  | mp4Group
  | hlsGroup
  | dashGroup
  | cmafGroup
  | mssGroup
  | frameCaptureGroup
deriving Repr, DecidableEq

/-- The values the six group pointers refer to. -/
structure Groups where
  mp4Group : GoVal
  hlsGroup : GoVal
  dashGroup : GoVal
  cmafGroup : GoVal
  mssGroup : GoVal
  frameCaptureGroup : GoVal
deriving Repr

/-- Dereference of a group pointer. -/
def Groups.get (g : Groups) : GroupRef → GoVal
  | .mp4Group => g.mp4Group
  | .hlsGroup => g.hlsGroup
  | .dashGroup => g.dashGroup
  | .cmafGroup => g.cmafGroup
  | .mssGroup => g.mssGroup
  | .frameCaptureGroup => g.frameCaptureGroup

/-- Write through a group pointer. -/
def Groups.set (g : Groups) (r : GroupRef) (v : GoVal) : Groups :=
  match r with
  | .mp4Group => { g with mp4Group := v }
  | .hlsGroup => { g with hlsGroup := v }
  | .dashGroup => { g with dashGroup := v }
  | .cmafGroup => { g with cmafGroup := v }
  | .mssGroup => { g with mssGroup := v }
  | .frameCaptureGroup => { g with frameCaptureGroup := v }

/-- The six groups as created before the template is fetched. -/
def initGroups (event : EncodeInput) (outputPath : String) : Groups where
  mp4Group := getMp4Group outputPath
  hlsGroup := getHlsGroup outputPath
  dashGroup := getDashGroup outputPath
  cmafGroup := getCmafGroup outputPath
  mssGroup := getMssGroup outputPath
  frameCaptureGroup := getFrameGroup event outputPath

/-- The `switch` on the group type: the default group chosen, `none` when
`found` stays false. -/
def defaultGroupOf (type : String) : Option GroupRef :=
  if type = "FILE_GROUP_SETTINGS" then some .mp4Group
  else if type = "HLS_GROUP_SETTINGS" then some .hlsGroup
  else if type = "DASH_ISO_GROUP_SETTINGS" then some .dashGroup
  else if type = "CMAF_GROUP_SETTINGS" then some .cmafGroup
  else if type = "MS_SMOOTH_GROUP_SETTINGS" then some .mssGroup
  else none

/-- The expression `*group.OutputGroupSettings.Type`; `none` when one of the
three pointers on the way is nil, where Go aborts. -/
def groupType (group : GoVal) : Option String :=
  match group.get ["OutputGroupSettings", "Type"] with
  | .str ty => some ty
  | _ => none

/-- The default group a template group is dispatched to: the `switch` applied
to `*group.OutputGroupSettings.Type`; `none` when `found` stays false or the
type cannot be read. -/
def refOf (group : GoVal) : Option GroupRef :=
  (groupType group).bind defaultGroupOf

/-- State of the loop over the template groups: the pointed-to groups and the
slice `job.Settings.OutputGroups` of pointers. -/
structure LoopState where
  groups : Groups
  outputGroups : List GroupRef
deriving Repr

/-- One iteration of the loop over `template.JobTemplate.Settings.OutputGroups`.
`mergo.MergeWithOverwrite` writes into the default group itself, since
`outputGroup := defaultGroup` copies the pointer; it returns no error on two
values of one type. -/
def loopStep (st : LoopState) (group : GoVal) : Outcome LoopState :=
  match groupType group with
  | none => .panic "runtime error: invalid memory address or nil pointer dereference"
  | some ty =>
    match defaultGroupOf ty with
    | some r =>
      .ok { groups := st.groups.set r (deepMerge (st.groups.get r) group),
            outputGroups := st.outputGroups ++ [r] }
    | none => .ok st

/-- The loop over the template groups. -/
def loopGroups : LoopState → List GoVal → Outcome LoopState
  | st, [] => .ok st
  | st, group :: rest =>
    match loopStep st group with
    | .ok st1 => loopGroups st1 rest
    | .error e => .error e
    | .panic e => .panic e

/-- The job literal `job` of `HandleRequest` before any output group is added. -/
def initJob (h : Handler) (event : EncodeInput) : CreateJobInput where
  JobTemplate := event.JobTemplate
  Role := h.MediaConvertRole
  UserMetadata := [("guid", event.GUID), ("workflow", event.WorkflowName)]
  Settings := {
    Inputs := [{
      AudioSelectors := [("Audio Selector 1",
        { Offset := 0, DefaultSelection := "NOT_DEFAULT", ProgramSelection := 1 })]
      VideoSelector := { ColorSpace := "FOLLOW", Rotate := event.InputRotate }
      FilterEnable := "AUTO"
      PsiControl := "USE_PSI"
      FilterStrength := 0
      DeblockFilter := "DISABLED"
      DenoiseFilter := "DISABLED"
      TimecodeSource := "EMBEDDED"
      FileInput := "s3://" ++ event.SrcBucket ++ "/" ++ event.SrcVideo }]
    OutputGroups := []
    TimecodeConfig := none }
  AccelerationSettings := none

/-- The statement `job.Settings.Inputs[0].TimecodeSource = aws.String(src)`. -/
def setFirstTimecodeSource (src : String) : List Input → List Input
  | [] => []
  | i :: rest => { i with TimecodeSource := src } :: rest

/-- The block applying accelerated transcoding to the job. -/
def applyAcceleration (event : EncodeInput) (job : CreateJobInput) : CreateJobInput :=
  if event.AcceleratedTranscoding = "PREFERRED" ∨ event.AcceleratedTranscoding = "ENABLED" then
    { job with
      AccelerationSettings := some { Mode := event.AcceleratedTranscoding }
      Settings := { job.Settings with
        TimecodeConfig := some { Source := "ZEROBASED" }
        Inputs := setFirstTimecodeSource "ZEROBASED" job.Settings.Inputs } }
  else job

/-- The pointers in `job.Settings.OutputGroups` after the loop and the
frame-capture block. -/
def finalRefs (event : EncodeInput) (st : LoopState) : List GroupRef :=
  if event.FrameCapture then st.outputGroups ++ [.frameCaptureGroup] else st.outputGroups

/-- The job handed to `CreateJob`, from the fetched template: everything
`HandleRequest` does between `GetJobTemplate` and `CreateJob`. -/
def buildJob (h : Handler) (event : EncodeInput) (template : GetJobTemplateOutput) :
    Outcome CreateJobInput :=
  let outputPath := "s3://" ++ event.DestBucket ++ "/" ++ event.GUID
  match template.JobTemplate with
  | none => .panic "runtime error: invalid memory address or nil pointer dereference"
  | some jt =>
    match jt.Settings with
    | none => .panic "runtime error: invalid memory address or nil pointer dereference"
    | some settings =>
      match loopGroups { groups := initGroups event outputPath, outputGroups := [] }
          settings.OutputGroups with
      | .error e => .error e
      | .panic e => .panic e
      | .ok st =>
        let job := initJob h event
        let job := { job with
          Settings := { job.Settings with
            OutputGroups := (finalRefs event st).map st.groups.get } }
        .ok (applyAcceleration event job)

/-- Go `(*Handler).HandleRequest` of the encode service.  The `json.Marshal`
calls only feed the log and are left out. -/
def HandleRequest (h : Handler) (event : EncodeInput) : Outcome EncodeResponse :=
  match h.MediaConvertClient.GetJobTemplate event.JobTemplate with
  | .error e => .error ("encode: main.Handler.HandleRequest: GetJobTemplate: " ++ e)
  | .ok template =>
    match buildJob h event template with
    | .error e => .error e
    | .panic e => .panic e
    | .ok job =>
      match h.MediaConvertClient.CreateJob job with
      | .error e => .error ("encode: main.Handler.HandleRequest: CreateJob: " ++ e)
      | .ok data =>
        match data.Job with
        | none => .panic "runtime error: invalid memory address or nil pointer dereference"
        | some j =>
          match j.Id with
          | none => .panic "runtime error: invalid memory address or nil pointer dereference"
          | some id => .ok { toEncodeInput := event, EncodingJob := job, EncodeJobId := id }

/-- The event of the test `should apply custom settings when template is
custom`, with the frame-capture flag and geometry as arguments. -/
def sampleEvent (frameCapture : Bool) (width height : Int) : EncodeInput where
  GUID := "12345678"
  StartTime := ""
  WorkflowTrigger := ""
  WorkflowStatus := ""
  WorkflowName := ""
  SrcBucket := "src"
  DestBucket := "dest"
  CloudFront := ""
  FrameCapture := frameCapture
  ArchiveSource := ""
  JobTemplate2160p := ""
  JobTemplate1080p := ""
  JobTemplate720p := ""
  InputRotate := ""
  AcceleratedTranscoding := "DISABLED"
  EnableSns := false
  EnableSqs := false
  SrcVideo := "video.mp4"
  EnableMediaPackage := false
  SrcMediainfo := ""
  SrcHeight := 0
  SrcWidth := 0
  EncodingProfile := 0
  FrameCaptureHeight := height
  FrameCaptureWidth := width
  JobTemplate := "custom-template"
  IsCustomTemplate := true

/-- A template group of type HLS with a name, a segment length and a minimum
segment length, and no destination, as in the tests. -/
def hlsTemplateGroup (name : String) (segmentLength minSegmentLength : Int) : GoVal :=
  .struct [
    ("OutputGroupSettings", .struct [
      ("Type", .str "HLS_GROUP_SETTINGS"),
      ("HlsGroupSettings", .struct [
        ("SegmentLength", .int segmentLength),
        ("MinSegmentLength", .int minSegmentLength)])]),
    ("Name", .str name)]

/-- A fetched template with the given output groups. -/
def templateOf (gs : List GoVal) : GetJobTemplateOutput where
  JobTemplate := some { Settings := some { OutputGroups := gs } }

/-- A handler whose client returns `templateOf gs` and accepts every job. -/
def sampleHandler (gs : List GoVal) : Handler where
  MediaConvertClient := {
    GetJobTemplate := fun _ => .ok (templateOf gs)
    CreateJob := fun _ => .ok { Job := some { Id := some "12345678" } } }
  MediaConvertRole := "Role"

/-- The argument of the call `h.MediaConvertClient.CreateJob(&job)`; `none`
when the handler returns or aborts before that call. -/
def submittedJob (h : Handler) (event : EncodeInput) : Option CreateJobInput :=
  match h.MediaConvertClient.GetJobTemplate event.JobTemplate with
  | .error _ => none
  | .ok template =>
    match buildJob h event template with
    | .ok job => some job
    | .error _ => none
    | .panic _ => none

/-- A handler whose client fails to fetch the template, as in the test `should
fail when GetJobTemplate failed`. -/
def fetchFailingHandler (cause : String) : Handler where
  MediaConvertClient := {
    GetJobTemplate := fun _ => .error cause
    CreateJob := fun _ => .ok { Job := some { Id := some "12345" } } }
  MediaConvertRole := "Role"

/-- A handler whose client returns `templateOf gs` and rejects every job, as in
the test `should fail when CreateJob failed`. -/
def submitFailingHandler (gs : List GoVal) (cause : String) : Handler where
  MediaConvertClient := {
    GetJobTemplate := fun _ => .ok (templateOf gs)
    CreateJob := fun _ => .error cause }
  MediaConvertRole := "Role"

end Encode

/-! ## Output resolution (`services/output-validate/main.go`) -/

namespace OutputValidate

/-- Go `strings.Split(s, sep)` for a separator of one character, on the list of
characters of `s`: the pieces between the separators, at least one piece. -/
def splitOnChar (sep : Char) : List Char → List (List Char)
  | [] => [[]]
  | c :: cs =>
    if c = sep then [] :: splitOnChar sep cs
    else
      match splitOnChar sep cs with
      | [] => [[c]]
      | piece :: pieces => (c :: piece) :: pieces

/-- Go `strings.Split(s, sep)` for a separator of one character. -/
def goSplit (s : String) (sep : Char) : List String :=
  (splitOnChar sep s.data).map String.mk

/-- Go `buildUrl`: the last three pieces of the path between slashes, joined by
slashes.  With fewer than three pieces the index `len(s)-3` is out of range
and Go aborts. -/
def buildUrl (s3Path : String) : Outcome String :=
  let s := goSplit s3Path '/'
  if 3 ≤ s.length then
    .ok (s.getD (s.length - 3) "" ++ "/" ++ s.getD (s.length - 2) "" ++ "/"
      ++ s.getD (s.length - 1) "")
  else .panic "runtime error: index out of range"

/-- The expression `fmt.Sprintf("https://%s/%s", dynamoData.CloudFront, buildUrl(path))`. -/
def publicUrl (cloudFront : String) (s3Path : String) : Outcome String :=
  match buildUrl s3Path with
  | .ok u => .ok ("https://" ++ cloudFront ++ "/" ++ u)
  | .error e => .error e
  | .panic e => .panic e

/-- Go type `OutputDetail`, without the video details, which the handler does
not read.  `OutputFilePaths` is `none` for a nil slice; an element is `none`
for a nil pointer. -/
structure OutputDetail where
  OutputFilePaths : Option (List (Option String))
  DurationInMs : Int
deriving Repr, DecidableEq

/-- Go type `OutputGroupDetail`.  A list stands for a slice of pointers, an
element `none` for a nil pointer. -/
structure OutputGroupDetail where
  OutputDetails : List (Option OutputDetail)
  PlaylistFilePaths : List (Option String)
  «Type» : String
deriving Repr, DecidableEq

/-- Go type `UserMetadata`. -/
structure UserMetadata where
  GUID : String
  Workflow : String
deriving Repr, DecidableEq

/-- Go type `Warning`. -/
structure Warning where
  Code : Int
  Count : Int
deriving Repr, DecidableEq

/-- Go type `EventDetail`. -/
structure EventDetail where
  Timestamp : Int
  AccountId : String
  Queue : String
  JobId : String
  Status : String
  UserMetadata : UserMetadata
  OutputGroupDetails : List (Option OutputGroupDetail)
  PaddingInserted : Int
  BlackVideoDetected : Int
  Warnings : List (Option Warning)
deriving Repr, DecidableEq

/-- Go type `DynamoData`, without `EncodingJob`, which the handler only carries
along.  A `*string` is an `Option String`; a slice of `*string` is a list, of
length zero when the slice is nil. -/
structure DynamoData where
  GUID : String
  StartTime : String
  WorkflowTrigger : String
  WorkflowStatus : String
  WorkflowName : String
  SrcBucket : String
  DestBucket : String
  CloudFront : String
  FrameCapture : Bool
  ArchiveSource : String
  JobTemplate2160p : String
  JobTemplate1080p : String
  JobTemplate720p : String
  InputRotate : String
  AcceleratedTranscoding : String
  EnableSns : Bool
  EnableSqs : Bool
  SrcVideo : String
  EnableMediaPackage : Bool
  SrcMediainfo : String
  EncodeJobId : String
  EncodingOutput : EventDetail
  EndTime : String
  HlsPlaylist : Option String
  HlsUrl : Option String
  DashPlaylist : Option String
  DashUrl : Option String
  Mp4Outputs : List (Option String)
  Mp4Urls : List (Option String)
  MssPlaylist : Option String
  MssUrl : Option String
  CmafDashPlaylist : Option String
  CmafDashUrl : Option String
  CmafHlsPlaylist : Option String
  CmafHlsUrl : Option String
  ThumbNails : List (Option String)
  ThumbNailsUrls : List (Option String)
deriving Repr, DecidableEq

/-- Go type `dynamodb.AttributeValue`: string, number, boolean, null, map and
list. -/
inductive AttributeValue where
  | S (s : String)
  | N (n : String)
  | BOOL (b : Bool)
  | NULL
  | M (m : List (String × AttributeValue))
  | L (l : List AttributeValue)

/-- A DynamoDB item, `map[string]*dynamodb.AttributeValue`. -/
abbrev Item := List (String × AttributeValue)

/-- Go type `dynamodb.GetItemOutput`; a nil map is the empty list. -/
structure GetItemOutput where
  Item : Item

/-- The request sent to DynamoDB: table name and the two key attributes. -/
structure GetItemInput where
  TableName : String
  PK : String
  SK : String
deriving Repr, DecidableEq

/-- Go interface `DynamoDBClient`. -/
structure DynamoDBClient where
  GetItem : GetItemInput → Except String GetItemOutput

/-- Go type `s3.ListObjectsInput`, the fields set by the handler. -/
structure ListObjectsInput where
  Bucket : String
  Prefix : String
deriving Repr, DecidableEq

/-- Go type `s3.Object`, the field read by the handler. -/
structure Object where
  Key : Option String
deriving Repr, DecidableEq

/-- Go type `s3.ListObjectsOutput`, the field read by the handler. -/
structure ListObjectsOutput where
  Contents : List (Option Object)
deriving Repr, DecidableEq

/-- Go interface `S3Client`. -/
structure S3Client where
  ListObjects : ListObjectsInput → Except String ListObjectsOutput

/-- Go type `events.EventBridgeEvent`, the field read by the handler. -/
structure EventBridgeEvent where
  Detail : String
deriving Repr, DecidableEq

/-- Go type `Handler` together with what the handler takes from its
surroundings: the environment variable `DynamoDBTable`, `json.Unmarshal` into
an `EventDetail`, `dynamodbattribute.UnmarshalMap` into a `DynamoData`, and the
clock. -/
structure Handler where
  DynamoDBClient : DynamoDBClient
  S3Client : S3Client
  DynamoDBTable : String
  Unmarshal : String → Except String EventDetail
  UnmarshalMap : Item → Except String DynamoData
  Now : String

/-- The pair of statements of a playlist case for index `i`: the pointer
`outputGroupDetail.PlaylistFilePaths[i]` and the URL built from the string it
points to.  Go aborts when the index is out of range, when the pointer is nil
and when the path has fewer than three pieces. -/
def playlistAt (cloudFront : String) (paths : List (Option String)) (i : Nat) :
    Outcome (Option String × Option String) :=
  match paths[i]? with
  | none => .panic "runtime error: index out of range"
  | some none => .panic "runtime error: invalid memory address or nil pointer dereference"
  | some (some p) =>
    match publicUrl cloudFront p with
    | .ok u => .ok (some p, some u)
    | .error e => .error e
    | .panic e => .panic e

/-- One iteration of the loop over `outputGroupDetail.OutputDetails` in the
`FILE_GROUP` case; the state is the pair `(files, urls)`. -/
def collectStep (cloudFront : String) (acc : List (Option String) × List (Option String))
    (outputDetail : Option OutputDetail) :
    Outcome (List (Option String) × List (Option String)) :=
  match outputDetail with
  | none => .panic "runtime error: invalid memory address or nil pointer dereference"
  | some od =>
    match od.OutputFilePaths with
    | none => .ok acc
    | some [] => .panic "runtime error: index out of range"
    | some (none :: _) =>
      .panic "runtime error: invalid memory address or nil pointer dereference"
    | some (some p :: _) =>
      match publicUrl cloudFront p with
      | .ok u => .ok (acc.1 ++ [some p], acc.2 ++ [some u])
      | .error e => .error e
      | .panic e => .panic e

/-- The loop over `outputGroupDetail.OutputDetails` in the `FILE_GROUP` case. -/
def collectFiles (cloudFront : String) :
    List (Option String) × List (Option String) → List (Option OutputDetail) →
    Outcome (List (Option String) × List (Option String))
  | acc, [] => .ok acc
  | acc, od :: rest =>
    match collectStep cloudFront acc od with
    | .ok acc1 => collectFiles cloudFront acc1 rest
    | .error e => .error e
    | .panic e => .panic e

/-- The test `ext[len(ext)-1] == "mp4"` on `strings.Split(*files[0], ".")`. -/
def hasMp4Extension (path : String) : Bool :=
  (goSplit path '.').getLast? = some "mp4"

/-- The test guarding the assignment of `Mp4Outputs` and `Mp4Urls`:
`len(files) > 0` and the first file ends in the piece `mp4`.  Every collected
pointer is non-nil. -/
def acceptFiles (files : List (Option String)) : Bool :=
  match files with
  | some p :: _ => hasMp4Extension p
  | _ => false

/-- The body of the loop over `eventDetail.OutputGroupDetails`: the `switch`
on the group type. -/
def processGroup (d : DynamoData) (outputGroupDetail : Option OutputGroupDetail) :
    Outcome DynamoData :=
  match outputGroupDetail with
  | none => .panic "runtime error: invalid memory address or nil pointer dereference"
  | some g =>
    if g.«Type» = "HLS_GROUP" then
      match playlistAt d.CloudFront g.PlaylistFilePaths 0 with
      | .ok (p, u) => .ok { d with HlsPlaylist := p, HlsUrl := u }
      | .error e => .error e
      | .panic e => .panic e
    else if g.«Type» = "DASH_ISO_GROUP" then
      match playlistAt d.CloudFront g.PlaylistFilePaths 0 with
      | .ok (p, u) => .ok { d with DashPlaylist := p, DashUrl := u }
      | .error e => .error e
      | .panic e => .panic e
    else if g.«Type» = "FILE_GROUP" then
      match collectFiles d.CloudFront ([], []) g.OutputDetails with
      | .ok (files, urls) =>
        if acceptFiles files then .ok { d with Mp4Outputs := files, Mp4Urls := urls }
        else .ok d
      | .error e => .error e
      | .panic e => .panic e
    else if g.«Type» = "MS_SMOOTH_GROUP" then
      match playlistAt d.CloudFront g.PlaylistFilePaths 0 with
      | .ok (p, u) => .ok { d with MssPlaylist := p, MssUrl := u }
      | .error e => .error e
      | .panic e => .panic e
    else if g.«Type» = "CMAF_GROUP" then
      match playlistAt d.CloudFront g.PlaylistFilePaths 0 with
      | .ok (p0, u0) =>
        match playlistAt d.CloudFront g.PlaylistFilePaths 1 with
        | .ok (p1, u1) =>
          .ok { d with CmafDashPlaylist := p0, CmafDashUrl := u0,
                       CmafHlsPlaylist := p1, CmafHlsUrl := u1 }
        | .error e => .error e
        | .panic e => .panic e
      | .error e => .error e
      | .panic e => .panic e
    else
      .error ("output-validate: main.Handler.HandleRequest: unknown output group type: "
        ++ g.«Type»)

/-- The loop over `eventDetail.OutputGroupDetails`. -/
def resolveGroups : DynamoData → List (Option OutputGroupDetail) → Outcome DynamoData
  | d, [] => .ok d
  | d, g :: rest =>
    match processGroup d g with
    | .ok d1 => resolveGroups d1 rest
    | .error e => .error e
    | .panic e => .panic e

/-- The block `if dynamoData.FrameCapture`: the listing of the thumbnails and
the choice of the last one. -/
def resolveThumbnails (h : Handler) (d : DynamoData) : Outcome DynamoData :=
  if d.FrameCapture then
    match h.S3Client.ListObjects { Bucket := d.DestBucket, Prefix := d.GUID ++ "/thumbnails" } with
    | .error e => .error ("output-validate: main.Handler.HandleRequest: s3.ListObjects: " ++ e)
    | .ok thumbNailsData =>
      match thumbNailsData.Contents.getLast? with
      | none => .error "output-validate: main.Handler.HandleRequest: no thumbnails found in S3"
      | some none => .panic "runtime error: invalid memory address or nil pointer dereference"
      | some (some lastImg) =>
        match lastImg.Key with
        | none => .panic "runtime error: invalid memory address or nil pointer dereference"
        | some key =>
          .ok { d with
            ThumbNails := [some ("s3://" ++ d.DestBucket ++ "/" ++ key)],
            ThumbNailsUrls := [some ("https://" ++ d.CloudFront ++ "/" ++ key)] }
  else .ok d

/-- Go `(*Handler).HandleRequest` of the output-validate service.  The
`json.Marshal` call only feeds the log and is left out. -/
def HandleRequest (h : Handler) (event : EventBridgeEvent) : Outcome DynamoData :=
  match h.Unmarshal event.Detail with
  | .error e => .error ("output-validate: main.Handler.HandleRequest: json.Unmarshal: " ++ e)
  | .ok eventDetail =>
    match h.DynamoDBClient.GetItem
        { TableName := h.DynamoDBTable, PK := "VIDEO#" ++ eventDetail.UserMetadata.GUID,
          SK := "METADATA" } with
    | .error e =>
      .error ("output-validate: main.Handler.HandlerRequest: dynamodb.GetItem: " ++ e)
    | .ok data =>
      if data.Item.length = 0 then
        .error ("output-validate: main.Handler.HandlerRequest: dynamodb data (guid = "
          ++ eventDetail.UserMetadata.GUID ++ ") is empty")
      else
        match h.UnmarshalMap data.Item with
        | .error e =>
          .error ("output-validate: main.Handler.HandlerRequest: dynamodbattribute.UnmarshalMap "
            ++ e)
        | .ok dynamoData =>
          let dynamoData := { dynamoData with
            EncodingOutput := eventDetail, EndTime := h.Now, WorkflowStatus := "Complete" }
          if eventDetail.OutputGroupDetails.length = 0 then
            .error "output-validate: main.Handler.HandleRequest: no output group details found"
          else
            match resolveGroups dynamoData eventDetail.OutputGroupDetails with
            | .error e => .error e
            | .panic e => .panic e
            | .ok dynamoData => resolveThumbnails h dynamoData

/-- An output group detail with playlists only. -/
def playlistGroup (type : String) (playlists : List String) : OutputGroupDetail where
  OutputDetails := []
  PlaylistFilePaths := playlists.map some
  «Type» := type

/-- A `FILE_GROUP` output group detail with one rendition per path. -/
def fileGroup (paths : List String) : OutputGroupDetail where
  OutputDetails := paths.map (fun p => some { OutputFilePaths := some [some p], DurationInMs := 0 })
  PlaylistFilePaths := []
  «Type» := "FILE_GROUP"

/-- An event detail of queue Default and job htprrb with the given output
groups, the shape of the values of `test-events.go`. -/
def detailOf (workflow : String) (groups : List (Option OutputGroupDetail)) : EventDetail where
  Timestamp := 0
  AccountId := ""
  Queue := "arn:aws:mediaconvert:us-east-1::queues/Default"
  JobId := "htprrb"
  Status := ""
  UserMetadata := { GUID := "guid", Workflow := workflow }
  OutputGroupDetails := groups
  PaddingInserted := 0
  BlackVideoDetected := 0
  Warnings := []

/-- Go variable `CmafMss` of `test-events.go`. -/
def CmafMss : EventDetail :=
  detailOf "CMAF" [
    some (playlistGroup "CMAF_GROUP" [
      "s3://vod-destination/12345/cmaf/big_bunny.mpd",
      "s3://vod-destination/12345/cmaf/big_bunny.m3u8"]),
    some {
      OutputDetails := [some {
        OutputFilePaths := some [some "s3://vod-destination/12345/mss/big_bunny.ismv"],
        DurationInMs := 0 }]
      PlaylistFilePaths := [some "s3://vod-destination/12345/mss/big_bunny.ism"]
      «Type» := "MS_SMOOTH_GROUP" }]

/-- Go variable `HlsDash` of `test-events.go`. -/
def HlsDash : EventDetail :=
  detailOf "vod10" [
    some (playlistGroup "HLS_GROUP" ["s3://vod-destination/12345/hls/dude.m3u8"]),
    some (playlistGroup "DASH_ISO_GROUP" ["s3://vod-destination/12345/dash/dude.mpd"])]

/-- Go variable `Mp4` of `test-events.go`. -/
def Mp4 : EventDetail :=
  { detailOf "vod10" [
      some {
        OutputDetails := [some {
          OutputFilePaths := some [some "s3://vod-destination/12345/mp4/dude_3.0Mbps.mp4"],
          DurationInMs := 13471 }]
        PlaylistFilePaths := []
        «Type» := "FILE_GROUP" }] with
    Status := "COMPLETE" }

/-- The stored item of the tests. -/
def sampleItem (frameCapture : Bool) : Item :=
  [("guid", .S "guid"), ("cloudFront", .S "cloudfront"), ("destBucket", .S "vod-destination"),
   ("frameCapture", .BOOL frameCapture)]

/-- The stored record the item of the tests decodes to: every field not in the
item has its zero value. -/
def sampleData (frameCapture : Bool) : DynamoData where
  GUID := "guid"
  StartTime := ""
  WorkflowTrigger := ""
  WorkflowStatus := ""
  WorkflowName := ""
  SrcBucket := ""
  DestBucket := "vod-destination"
  CloudFront := "cloudfront"
  FrameCapture := frameCapture
  ArchiveSource := ""
  JobTemplate2160p := ""
  JobTemplate1080p := ""
  JobTemplate720p := ""
  InputRotate := ""
  AcceleratedTranscoding := ""
  EnableSns := false
  EnableSqs := false
  SrcVideo := ""
  EnableMediaPackage := false
  SrcMediainfo := ""
  EncodeJobId := ""
  EncodingOutput := detailOf "" []
  EndTime := ""
  HlsPlaylist := none
  HlsUrl := none
  DashPlaylist := none
  DashUrl := none
  Mp4Outputs := []
  Mp4Urls := []
  MssPlaylist := none
  MssUrl := none
  CmafDashPlaylist := none
  CmafDashUrl := none
  CmafHlsPlaylist := none
  CmafHlsUrl := none
  ThumbNails := []
  ThumbNailsUrls := []

/-- A handler as the tests set it up: the event decodes to `detail`, the table
holds `sampleItem`, and the bucket lists the given objects. -/
def sampleHandler (detail : EventDetail) (frameCapture : Bool) (contents : List (Option Object)) :
    Handler where
  DynamoDBClient := { GetItem := fun _ => .ok { Item := sampleItem frameCapture } }
  S3Client := { ListObjects := fun _ => .ok { Contents := contents } }
  DynamoDBTable := "table"
  Unmarshal := fun _ => .ok detail
  UnmarshalMap := fun _ => .ok (sampleData frameCapture)
  Now := "2024-01-01T00:00:00Z"

/-- A stored item that already holds the HLS playlist and URL written back
after an earlier completion report of the job. -/
def storedHlsItem : Item :=
  sampleItem false ++
    [("hlsPlaylist", .S "s3://vod-destination/12345/hls/dude.m3u8"),
     ("hlsUrl", .S "https://cloudfront/12345/hls/dude.m3u8")]

/-- The stored record `storedHlsItem` decodes to: `dynamodbattribute` fills a
field from the attribute named by its `json` tag, as it does for `cloudFront`
and `destBucket` in the tests. -/
def storedHlsData : DynamoData :=
  { sampleData false with
    HlsPlaylist := some "s3://vod-destination/12345/hls/dude.m3u8"
    HlsUrl := some "https://cloudfront/12345/hls/dude.m3u8" }

/-- A handler whose table holds `storedHlsItem`; the event decodes to
`detail`. -/
def storedHlsHandler (detail : EventDetail) : Handler where
  DynamoDBClient := { GetItem := fun _ => .ok { Item := storedHlsItem } }
  S3Client := { ListObjects := fun _ => .ok { Contents := [] } }
  DynamoDBTable := "table"
  Unmarshal := fun _ => .ok detail
  UnmarshalMap := fun _ => .ok storedHlsData
  Now := "2024-01-01T00:00:00Z"

end OutputValidate

/-! ## Asset ingest (`services/media-package-assets/main.go`) -/

namespace MediaPackageAssets

/-- The scan of Go `strings.ReplaceAll(s, old, new)` for a non-empty `old`, on
lists of characters: from left to right, every occurrence of `old` that does
not overlap an earlier one is replaced by `new`.  The counter is the number of
characters of the current occurrence still to be passed over. -/
def replaceAllAux (old new : List Char) : Nat → List Char → List Char
  | _, [] => []
  | skip + 1, _ :: cs => replaceAllAux old new skip cs
  | 0, c :: cs =>
    if old.isPrefixOf (c :: cs) then new ++ replaceAllAux old new (old.length - 1) cs
    else c :: replaceAllAux old new 0 cs

/-- Go `strings.ReplaceAll(s, old, new)` for a non-empty `old`. -/
def goReplaceAll (s old new : String) : String :=
  String.mk (replaceAllAux old.data new.data 0 s.data)

/-- Go `buildArnFromUri`.  The slice `s3Uri[:len(S3_URI_ID)]` is out of range,
and Go aborts, when the string has fewer bytes than the scheme; the scheme is
ASCII, so the slice equals it exactly when the string starts with its
characters. -/
def buildArnFromUri (s3Uri : String) : Outcome String :=
  if s3Uri.utf8ByteSize < "s3://".utf8ByteSize then
    .panic "runtime error: slice bounds out of range"
  else if "s3://".data.isPrefixOf s3Uri.data = false then
    .error ("invalid S3 URI: " ++ s3Uri)
  else
    .ok ("arn:aws:s3:::" ++ goReplaceAll s3Uri "s3://" "")

end MediaPackageAssets

/-! ## Profile selection: properties -/

namespace Profiler

/-- For a difference of small magnitude the float round trip is exact. -/
theorem profileDiff_exact (oor srcHeight profile : Int)
    (hlo : -(2 ^ 52) ≤ srcHeight - profile) (hhi : srcHeight - profile ≤ 2 ^ 52) :
    profileDiff oor srcHeight profile = |srcHeight - profile| := by
  have hw : wrapInt64 (srcHeight - profile) = srcHeight - profile := by
    unfold wrapInt64
    omega
  have hf : float64OfInt (srcHeight - profile) = srcHeight - profile := by
    have hsmall : (srcHeight - profile).natAbs < 2 ^ 53 := by omega
    unfold float64OfInt
    simp only []
    split
    · rfl
    · omega
  unfold profileDiff intOfFloat64
  rw [hw, hf]
  have h1 : |srcHeight - profile| ≤ 2 ^ 52 := abs_le.mpr ⟨by omega, hhi⟩
  have h2 : 0 ≤ |srcHeight - profile| := abs_nonneg _
  rw [if_pos]
  constructor <;> omega

/-- What a returned output is made of: the stored item, a decoded media
description with a first video stream, and `fillOutput`. -/
theorem HandleRequest_ok (h : Handler) (event : ProfilerInput) (out : ProfilerOutput)
    (hok : HandleRequest h event = .ok out) :
    ∃ item mediainfo v rest,
      h.DynamoDBClient.GetItem
        { TableName := h.DynamoDBTable, PK := "VIDEO#" ++ event.GUID, SK := "METADATA" }
          = .ok { Item := some item } ∧
      parseMediainfo h (outputOfItem item) = .ok mediainfo ∧
      mediainfo.Video = v :: rest ∧
      out = fillOutput h.oor event (outputOfItem item) v := by
  unfold HandleRequest at hok
  split at hok
  · simp at hok
  · rename_i data hdata
    split at hok
    · simp at hok
    · rename_i item hitem
      simp only at hok
      split at hok
      · simp at hok
      · rename_i mediainfo hmi
        split at hok
        · simp at hok
        · rename_i v rest hv
          refine ⟨item, mediainfo, v, rest, ?_, hmi, hv, ?_⟩
          · rw [hdata]
            cases data
            simp_all
          · simpa using hok.symm

theorem fillOutput_EncodingProfile (oor : Int) (event : ProfilerInput) (output : ProfilerOutput)
    (v : Video) :
    (fillOutput oor event output v).EncodingProfile = selectEncodingProfile oor v.Height ∧
    (fillOutput oor event output v).SrcHeight = v.Height ∧
    (fillOutput oor event output v).FrameCapture = output.FrameCapture := by
  unfold fillOutput
  cases event.JobTemplate <;> cases hfc : output.FrameCapture <;> simp [hfc]

theorem select_1620 (oor : Int) : selectEncodingProfile oor 1620 = 2160 := by
  simp [selectEncodingProfile, profiles, profileStep, profileDiff, wrapInt64, float64OfInt,
    intOfFloat64, maxInt32]

theorem select_900 (oor : Int) : selectEncodingProfile oor 900 = 1080 := by
  simp [selectEncodingProfile, profiles, profileStep, profileDiff, wrapInt64, float64OfInt,
    intOfFloat64, maxInt32]

/-- A height at equal distance from two tiers, both nearest, is 1620 (between
2160 and 1080) or 900 (between 1080 and 720). -/
theorem tie_heights (H t1 t2 : Int) (h1 : t1 ∈ profiles) (h2 : t2 ∈ profiles)
    (hlt : profiles.indexOf t1 < profiles.indexOf t2)
    (heq : |H - t1| = |H - t2|) (hmin : ∀ t ∈ profiles, |H - t1| ≤ |H - t|) :
    (H = 1620 ∧ t1 = 2160) ∨ (H = 900 ∧ t1 = 1080) := by
  have m1 := hmin 1080 (by simp [profiles])
  simp only [profiles, List.mem_cons, List.mem_singleton, List.not_mem_nil, or_false] at h1 h2
  rcases abs_cases (H - 2160) with a | a <;> rcases abs_cases (H - 1080) with b | b <;>
    rcases abs_cases (H - 720) with c | c <;>
    rcases h1 with rfl | rfl | rfl <;> rcases h2 with rfl | rfl | rfl <;>
    simp [profiles, List.indexOf_cons] at hlt <;> omega

/-- C1. Profile selection breaks ties towards the tier listed earlier: whenever
the handler returns an output whose source height is equally far from two
tiers of 2160, 1080, 720 that are both nearest, the chosen encodingProfile is
the earlier of the two; height 1620 gives 2160 and height 900 gives 1080. -/
theorem tie_break_earlier_tier (h : Handler) (event : ProfilerInput) (out : ProfilerOutput)
    (hok : HandleRequest h event = .ok out) :
    (∀ t1 t2 : Int, t1 ∈ profiles → t2 ∈ profiles →
        profiles.indexOf t1 < profiles.indexOf t2 →
        |out.SrcHeight - t1| = |out.SrcHeight - t2| →
        (∀ t ∈ profiles, |out.SrcHeight - t1| ≤ |out.SrcHeight - t|) →
        out.EncodingProfile = t1) ∧
    (out.SrcHeight = 1620 → out.EncodingProfile = 2160) ∧
    (out.SrcHeight = 900 → out.EncodingProfile = 1080) := by
  obtain ⟨item, mediainfo, v, rest, -, -, -, rfl⟩ := HandleRequest_ok h event out hok
  obtain ⟨hp, hh, -⟩ := fillOutput_EncodingProfile h.oor event (outputOfItem item) v
  rw [hp, hh]
  refine ⟨?_, ?_, ?_⟩
  · intro t1 t2 h1 h2 hlt heq hmin
    rcases tie_heights v.Height t1 t2 h1 h2 hlt heq hmin with ⟨hH, rfl⟩ | ⟨hH, rfl⟩
    · rw [hH]; exact select_1620 h.oor
    · rw [hH]; exact select_900 h.oor
  · intro hH; rw [hH]; exact select_1620 h.oor
  · intro hH; rw [hH]; exact select_900 h.oor

/-- The handler returns for the sample record at height 1620, and the tier is
2160. -/
theorem tie_break_earlier_tier_witness :
    HandleRequest (sampleHandler true "x" 2880 1620) { GUID := "g", JobTemplate := none }
        = .ok (fillOutput (-(2 ^ 63)) { GUID := "g", JobTemplate := none }
            (outputOfItem (sampleItem true "x")) { Width := 2880, Height := 1620 }) ∧
    (fillOutput (-(2 ^ 63)) { GUID := "g", JobTemplate := none }
        (outputOfItem (sampleItem true "x")) { Width := 2880, Height := 1620 }).EncodingProfile
      = 2160 :=
  ⟨rfl, (tie_break_earlier_tier (sampleHandler true "x" 2880 1620)
      { GUID := "g", JobTemplate := none } _ rfl).2.1 rfl⟩

theorem select_2147485807 (oor : Int) : selectEncodingProfile oor 2147485807 = 0 := by
  simp [selectEncodingProfile, profiles, profileStep, profileDiff, wrapInt64, float64OfInt,
    intOfFloat64, maxInt32]

/-- C2. At source height 2147485807 (a non-negative Go int, one video stream)
the handler returns an output without error whose encodingProfile is 0, which
is none of 2160, 1080, 720: the distance to every tier is at least
math.MaxInt32, the initial value of minProfileDiff, so no tier is ever taken. -/
theorem huge_height_selects_no_tier :
    ∃ out, HandleRequest (sampleHandler false "x" 3840 2147485807)
        { GUID := "g", JobTemplate := none } = .ok out ∧
      out.SrcHeight = 2147485807 ∧ out.EncodingProfile = 0 ∧ out.EncodingProfile ∉ profiles := by
  refine ⟨_, rfl, ?_⟩
  obtain ⟨hp, hh, -⟩ := fillOutput_EncodingProfile (sampleHandler false "x" 3840 2147485807).oor
    { GUID := "g", JobTemplate := none } (outputOfItem (sampleItem false "x"))
    { Width := 3840, Height := 2147485807 }
  rw [hp, hh]
  simp [select_2147485807, profiles]

/-- The tier chosen for a height from 0 up to, and not including, 2^31, by
threshold. -/
theorem select_thresholds (oor H : Int) (h0 : 0 ≤ H) (h1 : H < 2 ^ 31) :
    selectEncodingProfile oor H =
      if H < 900 then 720 else if H < 1620 then 1080 else 2160 := by
  have e1 := profileDiff_exact oor H 2160 (by omega) (by omega)
  have e2 := profileDiff_exact oor H 1080 (by omega) (by omega)
  have e3 := profileDiff_exact oor H 720 (by omega) (by omega)
  simp only [selectEncodingProfile, profiles, List.foldl, profileStep, e1, e2, e3, maxInt32]
  rcases abs_cases (H - 2160) with a | a <;> rcases abs_cases (H - 1080) with b | b <;>
    rcases abs_cases (H - 720) with c | c <;>
    rw [a.1, b.1, c.1] <;> split_ifs <;> first | rfl | omega

/-- C3. Frame-capture geometry: when the handler returns an output for a stored
item, the chosen tier is the one selected for the height of the first video
stream of the stored media description; with frameCapture = true in the item
the output has frameCaptureHeight equal to that tier and frameCaptureWidth
equal to the table value of that tier (3840 for 2160, 1920 for 1080, 1280 for
720), that is 720 by 1280 for a height below 900, 1080 by 1920 from 900 up to
1619 and 2160 by 3840 from 1620 up to 2^31 - 1; with frameCapture = false both
are 0. -/
theorem frame_capture_geometry (h : Handler) (event : ProfilerInput) (item : Item)
    (out : ProfilerOutput)
    (hget : h.DynamoDBClient.GetItem
        { TableName := h.DynamoDBTable, PK := "VIDEO#" ++ event.GUID, SK := "METADATA" }
          = .ok { Item := some item })
    (hok : HandleRequest h event = .ok out) :
    out.FrameCapture = getBoolValue item "frameCapture" ∧
    (∃ (mediainfo : MediaInfo) (v : Video) (rest : List Video),
      parseMediainfo h (outputOfItem item) = .ok mediainfo ∧
      mediainfo.Video = v :: rest ∧
      out.SrcHeight = v.Height ∧
      out.EncodingProfile = selectEncodingProfile h.oor v.Height ∧
      (getBoolValue item "frameCapture" = true →
        out.FrameCaptureHeight = selectEncodingProfile h.oor v.Height ∧
        out.FrameCaptureWidth = ratioTable (selectEncodingProfile h.oor v.Height) ∧
        (0 ≤ v.Height → v.Height < 900 →
          out.FrameCaptureHeight = 720 ∧ out.FrameCaptureWidth = 1280) ∧
        (900 ≤ v.Height → v.Height < 1620 →
          out.FrameCaptureHeight = 1080 ∧ out.FrameCaptureWidth = 1920) ∧
        (1620 ≤ v.Height → v.Height < 2 ^ 31 →
          out.FrameCaptureHeight = 2160 ∧ out.FrameCaptureWidth = 3840))) ∧
    (getBoolValue item "frameCapture" = true →
      out.FrameCaptureHeight = out.EncodingProfile ∧
      out.FrameCaptureWidth = ratioTable out.EncodingProfile) ∧
    (getBoolValue item "frameCapture" = false →
      out.FrameCaptureHeight = 0 ∧ out.FrameCaptureWidth = 0) ∧
    ratioTable 2160 = 3840 ∧ ratioTable 1080 = 1920 ∧ ratioTable 720 = 1280 := by
  obtain ⟨item1, mediainfo, v, rest, hget1, hparse, hv, rfl⟩ := HandleRequest_ok h event out hok
  rw [hget] at hget1
  have hitem : item = item1 := by simpa using hget1
  subst hitem
  have hfc : (outputOfItem item).FrameCapture = getBoolValue item "frameCapture" := rfl
  obtain ⟨hp, hh, hf⟩ := fillOutput_EncodingProfile h.oor event (outputOfItem item) v
  have hgeo : getBoolValue item "frameCapture" = true →
      (fillOutput h.oor event (outputOfItem item) v).FrameCaptureHeight =
        (fillOutput h.oor event (outputOfItem item) v).EncodingProfile ∧
      (fillOutput h.oor event (outputOfItem item) v).FrameCaptureWidth =
        ratioTable (fillOutput h.oor event (outputOfItem item) v).EncodingProfile := by
    intro ht
    rw [← hfc] at ht
    unfold fillOutput
    cases event.JobTemplate <;> simp [ht]
  refine ⟨?_, ⟨mediainfo, v, rest, hparse, hv, hh, hp, ?_⟩, hgeo, ?_, by decide, by decide,
    by decide⟩
  · rw [← hfc]; exact hf
  · intro ht
    obtain ⟨g1, g2⟩ := hgeo ht
    rw [hp] at g1 g2
    refine ⟨g1, g2, ?_, ?_, ?_⟩
    · intro h0 h1
      rw [g1, g2, select_thresholds h.oor v.Height h0 (by omega), if_pos h1]
      exact ⟨rfl, by decide⟩
    · intro h0 h1
      rw [g1, g2, select_thresholds h.oor v.Height (by omega) (by omega), if_neg (by omega),
        if_pos h1]
      exact ⟨rfl, by decide⟩
    · intro h0 h1
      rw [g1, g2, select_thresholds h.oor v.Height (by omega) h1, if_neg (by omega),
        if_neg (by omega)]
      exact ⟨rfl, by decide⟩
  · intro hf0
    rw [← hfc] at hf0
    unfold fillOutput
    cases event.JobTemplate <;> simp [hf0] <;> exact ⟨rfl, rfl⟩

/-- The handler returns for the sample record at height 1620: with frame
capture on the geometry is 2160 by 3840, and the chosen tier is 2160. -/
theorem frame_capture_geometry_witness :
    HandleRequest (sampleHandler true "x" 2880 1620) { GUID := "g", JobTemplate := none }
        = .ok (fillOutput (-(2 ^ 63)) { GUID := "g", JobTemplate := none }
            (outputOfItem (sampleItem true "x")) { Width := 2880, Height := 1620 }) ∧
    (fillOutput (-(2 ^ 63)) { GUID := "g", JobTemplate := none }
        (outputOfItem (sampleItem true "x")) { Width := 2880, Height := 1620 }).FrameCaptureHeight
      = 2160 ∧
    (fillOutput (-(2 ^ 63)) { GUID := "g", JobTemplate := none }
        (outputOfItem (sampleItem true "x")) { Width := 2880, Height := 1620 }).FrameCaptureWidth
      = 3840 := by
  obtain ⟨-, ⟨mediainfo, v, rest, -, -, hsrc, -, hgeo⟩, -⟩ :=
    frame_capture_geometry (sampleHandler true "x" 2880 1620)
      { GUID := "g", JobTemplate := none } (sampleItem true "x") _ rfl rfl
  have hv : v.Height = 1620 := hsrc.symm.trans rfl
  obtain ⟨-, -, -, -, g3⟩ := hgeo rfl
  have hx := g3 (by omega) (by omega)
  exact ⟨rfl, hx.1, hx.2⟩

/-- C4. Custom-template marking: when the handler returns an output, its
isCustomTemplate is true exactly when the request carries an explicit
jobTemplate, and the same request without the template also returns, with the
same encodingProfile, frameCaptureHeight and frameCaptureWidth. -/
theorem custom_template_marking (h : Handler) (event : ProfilerInput) (out : ProfilerOutput)
    (hok : HandleRequest h event = .ok out) :
    out.IsCustomTemplate = event.JobTemplate.isSome ∧
    ∃ out0, HandleRequest h { event with JobTemplate := none } = .ok out0 ∧
      out0.IsCustomTemplate = false ∧
      out.EncodingProfile = out0.EncodingProfile ∧
      out.FrameCaptureHeight = out0.FrameCaptureHeight ∧
      out.FrameCaptureWidth = out0.FrameCaptureWidth := by
  obtain ⟨item, mediainfo, v, rest, hget, hparse, hv, rfl⟩ := HandleRequest_ok h event out hok
  refine ⟨?_, fillOutput h.oor { event with JobTemplate := none } (outputOfItem item) v, ?_, ?_⟩
  · unfold fillOutput
    cases event.JobTemplate <;> rfl
  · unfold HandleRequest
    simp only [hget, hparse, hv]
  · unfold fillOutput
    cases event.JobTemplate <;> cases hfc : (outputOfItem item).FrameCapture <;> simp [hfc]

/-- With an explicit template the sample request is marked custom and keeps
the tier of the plain request. -/
theorem custom_template_marking_witness :
    (fillOutput (-(2 ^ 63)) { GUID := "g", JobTemplate := some "custom-template" }
        (outputOfItem (sampleItem true "x")) { Width := 2880, Height := 1620 }).IsCustomTemplate
      = true :=
  (custom_template_marking (sampleHandler true "x" 2880 1620)
    { GUID := "g", JobTemplate := some "custom-template" } _ rfl).1

/-- With an explicit template in the request the jobTemplate field of a returned
output is the empty string: the branch for a non-nil `event.JobTemplate` only
sets `IsCustomTemplate`. -/
theorem explicit_template_left_empty (h : Handler) (guid T : String) (out : ProfilerOutput)
    (hok : HandleRequest h { GUID := guid, JobTemplate := some T } = .ok out) :
    out.JobTemplate = "" ∧ out.IsCustomTemplate = true := by
  obtain ⟨item, mediainfo, v, rest, -, -, -, rfl⟩ := HandleRequest_ok h _ out hok
  unfold fillOutput
  cases hfc : (outputOfItem item).FrameCapture <;> simp [hfc] <;> rfl

/-- C5. For the request carrying the explicit template name custom-template the
handler returns an output whose jobTemplate is the empty string, not the name
supplied by the caller. -/
theorem explicit_template_name_dropped :
    ∃ out, HandleRequest (sampleHandler false "x" 1920 1080)
        { GUID := "g", JobTemplate := some "custom-template" } = .ok out ∧
      out.JobTemplate = "" ∧ out.JobTemplate ≠ "custom-template" ∧
      out.IsCustomTemplate = true := by
  refine ⟨_, rfl, ?_⟩
  have hx := explicit_template_left_empty (sampleHandler false "x" 1920 1080) "g"
    "custom-template" _ rfl
  refine ⟨hx.1, ?_, hx.2⟩
  rw [hx.1]
  decide

/-- C6. With zero video streams the handler neither returns an error nor an
output: it aborts at `mediainfo.Video[0]`.  This holds for a stored item whose
srcMediainfo is empty and for one whose media description decodes to no video
stream. -/
theorem no_video_stream_panics :
    HandleRequest (sampleHandler false "" 0 0) { GUID := "g", JobTemplate := none }
      = .panic "runtime error: index out of range [0] with length 0" ∧
    HandleRequest { sampleHandler false "x" 0 0 with Unmarshal := fun _ => .ok { Video := [] } }
        { GUID := "g", JobTemplate := none }
      = .panic "runtime error: index out of range [0] with length 0" ∧
    (HandleRequest (sampleHandler false "" 0 0) { GUID := "g", JobTemplate := none }).isError
      = false :=
  ⟨rfl, rfl, rfl⟩

/-- C27. Minimum-distance thresholds: whenever the handler returns an output
whose source height h satisfies 0 <= h < 2^31, the chosen encodingProfile is
one of 2160, 1080, 720 and minimises |h - t| over these three tiers; it is 720
when h < 900, 1080 when 900 <= h < 1620, and 2160 when h >= 1620.  The source
height of the output is the height of the first video stream of the stored
media description. -/
theorem minimum_distance_thresholds (h : Handler) (event : ProfilerInput) (out : ProfilerOutput)
    (hok : HandleRequest h event = .ok out)
    (h0 : 0 ≤ out.SrcHeight) (h1 : out.SrcHeight < 2 ^ 31) :
    out.EncodingProfile = selectEncodingProfile h.oor out.SrcHeight ∧
    out.EncodingProfile ∈ profiles ∧
    (∀ t ∈ profiles, |out.SrcHeight - out.EncodingProfile| ≤ |out.SrcHeight - t|) ∧
    (out.SrcHeight < 900 → out.EncodingProfile = 720) ∧
    (900 ≤ out.SrcHeight → out.SrcHeight < 1620 → out.EncodingProfile = 1080) ∧
    (1620 ≤ out.SrcHeight → out.EncodingProfile = 2160) := by
  obtain ⟨item, mediainfo, v, rest, -, -, -, rfl⟩ := HandleRequest_ok h event out hok
  obtain ⟨hp, hh, -⟩ := fillOutput_EncodingProfile h.oor event (outputOfItem item) v
  rw [hh] at h0 h1
  rw [hp, hh, select_thresholds h.oor v.Height h0 h1]
  refine ⟨rfl, ?_, ?_, ?_, ?_, ?_⟩
  · simp only [profiles, List.mem_cons, List.mem_singleton, List.not_mem_nil, or_false]
    split_ifs <;> simp
  · intro t ht
    simp only [profiles, List.mem_cons, List.mem_singleton, List.not_mem_nil, or_false] at ht
    rcases abs_cases (v.Height - 2160) with a | a <;>
      rcases abs_cases (v.Height - 1080) with b | b <;>
      rcases abs_cases (v.Height - 720) with c | c <;>
      rcases ht with rfl | rfl | rfl <;> split_ifs <;> omega
  · intro hlt
    rw [if_pos hlt]
  · intro hge hlt
    rw [if_neg (by omega), if_pos hlt]
  · intro hge
    rw [if_neg (by omega), if_neg (by omega)]

/-- The handler returns for the sample record at height 1000, and the tier is
1080. -/
theorem minimum_distance_thresholds_witness :
    HandleRequest (sampleHandler false "x" 1778 1000) { GUID := "g", JobTemplate := none }
        = .ok (fillOutput (-(2 ^ 63)) { GUID := "g", JobTemplate := none }
            (outputOfItem (sampleItem false "x")) { Width := 1778, Height := 1000 }) ∧
    (fillOutput (-(2 ^ 63)) { GUID := "g", JobTemplate := none }
        (outputOfItem (sampleItem false "x")) { Width := 1778, Height := 1000 }).EncodingProfile
      = 1080 :=
  ⟨rfl, (minimum_distance_thresholds (sampleHandler false "x" 1778 1000)
      { GUID := "g", JobTemplate := none } _ rfl (by decide) (by decide)).2.2.2.2.1
        (by decide) (by decide)⟩

/-- C28. Tier-derived template: when the request carries no explicit template
and the handler returns an output, the output's isCustomTemplate is false and
its jobTemplate is the template name the stored record holds for the chosen
tier: the attribute jobTemplate_2160p for tier 2160, jobTemplate_1080p for
1080 and jobTemplate_720p for 720. -/
theorem tier_derived_template (h : Handler) (event : ProfilerInput) (out : ProfilerOutput)
    (hok : HandleRequest h event = .ok out) (hnone : event.JobTemplate = none) :
    ∃ item, h.DynamoDBClient.GetItem
        { TableName := h.DynamoDBTable, PK := "VIDEO#" ++ event.GUID, SK := "METADATA" }
          = .ok { Item := some item } ∧
      out.IsCustomTemplate = false ∧
      out.JobTemplate = jobTemplates (outputOfItem item) out.EncodingProfile ∧
      (out.EncodingProfile = 2160 → out.JobTemplate = getStringValue item "jobTemplate_2160p") ∧
      (out.EncodingProfile = 1080 → out.JobTemplate = getStringValue item "jobTemplate_1080p") ∧
      (out.EncodingProfile = 720 → out.JobTemplate = getStringValue item "jobTemplate_720p") := by
  obtain ⟨item, mediainfo, v, rest, hget, -, -, rfl⟩ := HandleRequest_ok h event out hok
  refine ⟨item, hget, ?_⟩
  have hshape : (fillOutput h.oor event (outputOfItem item) v).IsCustomTemplate = false ∧
      (fillOutput h.oor event (outputOfItem item) v).JobTemplate =
        jobTemplates (outputOfItem item)
          (fillOutput h.oor event (outputOfItem item) v).EncodingProfile := by
    unfold fillOutput
    rw [hnone]
    cases hfc : (outputOfItem item).FrameCapture <;> simp [hfc, jobTemplates]
  refine ⟨hshape.1, hshape.2, ?_, ?_, ?_⟩
  · intro hp
    rw [hshape.2, hp]
    rfl
  · intro hp
    rw [hshape.2, hp]
    rfl
  · intro hp
    rw [hshape.2, hp]
    rfl

/-- For the sample record at height 1000 and a request without template the
handler returns, and the output names the template stored for tier 1080. -/
theorem tier_derived_template_witness :
    HandleRequest (sampleHandler false "x" 1778 1000) { GUID := "g", JobTemplate := none }
        = .ok (fillOutput (-(2 ^ 63)) { GUID := "g", JobTemplate := none }
            (outputOfItem (sampleItem false "x")) { Width := 1778, Height := 1000 }) ∧
    (fillOutput (-(2 ^ 63)) { GUID := "g", JobTemplate := none }
        (outputOfItem (sampleItem false "x")) { Width := 1778, Height := 1000 }).JobTemplate
      = "tmpl2" ∧
    (fillOutput (-(2 ^ 63)) { GUID := "g", JobTemplate := none }
        (outputOfItem (sampleItem false "x")) { Width := 1778, Height := 1000 }).IsCustomTemplate
      = false := by
  obtain ⟨item, hget, hcustom, -, -, h1080, -⟩ :=
    tier_derived_template (sampleHandler false "x" 1778 1000)
      { GUID := "g", JobTemplate := none } _ rfl rfl
  have hitem : item = sampleItem false "x" := by
    simp only [sampleHandler, Except.ok.injEq, GetItemOutput.mk.injEq, Option.some.injEq] at hget
    exact hget.symm
  subst hitem
  refine ⟨rfl, ?_, hcustom⟩
  exact (h1080 ((fillOutput_EncodingProfile _ _ _ _).1.trans
    (by rw [select_thresholds _ _ (by decide) (by decide)]; rfl))).trans rfl

end Profiler

/-! ## Job specification builder: properties -/

namespace Encode

theorem lookupField_nil (k : String) : lookupField [] k = .null := rfl

theorem lookupField_cons (k1 : String) (v : GoVal) (rest : List (String × GoVal)) (k : String) :
    lookupField ((k1, v) :: rest) k = if k = k1 then v else lookupField rest k := by
  unfold lookupField
  by_cases h : k = k1
  · subst h; simp [List.lookup]
  · have hb : (k == k1) = false := by simpa using h
    simp [List.lookup, hb, h]

theorem lookupField_setField (fs : List (String × GoVal)) (k : String) (v : GoVal) (k1 : String) :
    lookupField (setField fs k v) k1 = if k1 = k then v else lookupField fs k1 := by
  induction fs with
  | nil =>
    simp only [setField, lookupField_cons, lookupField_nil]
  | cons hd tl ih =>
    obtain ⟨k0, v0⟩ := hd
    unfold setField
    by_cases h0 : k0 = k
    · subst h0
      simp only [if_true, lookupField_cons]
      by_cases h1 : k1 = k0 <;> simp [h1]
    · simp only [h0, if_false, lookupField_cons, ih]
      by_cases h1 : k1 = k
      · subst h1
        have : ¬ k1 = k0 := fun e => h0 e.symm
        simp [this]
      · simp [h1]

theorem deepMerge_null_right (d : GoVal) : deepMerge d .null = d := by
  unfold deepMerge
  rfl

theorem lookupField_mergeFields (fd fs : List (String × GoVal)) (k : String) :
    lookupField (mergeFields fd fs) k = deepMerge (lookupField fd k) (lookupField fs k) := by
  induction fs with
  | nil =>
    simp [mergeFields, lookupField_nil, deepMerge_null_right]
  | cons hd tl ih =>
    obtain ⟨k0, v0⟩ := hd
    simp only [mergeFields, lookupField_setField, lookupField_cons]
    by_cases h : k = k0
    · subst h; simp
    · simp [h, ih]

theorem get_nil (v : GoVal) : v.get [] = v := by
  cases v <;> rfl

theorem get_struct_cons (fs : List (String × GoVal)) (k : String) (p : List String) :
    (GoVal.struct fs).get (k :: p) = (lookupField fs k).get p := rfl

theorem get_null (p : List String) : GoVal.null.get p = .null := by
  cases p <;> rfl

theorem get_cons_of_not_struct (v : GoVal) (k : String) (p : List String)
    (h : ∀ fs, v ≠ .struct fs) : v.get (k :: p) = .null := by
  cases v <;> first | rfl | exact absurd rfl (h _)

/-- A field the source value leaves unset keeps the value of the destination. -/
theorem get_deepMerge_of_unset (p : List String) (d s : GoVal) (hs : s.get p = .null) :
    (deepMerge d s).get p = d.get p := by
  induction p generalizing d s with
  | nil =>
    rw [get_nil] at hs
    subst hs
    rw [deepMerge_null_right]
  | cons k q ih =>
    cases s with
    | null => rw [deepMerge_null_right]
    | struct fs =>
      rw [get_struct_cons] at hs
      cases d with
      | struct fd =>
        simp only [deepMerge, get_struct_cons, lookupField_mergeFields]
        exact ih _ _ hs
      | null => simp only [deepMerge, get_struct_cons, hs, get_null]
      | _ => simp only [deepMerge]
    | slice xs =>
      cases d <;> simp only [deepMerge] <;> (try split) <;> rfl
    | int b =>
      cases d <;> simp only [deepMerge] <;> (try split) <;> rfl
    | float b =>
      cases d <;> simp only [deepMerge] <;> (try split) <;> rfl
    | str b =>
      cases d <;> simp only [deepMerge] <;> (try split) <;> rfl
    | bool b =>
      cases d <;> simp only [deepMerge] <;> (try split) <;> rfl

theorem sameKind_lookupField (fd fs : List (String × GoVal)) (h : sameKindFields fd fs = true)
    (k : String) : sameKind (lookupField fd k) (lookupField fs k) = true := by
  induction fs with
  | nil => simp [lookupField_nil, sameKind]
  | cons hd tl ih =>
    obtain ⟨k0, v0⟩ := hd
    simp only [sameKindFields, Bool.and_eq_true] at h
    rw [lookupField_cons]
    by_cases hk : k = k0
    · subst hk; simpa using h.1
    · simpa [hk] using ih h.2

/-- A scalar or slice the source value sets to a non-zero, non-empty value
replaces the value of the destination. -/
theorem get_deepMerge_of_set (p : List String) (d s : GoVal) (hk : sameKind d s = true)
    (hleaf : (s.get p).isLeaf = true) (hne : isEmptyValue (s.get p) = false) :
    (deepMerge d s).get p = s.get p := by
  induction p generalizing d s with
  | nil =>
    rw [get_nil] at hleaf hne
    rw [get_nil, get_nil]
    cases s <;> cases d <;>
      simp_all [deepMerge, sameKind, GoVal.isLeaf, isEmptyValue]
  | cons k q ih =>
    cases s with
    | struct fs =>
      rw [get_struct_cons] at hleaf hne ⊢
      cases d with
      | struct fd =>
        simp only [deepMerge, get_struct_cons, lookupField_mergeFields]
        simp only [sameKind] at hk
        exact ih _ _ (sameKind_lookupField fd fs hk k) hleaf hne
      | null => simp only [deepMerge, get_struct_cons]
      | _ => simp [sameKind] at hk
    | _ => simp [GoVal.get, GoVal.isLeaf] at hleaf

/-- A zero or empty value of the source does not replace a value set in the
destination. -/
theorem get_deepMerge_of_empty (p : List String) (d s : GoVal)
    (he : isEmptyValue (s.get p) = true) (hd : d.get p ≠ .null) :
    (deepMerge d s).get p = d.get p := by
  induction p generalizing d s with
  | nil =>
    rw [get_nil] at he hd
    rw [get_nil, get_nil]
    cases s <;> cases d <;> simp_all [deepMerge, isEmptyValue]
  | cons k q ih =>
    cases d with
    | struct fd =>
      rw [get_struct_cons] at hd
      cases s with
      | struct fs =>
        rw [get_struct_cons] at he
        simp only [deepMerge, get_struct_cons, lookupField_mergeFields]
        exact ih _ _ he hd
      | null => rw [deepMerge_null_right]
      | _ => simp only [deepMerge]
    | _ => simp [GoVal.get] at hd

/-- When both values set a field, the merged field is the merge of the two. -/
theorem get_deepMerge_of_both (p : List String) (d s : GoVal)
    (hd : d.get p ≠ .null) (hs : s.get p ≠ .null) :
    (deepMerge d s).get p = deepMerge (d.get p) (s.get p) := by
  induction p generalizing d s with
  | nil => simp only [get_nil]
  | cons k q ih =>
    cases d with
    | struct fd =>
      cases s with
      | struct fs =>
        rw [get_struct_cons] at hd hs
        simp only [deepMerge, get_struct_cons, lookupField_mergeFields]
        exact ih _ _ hd hs
      | _ => simp [GoVal.get] at hs
    | _ => simp [GoVal.get] at hd

theorem Groups.get_set (g : Groups) (r : GroupRef) (v : GoVal) (r1 : GroupRef) :
    (g.set r v).get r1 = if r1 = r then v else g.get r1 := by
  cases r <;> cases r1 <;> simp [Groups.set, Groups.get]

theorem refOf_ne_frame (g : GoVal) : refOf g ≠ some .frameCaptureGroup := by
  unfold refOf
  cases groupType g with
  | none => simp
  | some ty =>
    simp only [Option.bind, defaultGroupOf]
    repeat' split
    all_goals simp

/-- One iteration of the loop in terms of `refOf`. -/
theorem loopStep_ok (st st1 : LoopState) (g : GoVal) (h : loopStep st g = .ok st1) :
    (groupType g).isSome = true ∧
    ((refOf g = none ∧ st1 = st) ∨
     ∃ r, refOf g = some r ∧
       st1 = { groups := st.groups.set r (deepMerge (st.groups.get r) g),
               outputGroups := st.outputGroups ++ [r] }) := by
  unfold loopStep at h
  unfold refOf
  cases hty : groupType g with
  | none => simp [hty] at h
  | some ty =>
    simp only [hty] at h
    refine ⟨rfl, ?_⟩
    cases hr : defaultGroupOf ty with
    | none =>
      simp only [hr] at h
      left
      exact ⟨by simp [hr], by simpa using h.symm⟩
    | some r =>
      simp only [hr] at h
      right
      exact ⟨r, by simp [hr], by simpa using h.symm⟩

/-- The loop succeeds on a template all of whose groups carry a type. -/
theorem loopGroups_total (gs : List GoVal) (st : LoopState)
    (hty : ∀ g ∈ gs, (groupType g).isSome = true) :
    ∃ st1, loopGroups st gs = .ok st1 := by
  induction gs generalizing st with
  | nil => exact ⟨st, rfl⟩
  | cons g rest ih =>
    have hg := hty g (List.mem_cons_self _ _)
    obtain ⟨ty, hty1⟩ := Option.isSome_iff_exists.mp hg
    have hrest : ∀ x ∈ rest, (groupType x).isSome = true :=
      fun x hx => hty x (List.mem_cons_of_mem _ hx)
    unfold loopGroups loopStep
    simp only [hty1]
    cases defaultGroupOf ty with
    | none => exact ih st hrest
    | some r => exact ih _ hrest

/-- The state after the loop: one pointer per dispatched template group, in
order, and behind pointer `r` the default group with every template group
dispatched to `r` merged onto it in turn. -/
theorem loopGroups_spec (gs : List GoVal) (st st1 : LoopState)
    (h : loopGroups st gs = .ok st1) :
    (∀ g ∈ gs, (groupType g).isSome = true) ∧
    st1.outputGroups = st.outputGroups ++ gs.filterMap refOf ∧
    ∀ r, st1.groups.get r =
      (gs.filter (fun g => decide (refOf g = some r))).foldl deepMerge (st.groups.get r) := by
  induction gs generalizing st with
  | nil =>
    simp only [loopGroups, Outcome.ok.injEq] at h
    subst h
    simp
  | cons g rest ih =>
    unfold loopGroups at h
    cases hstep : loopStep st g with
    | error e => simp [hstep] at h
    | panic e => simp [hstep] at h
    | ok st2 =>
      simp only [hstep] at h
      obtain ⟨hall, hrefs, hgroups⟩ := ih st2 h
      obtain ⟨hsome, hcase⟩ := loopStep_ok st st2 g hstep
      refine ⟨?_, ?_, ?_⟩
      · intro x hx
        rcases List.mem_cons.mp hx with rfl | hx
        · exact hsome
        · exact hall x hx
      · rcases hcase with ⟨hnone, rfl⟩ | ⟨r, hr, rfl⟩
        · rw [hrefs, List.filterMap_cons_none hnone]
        · rw [hrefs, List.filterMap_cons_some hr]
          simp
      · intro r1
        rw [hgroups r1]
        rcases hcase with ⟨hnone, rfl⟩ | ⟨r, hr, rfl⟩
        · simp [List.filter_cons, hnone]
        · by_cases hrr : r1 = r
          · subst hrr
            simp [List.filter_cons, hr, Groups.get_set]
          · have hne : ¬ r = r1 := fun e => hrr e.symm
            simp [List.filter_cons, hr, Groups.get_set, hrr, hne]

theorem applyAcceleration_OutputGroups (event : EncodeInput) (job : CreateJobInput) :
    (applyAcceleration event job).Settings.OutputGroups = job.Settings.OutputGroups := by
  unfold applyAcceleration
  split <;> rfl

/-- What a built job is made of: the template groups, the state after the
loop, and the pointers of the job dereferenced in that state. -/
theorem buildJob_ok (h : Handler) (event : EncodeInput) (template : GetJobTemplateOutput)
    (job : CreateJobInput) (hjob : buildJob h event template = .ok job) :
    ∃ jt settings st,
      template.JobTemplate = some jt ∧ jt.Settings = some settings ∧
      loopGroups
        { groups := initGroups event ("s3://" ++ event.DestBucket ++ "/" ++ event.GUID),
          outputGroups := [] } settings.OutputGroups = .ok st ∧
      job.Settings.OutputGroups = (finalRefs event st).map st.groups.get := by
  unfold buildJob at hjob
  simp only at hjob
  split at hjob
  · simp at hjob
  · rename_i jt hjt
    split at hjob
    · simp at hjob
    · rename_i settings hsettings
      split at hjob
      · simp at hjob
      · simp at hjob
      · rename_i st hst
        refine ⟨jt, settings, st, hjt, hsettings, hst, ?_⟩
        simp only [Outcome.ok.injEq] at hjob
        rw [← hjob, applyAcceleration_OutputGroups]

theorem getElem?_append_cons_length {α : Type} (xs : List α) (x : α) (ys : List α) :
    (xs ++ x :: ys)[xs.length]? = some x := by
  induction xs with
  | nil => simp
  | cons a as ih => simpa using ih

theorem filter_eq_nil_of_forall {α : Type} (q : α → Bool) (l : List α)
    (h : ∀ x ∈ l, q x = false) : l.filter q = [] := by
  induction l with
  | nil => rfl
  | cons a as ih =>
    have ha := h a (List.mem_cons_self _ _)
    simp only [List.filter_cons, ha]
    exact ih (fun x hx => h x (List.mem_cons_of_mem _ hx))

theorem initGroups_frame (event : EncodeInput) (outputPath : String) :
    (initGroups event outputPath).get .frameCaptureGroup = getFrameGroup event outputPath := rfl

/-- The entry of the built job for a template group that is the only one
dispatched to its default group: the default with that group merged onto it. -/
theorem buildJob_entry (h : Handler) (event : EncodeInput) (pre post : List GoVal) (g : GoVal)
    (r : GroupRef) (job : CreateJobInput)
    (hr : refOf g = some r) (hother : ∀ x ∈ pre ++ post, refOf x ≠ some r)
    (hjob : buildJob h event (templateOf (pre ++ g :: post)) = .ok job) :
    job.Settings.OutputGroups[(pre.filterMap refOf).length]? =
      some (deepMerge
        ((initGroups event ("s3://" ++ event.DestBucket ++ "/" ++ event.GUID)).get r) g) := by
  obtain ⟨jt, settings, st, hjt, hsettings, hloop, hgroups⟩ := buildJob_ok h event _ job hjob
  simp only [templateOf, Option.some.injEq] at hjt
  subst hjt
  simp only [Option.some.injEq] at hsettings
  subst hsettings
  obtain ⟨-, hrefs, hvals⟩ := loopGroups_spec _ _ _ hloop
  simp only [List.nil_append, List.filterMap_append, List.filterMap_cons_some hr] at hrefs
  have hfin : ∃ tail, finalRefs event st = pre.filterMap refOf ++ r :: tail := by
    unfold finalRefs
    rw [hrefs]
    split
    · exact ⟨post.filterMap refOf ++ [.frameCaptureGroup], by simp⟩
    · exact ⟨post.filterMap refOf, rfl⟩
  obtain ⟨tail, htail⟩ := hfin
  rw [hgroups, htail, List.getElem?_map, getElem?_append_cons_length, Option.map_some', hvals r]
  have hpre : pre.filter (fun x => decide (refOf x = some r)) = [] :=
    filter_eq_nil_of_forall _ _ (fun x hx => by
      simpa using hother x (List.mem_append_left _ hx))
  have hpost : post.filter (fun x => decide (refOf x = some r)) = [] :=
    filter_eq_nil_of_forall _ _ (fun x hx => by
      simpa using hother x (List.mem_append_right _ hx))
  simp [List.filter_append, List.filter_cons, hpre, hpost, hr]

theorem refOf_hls (g : GoVal) : refOf g = some .hlsGroup ↔ groupType g = some "HLS_GROUP_SETTINGS" := by
  unfold refOf
  cases groupType g with
  | none => simp
  | some ty =>
    simp only [Option.bind, defaultGroupOf, Option.some.injEq]
    constructor
    · intro hx
      repeat' split at hx
      all_goals first | (subst_vars; rfl) | simp at hx
    · intro hx
      subst hx
      decide

/-- The job is built whenever every template group carries a type. -/
theorem buildJob_total (h : Handler) (event : EncodeInput) (gs : List GoVal)
    (hty : ∀ g ∈ gs, (groupType g).isSome = true) :
    ∃ job, buildJob h event (templateOf gs) = .ok job := by
  obtain ⟨st, hst⟩ := loopGroups_total gs
    { groups := initGroups event ("s3://" ++ event.DestBucket ++ "/" ++ event.GUID),
      outputGroups := [] } hty
  unfold buildJob
  simp only [templateOf, hst]
  exact ⟨_, rfl⟩

/-- C7, amended. Merge precedence for HLS: for every template HLS group that
sets a non-zero segment length n and a min segment length m but no destination,
and is the only HLS group of its template, the entry of the submitted job for
it has segment length n, min segment length m and the catalogue default
destination s3://destBucket/guid/hls/; the default segment length it replaces
is 5. -/
theorem hls_merge_precedence (h : Handler) (event : EncodeInput) (pre post : List GoVal)
    (g : GoVal) (n m : Int) (job : CreateJobInput)
    (hty : groupType g = some "HLS_GROUP_SETTINGS")
    (hseg : g.get ["OutputGroupSettings", "HlsGroupSettings", "SegmentLength"] = .int n)
    (hn : n ≠ 0)
    (hmin : g.get ["OutputGroupSettings", "HlsGroupSettings", "MinSegmentLength"] = .int m)
    (hdest : g.get ["OutputGroupSettings", "HlsGroupSettings", "Destination"] = .null)
    (hother : ∀ x ∈ pre ++ post, groupType x ≠ some "HLS_GROUP_SETTINGS")
    (hjob : buildJob h event (templateOf (pre ++ g :: post)) = .ok job) :
    ∃ M, job.Settings.OutputGroups[(pre.filterMap refOf).length]? = some M ∧
      M.get ["OutputGroupSettings", "HlsGroupSettings", "SegmentLength"] = .int n ∧
      M.get ["OutputGroupSettings", "HlsGroupSettings", "MinSegmentLength"] = .int m ∧
      M.get ["OutputGroupSettings", "HlsGroupSettings", "Destination"] =
        .str ("s3://" ++ event.DestBucket ++ "/" ++ event.GUID ++ "/hls/") ∧
      (getHlsGroup ("s3://" ++ event.DestBucket ++ "/" ++ event.GUID)).get
        ["OutputGroupSettings", "HlsGroupSettings", "SegmentLength"] = .int 5 := by
  have hentry := buildJob_entry h event pre post g .hlsGroup job ((refOf_hls g).mpr hty)
    (fun x hx hrx => hother x hx ((refOf_hls x).mp hrx)) hjob
  refine ⟨_, hentry, ?_, ?_, ?_, rfl⟩
  · rw [get_deepMerge_of_both _ _ _ (by simp [initGroups, Groups.get, getHlsGroup, GoVal.get,
      lookupField, List.lookup]) (by rw [hseg]; simp), hseg]
    simp [initGroups, Groups.get, getHlsGroup, GoVal.get, lookupField, List.lookup, deepMerge, hn]
  · rw [get_deepMerge_of_both _ _ _ (by simp [initGroups, Groups.get, getHlsGroup, GoVal.get,
      lookupField, List.lookup]) (by rw [hmin]; simp), hmin]
    simp [initGroups, Groups.get, getHlsGroup, GoVal.get, lookupField, List.lookup, deepMerge]
    intro hm
    exact hm.symm
  · rw [get_deepMerge_of_unset _ _ _ hdest]
    simp [initGroups, Groups.get, getHlsGroup, GoVal.get, lookupField, List.lookup]

/-- The test template, one HLS group with segment length 10 and min segment
length 2: the job is built and its first group has 10, 2 and the default
destination. -/
theorem hls_merge_precedence_witness :
    ∃ job M, buildJob (sampleHandler []) (sampleEvent false 0 0)
        (templateOf [hlsTemplateGroup "custom-output-group" 10 2]) = .ok job ∧
      job.Settings.OutputGroups[0]? = some M ∧
      M.get ["OutputGroupSettings", "HlsGroupSettings", "SegmentLength"] = .int 10 ∧
      M.get ["OutputGroupSettings", "HlsGroupSettings", "MinSegmentLength"] = .int 2 ∧
      M.get ["OutputGroupSettings", "HlsGroupSettings", "Destination"] =
        .str "s3://dest/12345678/hls/" := by
  obtain ⟨job, hjob⟩ := buildJob_total (sampleHandler []) (sampleEvent false 0 0)
    [hlsTemplateGroup "custom-output-group" 10 2] (by decide)
  obtain ⟨M, h0, h1, h2, h3, -⟩ := hls_merge_precedence (sampleHandler []) (sampleEvent false 0 0)
    [] [] (hlsTemplateGroup "custom-output-group" 10 2) 10 2 job rfl rfl (by decide) rfl rfl
    (by simp) hjob
  exact ⟨job, M, hjob, h0, h1, h2, h3⟩

/-- C8, as stated, fails: a template HLS group that sets SegmentLength to the
non-nil value 0 does not win; the merged group of the submitted job keeps the
catalogue default 5. -/
theorem zero_template_value_not_taken :
    ∃ job M, buildJob (sampleHandler []) (sampleEvent false 0 0)
        (templateOf [hlsTemplateGroup "custom-output-group" 0 2]) = .ok job ∧
      job.Settings.OutputGroups[0]? = some M ∧
      (hlsTemplateGroup "custom-output-group" 0 2).get
        ["OutputGroupSettings", "HlsGroupSettings", "SegmentLength"] = .int 0 ∧
      M.get ["OutputGroupSettings", "HlsGroupSettings", "SegmentLength"] = .int 5 ∧
      M.get ["OutputGroupSettings", "HlsGroupSettings", "SegmentLength"] ≠
        (hlsTemplateGroup "custom-output-group" 0 2).get
          ["OutputGroupSettings", "HlsGroupSettings", "SegmentLength"] := by
  obtain ⟨job, hjob⟩ := buildJob_total (sampleHandler []) (sampleEvent false 0 0)
    [hlsTemplateGroup "custom-output-group" 0 2] (by decide)
  have hentry := buildJob_entry (sampleHandler []) (sampleEvent false 0 0) [] []
    (hlsTemplateGroup "custom-output-group" 0 2) .hlsGroup job rfl (by simp) hjob
  have h5 : (deepMerge ((initGroups (sampleEvent false 0 0)
      ("s3://" ++ (sampleEvent false 0 0).DestBucket ++ "/" ++ (sampleEvent false 0 0).GUID)).get
        .hlsGroup) (hlsTemplateGroup "custom-output-group" 0 2)).get
      ["OutputGroupSettings", "HlsGroupSettings", "SegmentLength"] = .int 5 := by
    rw [get_deepMerge_of_empty ["OutputGroupSettings", "HlsGroupSettings", "SegmentLength"] _
      (hlsTemplateGroup "custom-output-group" 0 2) rfl
      (by simp [initGroups, Groups.get, getHlsGroup, GoVal.get, lookupField, List.lookup])]
    rfl
  refine ⟨job, _, hjob, hentry, rfl, h5, ?_⟩
  rw [h5]
  simp [hlsTemplateGroup, GoVal.get, lookupField, List.lookup]

/-- C8, amended. For a recognised template output group that is the only one of
its type in the template and has the Go type of the catalogue default, the
entry M of the submitted job satisfies, at every field path p: a field the
template leaves unset has the default value; a scalar or list field the
template sets to a non-zero, non-empty value has the template value; a field
the template sets to zero, the empty string, false or an empty list keeps the
value the default sets.  The outputs of M are exactly the list of outputs of
the template group. -/
theorem merge_rule_by_field (h : Handler) (event : EncodeInput) (pre post : List GoVal)
    (g : GoVal) (r : GroupRef) (job : CreateJobInput)
    (hr : refOf g = some r) (hother : ∀ x ∈ pre ++ post, refOf x ≠ some r)
    (hkind : sameKind
      ((initGroups event ("s3://" ++ event.DestBucket ++ "/" ++ event.GUID)).get r) g = true)
    (hjob : buildJob h event (templateOf (pre ++ g :: post)) = .ok job) :
    ∃ M, job.Settings.OutputGroups[(pre.filterMap refOf).length]? = some M ∧
      (∀ p : List String,
        (g.get p = .null → M.get p =
          ((initGroups event ("s3://" ++ event.DestBucket ++ "/" ++ event.GUID)).get r).get p) ∧
        ((g.get p).isLeaf = true → isEmptyValue (g.get p) = false → M.get p = g.get p) ∧
        (isEmptyValue (g.get p) = true →
          ((initGroups event ("s3://" ++ event.DestBucket ++ "/" ++ event.GUID)).get r).get p
            ≠ .null →
          M.get p =
            ((initGroups event ("s3://" ++ event.DestBucket ++ "/" ++ event.GUID)).get r).get p)) ∧
      (∀ xs, g.get ["Outputs"] = .slice xs → M.get ["Outputs"] = .slice xs) := by
  refine ⟨_, buildJob_entry h event pre post g r job hr hother hjob, ?_, ?_⟩
  · intro p
    exact ⟨get_deepMerge_of_unset p _ g, get_deepMerge_of_set p _ g hkind,
      get_deepMerge_of_empty p _ g⟩
  · intro xs hxs
    have hd : ((initGroups event ("s3://" ++ event.DestBucket ++ "/" ++ event.GUID)).get r).get
        ["Outputs"] = .slice [] := by
      cases r
      case frameCaptureGroup => exact absurd hr (refOf_ne_frame g)
      all_goals rfl
    rw [get_deepMerge_of_both _ _ _ (by rw [hd]; simp) (by rw [hxs]; simp), hd, hxs]
    cases xs <;> simp [deepMerge]

/-- The test template: segment length 10 is set by the template and wins. -/
theorem merge_rule_by_field_witness :
    ∃ job M, buildJob (sampleHandler []) (sampleEvent false 0 0)
        (templateOf [hlsTemplateGroup "custom-output-group" 10 2]) = .ok job ∧
      job.Settings.OutputGroups[0]? = some M ∧
      M.get ["OutputGroupSettings", "HlsGroupSettings", "SegmentLength"] = .int 10 ∧
      M.get ["OutputGroupSettings", "HlsGroupSettings", "Destination"] =
        .str "s3://dest/12345678/hls/" := by
  obtain ⟨job, hjob⟩ := buildJob_total (sampleHandler []) (sampleEvent false 0 0)
    [hlsTemplateGroup "custom-output-group" 10 2] (by decide)
  obtain ⟨M, h0, hp, -⟩ := merge_rule_by_field (sampleHandler []) (sampleEvent false 0 0)
    [] [] (hlsTemplateGroup "custom-output-group" 10 2) .hlsGroup job rfl (by simp) rfl hjob
  exact ⟨job, M, hjob, h0,
    (hp ["OutputGroupSettings", "HlsGroupSettings", "SegmentLength"]).2.1 rfl rfl,
    (hp ["OutputGroupSettings", "HlsGroupSettings", "Destination"]).1 rfl⟩

/-- The dispatch in terms of the type string: exactly the five listed types
have a default group. -/
theorem refOf_iff (g : GoVal) (r : GroupRef) :
    refOf g = some r ↔ ∃ ty, groupType g = some ty ∧
      ((ty = "FILE_GROUP_SETTINGS" ∧ r = .mp4Group) ∨
       (ty = "HLS_GROUP_SETTINGS" ∧ r = .hlsGroup) ∨
       (ty = "DASH_ISO_GROUP_SETTINGS" ∧ r = .dashGroup) ∨
       (ty = "CMAF_GROUP_SETTINGS" ∧ r = .cmafGroup) ∨
       (ty = "MS_SMOOTH_GROUP_SETTINGS" ∧ r = .mssGroup)) := by
  unfold refOf
  cases groupType g with
  | none => simp
  | some ty =>
    simp only [Option.bind, defaultGroupOf, Option.some.injEq, exists_eq_left']
    constructor
    · intro hx
      repeat' split at hx
      all_goals first
        | (simp only [Option.some.injEq] at hx; subst hx; subst_vars; simp)
        | simp at hx
    · intro hx
      rcases hx with ⟨rfl, rfl⟩ | ⟨rfl, rfl⟩ | ⟨rfl, rfl⟩ | ⟨rfl, rfl⟩ | ⟨rfl, rfl⟩ <;> decide

/-- The output groups of the built job for a template all of whose groups carry
a type: per dispatched template group, in order, the default group of its type
with every template group of that type merged onto it in turn; then the
frame-capture group when enabled. -/
theorem buildJob_OutputGroups (h : Handler) (event : EncodeInput) (gs : List GoVal)
    (hty : ∀ g ∈ gs, (groupType g).isSome = true) :
    ∃ job, buildJob h event (templateOf gs) = .ok job ∧
      job.Settings.OutputGroups =
        (gs.filterMap refOf).map (fun r =>
          (gs.filter (fun g => decide (refOf g = some r))).foldl deepMerge
            ((initGroups event ("s3://" ++ event.DestBucket ++ "/" ++ event.GUID)).get r)) ++
        (if event.FrameCapture = true then
          [getFrameGroup event ("s3://" ++ event.DestBucket ++ "/" ++ event.GUID)] else []) := by
  obtain ⟨job, hjob⟩ := buildJob_total h event gs hty
  refine ⟨job, hjob, ?_⟩
  obtain ⟨jt, settings, st, hjt, hsettings, hloop, hgroups⟩ := buildJob_ok h event _ job hjob
  simp only [templateOf, Option.some.injEq] at hjt
  subst hjt
  simp only [Option.some.injEq] at hsettings
  subst hsettings
  obtain ⟨-, hrefs, hvals⟩ := loopGroups_spec _ _ _ hloop
  simp only [List.nil_append] at hrefs
  have hframe : st.groups.get .frameCaptureGroup =
      getFrameGroup event ("s3://" ++ event.DestBucket ++ "/" ++ event.GUID) := by
    rw [hvals, filter_eq_nil_of_forall _ _ (fun x _ => by simpa using refOf_ne_frame x)]
    rfl
  rw [hgroups]
  unfold finalRefs
  rw [hrefs]
  have hmap : (gs.filterMap refOf).map st.groups.get =
      (gs.filterMap refOf).map (fun r =>
        (gs.filter (fun g => decide (refOf g = some r))).foldl deepMerge
          ((initGroups event ("s3://" ++ event.DestBucket ++ "/" ++ event.GUID)).get r)) :=
    List.map_congr_left (fun r _ => hvals r)
  split
  · rw [List.map_append, hmap, List.map_singleton, hframe]
  · rw [hmap, List.append_nil]

/-- In a template whose dispatched groups go to pairwise different default
groups, the only template group dispatched where `g` goes is `g` itself. -/
theorem filter_refOf_of_nodup (gs : List GoVal) (hnd : (gs.filterMap refOf).Nodup)
    (g : GoVal) (hg : g ∈ gs) (r : GroupRef) (hr : refOf g = some r) :
    gs.filter (fun x => decide (refOf x = some r)) = [g] := by
  induction gs with
  | nil => simp at hg
  | cons x xs ih =>
    cases hx : refOf x with
    | none =>
      rw [List.filterMap_cons_none hx] at hnd
      have hgx : g ∈ xs := by
        rcases List.mem_cons.mp hg with rfl | hmem
        · rw [hx] at hr; simp at hr
        · exact hmem
      simp only [List.filter_cons, hx]
      simpa using ih hnd hgx
    | some rx =>
      rw [List.filterMap_cons_some hx, List.nodup_cons] at hnd
      by_cases hrx : rx = r
      · subst hrx
        have hnone : ∀ y ∈ xs, decide (refOf y = some rx) = false := by
          intro y hy
          simp only [decide_eq_false_iff_not]
          intro hy1
          exact hnd.1 (List.mem_filterMap.mpr ⟨y, hy, hy1⟩)
        have hgx : g = x := by
          rcases List.mem_cons.mp hg with rfl | hmem
          · rfl
          · exact absurd (List.mem_filterMap.mpr ⟨g, hmem, hr⟩) hnd.1
        subst hgx
        simp [List.filter_cons, hx, filter_eq_nil_of_forall _ _ hnone]
      · have hgx : g ∈ xs := by
          rcases List.mem_cons.mp hg with rfl | hmem
          · rw [hx] at hr
            simp only [Option.some.injEq] at hr
            exact absurd hr hrx
          · exact hmem
        simp only [List.filter_cons, hx, Option.some.injEq, hrx, decide_False]
        simpa using ih hnd.2 hgx

/-- With pairwise different default groups every entry is the default with its
own template group merged onto it. -/
theorem merged_of_nodup (gs : List GoVal) (hnd : (gs.filterMap refOf).Nodup)
    (init : GroupRef → GoVal) :
    (gs.filterMap refOf).map (fun r =>
        (gs.filter (fun g => decide (refOf g = some r))).foldl deepMerge (init r)) =
      gs.filterMap (fun g => (refOf g).map (fun r => deepMerge (init r) g)) := by
  rw [List.map_filterMap]
  apply List.filterMap_congr
  intro g hg
  cases hr : refOf g with
  | none => rfl
  | some r =>
    simp only [Option.map_some']
    rw [filter_refOf_of_nodup gs hnd g hg r hr]
    rfl

theorem HandleRequest_of_buildJob (h : Handler) (event : EncodeInput)
    (template : GetJobTemplateOutput) (job : CreateJobInput) (id : String)
    (hget : h.MediaConvertClient.GetJobTemplate event.JobTemplate = .ok template)
    (hjob : buildJob h event template = .ok job)
    (hcreate : h.MediaConvertClient.CreateJob job = .ok { Job := some { Id := some id } }) :
    HandleRequest h event = .ok { toEncodeInput := event, EncodingJob := job, EncodeJobId := id } := by
  unfold HandleRequest
  simp only [hget, hjob, hcreate]

/-- C7, as stated, fails for a template HLS group that is followed by another
HLS group: with the template groups first (segment length 10, min segment
length 2, no destination) and second (20 and 3), the entry of the submitted job
at the place of first has segment length 20 and min segment length 3, not 10
and 2, since both groups are merged onto the one catalogue default. -/
theorem first_of_two_hls_groups_overridden :
    groupType (hlsTemplateGroup "first" 10 2) = some "HLS_GROUP_SETTINGS" ∧
    (hlsTemplateGroup "first" 10 2).get ["OutputGroupSettings", "HlsGroupSettings", "SegmentLength"]
      = .int 10 ∧
    (hlsTemplateGroup "first" 10 2).get
      ["OutputGroupSettings", "HlsGroupSettings", "MinSegmentLength"] = .int 2 ∧
    (hlsTemplateGroup "first" 10 2).get ["OutputGroupSettings", "HlsGroupSettings", "Destination"]
      = .null ∧
    ∃ job M, buildJob (sampleHandler []) (sampleEvent false 0 0)
        (templateOf [hlsTemplateGroup "first" 10 2, hlsTemplateGroup "second" 20 3]) = .ok job ∧
      job.Settings.OutputGroups[0]? = some M ∧
      M.get ["OutputGroupSettings", "HlsGroupSettings", "SegmentLength"] = .int 20 ∧
      M.get ["OutputGroupSettings", "HlsGroupSettings", "MinSegmentLength"] = .int 3 ∧
      M.get ["OutputGroupSettings", "HlsGroupSettings", "SegmentLength"] ≠ .int 10 ∧
      M.get ["OutputGroupSettings", "HlsGroupSettings", "MinSegmentLength"] ≠ .int 2 := by
  refine ⟨rfl, rfl, rfl, rfl, ?_⟩
  obtain ⟨job, hjob, hgroups⟩ := buildJob_OutputGroups (sampleHandler []) (sampleEvent false 0 0)
    [hlsTemplateGroup "first" 10 2, hlsTemplateGroup "second" 20 3] (by decide)
  have h0 : job.Settings.OutputGroups[0]? = some
      (deepMerge (deepMerge (getHlsGroup "s3://dest/12345678") (hlsTemplateGroup "first" 10 2))
        (hlsTemplateGroup "second" 20 3)) := by
    rw [hgroups]
    rfl
  have hseg : (deepMerge (deepMerge (getHlsGroup "s3://dest/12345678")
      (hlsTemplateGroup "first" 10 2)) (hlsTemplateGroup "second" 20 3)).get
        ["OutputGroupSettings", "HlsGroupSettings", "SegmentLength"] = .int 20 := rfl
  have hmin : (deepMerge (deepMerge (getHlsGroup "s3://dest/12345678")
      (hlsTemplateGroup "first" 10 2)) (hlsTemplateGroup "second" 20 3)).get
        ["OutputGroupSettings", "HlsGroupSettings", "MinSegmentLength"] = .int 3 := rfl
  refine ⟨job, _, hjob, h0, hseg, hmin, ?_, ?_⟩
  · rw [hseg]
    simp
  · rw [hmin]
    simp

/-- C9, as stated, fails on two templates.  With two HLS groups named first and
second the submitted list is not the list of the two merged groups: its first
entry carries the name second, while the first template group merged onto the
catalogue default carries the name first.  With a group that has no type the
handler aborts instead of skipping the group. -/
theorem repeated_type_not_per_group :
    (∃ job M, buildJob (sampleHandler []) (sampleEvent false 0 0)
        (templateOf [hlsTemplateGroup "first" 10 2, hlsTemplateGroup "second" 20 0]) = .ok job ∧
      job.Settings.OutputGroups[0]? = some M ∧
      M.get ["Name"] = .str "second" ∧
      (deepMerge (getHlsGroup "s3://dest/12345678") (hlsTemplateGroup "first" 10 2)).get ["Name"]
        = .str "first" ∧
      job.Settings.OutputGroups ≠
        [deepMerge (getHlsGroup "s3://dest/12345678") (hlsTemplateGroup "first" 10 2),
         deepMerge (getHlsGroup "s3://dest/12345678") (hlsTemplateGroup "second" 20 0)]) ∧
    buildJob (sampleHandler []) (sampleEvent false 0 0)
        (templateOf [.struct [("Name", .str "untyped")]])
      = .panic "runtime error: invalid memory address or nil pointer dereference" := by
  refine ⟨?_, rfl⟩
  obtain ⟨job, hjob, hgroups⟩ := buildJob_OutputGroups (sampleHandler []) (sampleEvent false 0 0)
    [hlsTemplateGroup "first" 10 2, hlsTemplateGroup "second" 20 0] (by decide)
  have h0 : job.Settings.OutputGroups[0]? = some
      (deepMerge (deepMerge (getHlsGroup "s3://dest/12345678") (hlsTemplateGroup "first" 10 2))
        (hlsTemplateGroup "second" 20 0)) := by
    rw [hgroups]
    rfl
  have hname : (deepMerge (deepMerge (getHlsGroup "s3://dest/12345678")
      (hlsTemplateGroup "first" 10 2)) (hlsTemplateGroup "second" 20 0)).get ["Name"]
        = .str "second" := rfl
  refine ⟨job, _, hjob, h0, hname, rfl, ?_⟩
  intro heq
  rw [heq] at h0
  simp only [List.getElem?_cons_zero, Option.some.injEq] at h0
  have hbad := congrArg (fun v => GoVal.get v ["Name"]) h0
  simp only [hname] at hbad
  have hfirst : (deepMerge (getHlsGroup "s3://dest/12345678")
      (hlsTemplateGroup "first" 10 2)).get ["Name"] = .str "first" := rfl
  rw [hfirst] at hbad
  simp at hbad

/-- C9, amended. For every fetched template all of whose groups carry a type
the job is built without error.  Its output-group list has one entry per
template group of type FILE_GROUP_SETTINGS, HLS_GROUP_SETTINGS,
DASH_ISO_GROUP_SETTINGS, CMAF_GROUP_SETTINGS or MS_SMOOTH_GROUP_SETTINGS, in
template declaration order, each being the catalogue default of that type with
the template groups of that type merged onto it, followed by the frame-capture
group when frame capture is enabled.  When no recognised type occurs twice the
entry of a template group is the catalogue default with that group alone merged
onto it.  Groups of another type contribute nothing, a template with no
recognised group gives the frame-capture group alone or no group, and the
handler returns the job once CreateJob accepts it. -/
theorem output_group_sequence (h : Handler) (event : EncodeInput) (gs : List GoVal)
    (hty : ∀ g ∈ gs, (groupType g).isSome = true) :
    (∀ g r, refOf g = some r ↔ ∃ ty, groupType g = some ty ∧
      ((ty = "FILE_GROUP_SETTINGS" ∧ r = .mp4Group) ∨
       (ty = "HLS_GROUP_SETTINGS" ∧ r = .hlsGroup) ∨
       (ty = "DASH_ISO_GROUP_SETTINGS" ∧ r = .dashGroup) ∨
       (ty = "CMAF_GROUP_SETTINGS" ∧ r = .cmafGroup) ∨
       (ty = "MS_SMOOTH_GROUP_SETTINGS" ∧ r = .mssGroup))) ∧
    ∃ job, buildJob h event (templateOf gs) = .ok job ∧
      job.Settings.OutputGroups =
        (gs.filterMap refOf).map (fun r =>
          (gs.filter (fun g => decide (refOf g = some r))).foldl deepMerge
            ((initGroups event ("s3://" ++ event.DestBucket ++ "/" ++ event.GUID)).get r)) ++
        (if event.FrameCapture = true then
          [getFrameGroup event ("s3://" ++ event.DestBucket ++ "/" ++ event.GUID)] else []) ∧
      ((gs.filterMap refOf).Nodup →
        job.Settings.OutputGroups =
          gs.filterMap (fun g => (refOf g).map (fun r => deepMerge
            ((initGroups event ("s3://" ++ event.DestBucket ++ "/" ++ event.GUID)).get r) g)) ++
          (if event.FrameCapture = true then
            [getFrameGroup event ("s3://" ++ event.DestBucket ++ "/" ++ event.GUID)] else [])) ∧
      ((∀ g ∈ gs, refOf g = none) →
        job.Settings.OutputGroups =
          if event.FrameCapture = true then
            [getFrameGroup event ("s3://" ++ event.DestBucket ++ "/" ++ event.GUID)] else []) ∧
      (∀ id, h.MediaConvertClient.GetJobTemplate event.JobTemplate = .ok (templateOf gs) →
        h.MediaConvertClient.CreateJob job = .ok { Job := some { Id := some id } } →
        HandleRequest h event =
          .ok { toEncodeInput := event, EncodingJob := job, EncodeJobId := id }) := by
  refine ⟨refOf_iff, ?_⟩
  obtain ⟨job, hjob, hgroups⟩ := buildJob_OutputGroups h event gs hty
  refine ⟨job, hjob, hgroups, ?_, ?_, ?_⟩
  · intro hnd
    rw [hgroups, merged_of_nodup gs hnd]
  · intro hnone
    rw [hgroups, List.filterMap_eq_nil_iff.mpr hnone]
    rfl
  · intro id hget hcreate
    exact HandleRequest_of_buildJob h event _ job id hget hjob hcreate

/-- A template with an unrecognised group between an HLS group and a file
group, frame capture on: the job is built. -/
theorem output_group_sequence_witness :
    ∃ job, buildJob (sampleHandler []) (sampleEvent true 1280 720)
        (templateOf [hlsTemplateGroup "a" 10 2,
          .struct [("OutputGroupSettings", .struct [("Type", .str "OTHER")])],
          .struct [("OutputGroupSettings", .struct [("Type", .str "FILE_GROUP_SETTINGS")])]])
      = .ok job :=
  let ⟨job, hjob, _⟩ := (output_group_sequence (sampleHandler []) (sampleEvent true 1280 720)
    [hlsTemplateGroup "a" 10 2,
      .struct [("OutputGroupSettings", .struct [("Type", .str "OTHER")])],
      .struct [("OutputGroupSettings", .struct [("Type", .str "FILE_GROUP_SETTINGS")])]]
    (by decide)).2
  ⟨job, hjob⟩

/-- C10. Frame-capture group: a built job holds, in this order, one pointer per
recognised template group, as left by the loop over the template groups, none
of them the frame-capture pointer, followed by the frame-capture pointer
exactly when frameCapture is true in the input, whatever the template
declares: the last pointer of the job is the frame-capture pointer if and only
if frameCapture is true, and the job has one group more than the template has
recognised groups if and only if frameCapture is true.  That pointer refers to
the group made by getFrameGroup; then the job ends with that group, which has
one output with container RAW, the width and height of the input, quality 80,
sharpness 100, anti-alias ENABLED, frame rate 1/5 and destination
s3://destBucket/guid/thumbnails/. -/
theorem frame_capture_group (h : Handler) (event : EncodeInput)
    (template : GetJobTemplateOutput) (job : CreateJobInput)
    (hjob : buildJob h event template = .ok job) :
    (∃ jt settings st,
      template.JobTemplate = some jt ∧ jt.Settings = some settings ∧
      loopGroups
        { groups := initGroups event ("s3://" ++ event.DestBucket ++ "/" ++ event.GUID),
          outputGroups := [] } settings.OutputGroups = .ok st ∧
      job.Settings.OutputGroups = (finalRefs event st).map st.groups.get ∧
      st.outputGroups = settings.OutputGroups.filterMap refOf ∧
      GroupRef.frameCaptureGroup ∉ st.outputGroups ∧
      ((finalRefs event st).getLast? = some .frameCaptureGroup ↔ event.FrameCapture = true) ∧
      (.frameCaptureGroup ∈ finalRefs event st ↔ event.FrameCapture = true) ∧
      st.groups.get .frameCaptureGroup =
        getFrameGroup event ("s3://" ++ event.DestBucket ++ "/" ++ event.GUID) ∧
      (job.Settings.OutputGroups.length = (settings.OutputGroups.filterMap refOf).length + 1 ↔
        event.FrameCapture = true) ∧
      (event.FrameCapture = true →
        job.Settings.OutputGroups = st.outputGroups.map st.groups.get ++
          [getFrameGroup event ("s3://" ++ event.DestBucket ++ "/" ++ event.GUID)]) ∧
      (event.FrameCapture = false →
        job.Settings.OutputGroups = st.outputGroups.map st.groups.get)) ∧
    (event.FrameCapture = true →
      job.Settings.OutputGroups.getLast? =
        some (getFrameGroup event ("s3://" ++ event.DestBucket ++ "/" ++ event.GUID))) ∧
    ∃ o, (getFrameGroup event ("s3://" ++ event.DestBucket ++ "/" ++ event.GUID)).get ["Outputs"]
        = .slice [o] ∧
      o.get ["ContainerSettings", "Container"] = .str "RAW" ∧
      o.get ["VideoDescription", "Width"] = .int event.FrameCaptureWidth ∧
      o.get ["VideoDescription", "Height"] = .int event.FrameCaptureHeight ∧
      o.get ["VideoDescription", "CodecSettings", "FrameCaptureSettings", "Quality"] = .int 80 ∧
      o.get ["VideoDescription", "Sharpness"] = .int 100 ∧
      o.get ["VideoDescription", "AntiAlias"] = .str "ENABLED" ∧
      o.get ["VideoDescription", "CodecSettings", "FrameCaptureSettings", "FramerateNumerator"]
        = .int 1 ∧
      o.get ["VideoDescription", "CodecSettings", "FrameCaptureSettings", "FramerateDenominator"]
        = .int 5 ∧
      (getFrameGroup event ("s3://" ++ event.DestBucket ++ "/" ++ event.GUID)).get
          ["OutputGroupSettings", "FileGroupSettings", "Destination"]
        = .str ("s3://" ++ event.DestBucket ++ "/" ++ event.GUID ++ "/thumbnails/") := by
  obtain ⟨jt, settings, st, hjt, hsettings, hloop, hgroups⟩ := buildJob_ok h event template job hjob
  obtain ⟨-, hrefs, hvals⟩ := loopGroups_spec _ _ _ hloop
  simp only [List.nil_append] at hrefs
  have hframe : st.groups.get .frameCaptureGroup =
      getFrameGroup event ("s3://" ++ event.DestBucket ++ "/" ++ event.GUID) := by
    rw [hvals, filter_eq_nil_of_forall _ _ (fun x _ => by simpa using refOf_ne_frame x)]
    rfl
  have hnot : GroupRef.frameCaptureGroup ∉ st.outputGroups := by
    rw [hrefs]
    intro hmem
    obtain ⟨g, -, hg⟩ := List.mem_filterMap.mp hmem
    exact refOf_ne_frame g hg
  have htrue : event.FrameCapture = true →
      job.Settings.OutputGroups = st.outputGroups.map st.groups.get ++
        [getFrameGroup event ("s3://" ++ event.DestBucket ++ "/" ++ event.GUID)] := by
    intro hfc
    rw [hgroups]
    unfold finalRefs
    simp [hfc, hframe]
  have hfalse : event.FrameCapture = false →
      job.Settings.OutputGroups = st.outputGroups.map st.groups.get := by
    intro hfc
    rw [hgroups]
    unfold finalRefs
    simp [hfc]
  refine ⟨⟨jt, settings, st, hjt, hsettings, hloop, hgroups, hrefs, hnot, ?_, ?_, hframe, ?_,
    htrue, hfalse⟩, ?_, ⟨_, rfl, rfl, rfl, rfl, rfl, rfl, rfl, rfl, rfl, rfl⟩⟩
  · unfold finalRefs
    cases hfc : event.FrameCapture
    · simp only [Bool.false_eq_true, if_false, iff_false]
      intro hlast
      exact hnot (List.mem_of_getLast?_eq_some hlast)
    · simp
  · unfold finalRefs
    cases hfc : event.FrameCapture
    · simpa using hnot
    · simp
  · cases hfc : event.FrameCapture
    · rw [hfalse hfc, List.length_map, hrefs]
      simp
    · rw [htrue hfc, List.length_append, List.length_map, hrefs]
      simp
  · intro hfc
    rw [htrue hfc]
    simp

/-- The test template, one HLS group: with frame capture on the built job ends
with the frame-capture group; with frame capture off the built job has the one
group of the template and no other. -/
theorem frame_capture_group_witness :
    (∃ job, buildJob (sampleHandler []) (sampleEvent true 1280 720)
        (templateOf [hlsTemplateGroup "test-output-group" 10 2]) = .ok job ∧
      job.Settings.OutputGroups.getLast? =
        some (getFrameGroup (sampleEvent true 1280 720) "s3://dest/12345678")) ∧
    (∃ job, buildJob (sampleHandler []) (sampleEvent false 1280 720)
        (templateOf [hlsTemplateGroup "test-output-group" 10 2]) = .ok job ∧
      job.Settings.OutputGroups.length = 1) := by
  obtain ⟨job, hjob⟩ := buildJob_total (sampleHandler []) (sampleEvent true 1280 720)
    [hlsTemplateGroup "test-output-group" 10 2] (by decide)
  obtain ⟨job0, hjob0⟩ := buildJob_total (sampleHandler []) (sampleEvent false 1280 720)
    [hlsTemplateGroup "test-output-group" 10 2] (by decide)
  refine ⟨⟨job, hjob, (frame_capture_group (sampleHandler []) (sampleEvent true 1280 720)
    _ job hjob).2.1 rfl⟩, job0, hjob0, ?_⟩
  obtain ⟨jt, settings, st, hjt, hsettings, -, -, hrefs, -, -, -, -, -, -, hfalse⟩ :=
    (frame_capture_group (sampleHandler []) (sampleEvent false 1280 720) _ job0 hjob0).1
  simp only [templateOf, Option.some.injEq] at hjt
  subst hjt
  simp only [Option.some.injEq] at hsettings
  subst hsettings
  rw [hfalse rfl, List.length_map, hrefs]
  rfl

/-- A built job is the initial job with the output groups filled in and the
acceleration block applied. -/
theorem buildJob_shape (h : Handler) (event : EncodeInput) (template : GetJobTemplateOutput)
    (job : CreateJobInput) (hjob : buildJob h event template = .ok job) :
    ∃ groups, job = applyAcceleration event
      { initJob h event with
        Settings := { (initJob h event).Settings with OutputGroups := groups } } := by
  unfold buildJob at hjob
  simp only at hjob
  split at hjob
  · simp at hjob
  · split at hjob
    · simp at hjob
    · split at hjob
      · simp at hjob
      · simp at hjob
      · rename_i st hst
        simp only [Outcome.ok.injEq] at hjob
        exact ⟨_, hjob.symm⟩

theorem submittedJob_some (h : Handler) (event : EncodeInput) (job : CreateJobInput)
    (hsub : submittedJob h event = some job) :
    ∃ template, h.MediaConvertClient.GetJobTemplate event.JobTemplate = .ok template ∧
      buildJob h event template = .ok job := by
  unfold submittedJob at hsub
  split at hsub
  · simp at hsub
  · rename_i template htemplate
    split at hsub
    · rename_i job1 hjob1
      simp only [Option.some.injEq] at hsub
      subst hsub
      exact ⟨template, htemplate, hjob1⟩
    · simp at hsub
    · simp at hsub

/-- The job of a successful response is the submitted job. -/
theorem HandleRequest_EncodingJob (h : Handler) (event : EncodeInput) (resp : EncodeResponse)
    (hok : HandleRequest h event = .ok resp) :
    submittedJob h event = some resp.EncodingJob := by
  unfold HandleRequest at hok
  unfold submittedJob
  cases hget : h.MediaConvertClient.GetJobTemplate event.JobTemplate with
  | error e => simp [hget] at hok
  | ok template =>
    simp only [hget] at hok ⊢
    cases hjob : buildJob h event template with
    | error e => simp [hjob] at hok
    | panic e => simp [hjob] at hok
    | ok job =>
      simp only [hjob] at hok ⊢
      cases hcreate : h.MediaConvertClient.CreateJob job with
      | error e => simp [hcreate] at hok
      | ok data =>
        simp only [hcreate] at hok
        cases hj : data.Job with
        | none => simp [hj] at hok
        | some j =>
          simp only [hj] at hok
          cases hid : j.Id with
          | none => simp [hid] at hok
          | some id =>
            simp only [hid, Outcome.ok.injEq] at hok
            rw [← hok]

/-- C11. Acceleration enabled: for acceleration mode ENABLED or PREFERRED the
submitted job has its acceleration directive set to exactly that mode, a
job-level timecode source ZEROBASED, and a first (and only) input whose
timecode source is ZEROBASED. -/
theorem acceleration_enabled (h : Handler) (event : EncodeInput) (job : CreateJobInput)
    (hsub : submittedJob h event = some job)
    (hmode : event.AcceleratedTranscoding = "ENABLED" ∨
      event.AcceleratedTranscoding = "PREFERRED") :
    job.AccelerationSettings = some { Mode := event.AcceleratedTranscoding } ∧
    job.Settings.TimecodeConfig = some { Source := "ZEROBASED" } ∧
    job.Settings.Inputs.length = 1 ∧
    job.Settings.Inputs.head?.map (fun i => i.TimecodeSource) = some "ZEROBASED" := by
  obtain ⟨template, -, hjob⟩ := submittedJob_some h event job hsub
  obtain ⟨groups, rfl⟩ := buildJob_shape h event template job hjob
  have hcond : event.AcceleratedTranscoding = "PREFERRED" ∨
      event.AcceleratedTranscoding = "ENABLED" := hmode.symm
  unfold applyAcceleration
  rw [if_pos hcond]
  exact ⟨rfl, rfl, rfl, rfl⟩

/-- The event of the test `should success when FrameCapture is disabled`, mode
PREFERRED: a job is submitted with directive PREFERRED. -/
theorem acceleration_enabled_witness :
    ∃ job, submittedJob (sampleHandler [hlsTemplateGroup "test-output-group" 10 2])
        { sampleEvent false 0 0 with AcceleratedTranscoding := "PREFERRED" } = some job ∧
      job.AccelerationSettings = some { Mode := "PREFERRED" } ∧
      job.Settings.TimecodeConfig = some { Source := "ZEROBASED" } :=
  ⟨_, rfl,
    (acceleration_enabled (sampleHandler [hlsTemplateGroup "test-output-group" 10 2])
      { sampleEvent false 0 0 with AcceleratedTranscoding := "PREFERRED" } _ rfl
      (Or.inr rfl)).1,
    (acceleration_enabled (sampleHandler [hlsTemplateGroup "test-output-group" 10 2])
      { sampleEvent false 0 0 with AcceleratedTranscoding := "PREFERRED" } _ rfl
      (Or.inr rfl)).2.1⟩

/-- Without the acceleration block the job keeps the values of the job literal:
no acceleration settings, no job-level timecode configuration, and one input
with timecode source EMBEDDED. -/
theorem not_accelerated (h : Handler) (event : EncodeInput) (job : CreateJobInput)
    (hsub : submittedJob h event = some job)
    (hmode : ¬ (event.AcceleratedTranscoding = "PREFERRED" ∨
      event.AcceleratedTranscoding = "ENABLED")) :
    job.AccelerationSettings = none ∧
    job.Settings.TimecodeConfig = none ∧
    job.Settings.Inputs.length = 1 ∧
    job.Settings.Inputs.head?.map (fun i => i.TimecodeSource) = some "EMBEDDED" := by
  obtain ⟨template, -, hjob⟩ := submittedJob_some h event job hsub
  obtain ⟨groups, rfl⟩ := buildJob_shape h event template job hjob
  unfold applyAcceleration
  rw [if_neg hmode]
  exact ⟨rfl, rfl, rfl, rfl⟩

/-- C12, as stated, fails: for mode DISABLED the submitted job has no job-level
timecode configuration at all, so its job-level timecode source is not
EMBEDDED; only the input carries EMBEDDED. -/
theorem disabled_job_level_timecode_unset :
    ∃ job, submittedJob (sampleHandler [hlsTemplateGroup "custom-output-group" 10 2])
        (sampleEvent false 0 0) = some job ∧
      (sampleEvent false 0 0).AcceleratedTranscoding = "DISABLED" ∧
      job.Settings.TimecodeConfig = none ∧
      job.Settings.TimecodeConfig ≠ some { Source := "EMBEDDED" } ∧
      job.Settings.Inputs.head?.map (fun i => i.TimecodeSource) = some "EMBEDDED" := by
  refine ⟨_, rfl, rfl, ?_⟩
  have hx := not_accelerated (sampleHandler [hlsTemplateGroup "custom-output-group" 10 2])
    (sampleEvent false 0 0) _ rfl (by decide)
  refine ⟨hx.2.1, ?_, hx.2.2.2⟩
  rw [hx.2.1]
  simp

/-- C12, amended. For acceleration mode DISABLED or unset the submitted job has
no acceleration directive, no job-level timecode configuration (the job-level
source is left unset), and a first (and only) input whose timecode source is
EMBEDDED. -/
theorem acceleration_disabled (h : Handler) (event : EncodeInput) (job : CreateJobInput)
    (hsub : submittedJob h event = some job)
    (hmode : event.AcceleratedTranscoding = "DISABLED" ∨ event.AcceleratedTranscoding = "") :
    job.AccelerationSettings = none ∧
    job.Settings.TimecodeConfig = none ∧
    job.Settings.Inputs.length = 1 ∧
    job.Settings.Inputs.head?.map (fun i => i.TimecodeSource) = some "EMBEDDED" := by
  apply not_accelerated h event job hsub
  rcases hmode with hm | hm <;> rw [hm] <;> decide

/-- The event of the test `should apply custom settings when template is
custom`, mode DISABLED: a job is submitted without acceleration directive. -/
theorem acceleration_disabled_witness :
    ∃ job, submittedJob (sampleHandler [hlsTemplateGroup "custom-output-group" 10 2])
        (sampleEvent false 0 0) = some job ∧
      job.AccelerationSettings = none :=
  ⟨_, rfl, (acceleration_disabled (sampleHandler [hlsTemplateGroup "custom-output-group" 10 2])
    (sampleEvent false 0 0) _ rfl (Or.inl rfl)).1⟩

theorem append_ne_of_ne (a b e : String) (hab : a ≠ b) : a ++ e ≠ b ++ e := by
  intro heq
  apply hab
  have hdata : (a ++ e).data = (b ++ e).data := by rw [heq]
  simp only [String.data_append] at hdata
  exact String.ext (List.append_cancel_right hdata)

/-- C13. Job builder failures: when fetching the template fails, the handler
returns an error naming GetJobTemplate and no response, and no job is
submitted; when the submission of the built job fails, the handler returns an
error naming CreateJob and no response; for one and the same cause the two
errors differ. -/
theorem job_builder_failures (h : Handler) (event : EncodeInput) :
    (∀ cause, h.MediaConvertClient.GetJobTemplate event.JobTemplate = .error cause →
      HandleRequest h event =
        .error ("encode: main.Handler.HandleRequest: GetJobTemplate: " ++ cause) ∧
      submittedJob h event = none) ∧
    (∀ job cause, submittedJob h event = some job →
      h.MediaConvertClient.CreateJob job = .error cause →
      HandleRequest h event =
        .error ("encode: main.Handler.HandleRequest: CreateJob: " ++ cause)) ∧
    (∀ cause : String, "encode: main.Handler.HandleRequest: GetJobTemplate: " ++ cause ≠
      "encode: main.Handler.HandleRequest: CreateJob: " ++ cause) := by
  refine ⟨?_, ?_, ?_⟩
  · intro cause hget
    unfold HandleRequest submittedJob
    simp [hget]
  · intro job cause hsub hcreate
    obtain ⟨template, hget, hjob⟩ := submittedJob_some h event job hsub
    unfold HandleRequest
    simp only [hget, hjob, hcreate]
  · intro cause
    exact append_ne_of_ne _ _ cause (by decide)

/-- The two failing clients of the tests: each makes the handler return its
own error, and the fetch failure submits no job. -/
theorem job_builder_failures_witness :
    HandleRequest (fetchFailingHandler "assert.AnError") (sampleEvent false 0 0) =
      .error "encode: main.Handler.HandleRequest: GetJobTemplate: assert.AnError" ∧
    submittedJob (fetchFailingHandler "assert.AnError") (sampleEvent false 0 0) = none ∧
    HandleRequest (submitFailingHandler [hlsTemplateGroup "test-output-group" 10 2]
        "assert.AnError") (sampleEvent false 0 0) =
      .error "encode: main.Handler.HandleRequest: CreateJob: assert.AnError" :=
  ⟨((job_builder_failures (fetchFailingHandler "assert.AnError") (sampleEvent false 0 0)).1
      "assert.AnError" rfl).1,
   ((job_builder_failures (fetchFailingHandler "assert.AnError") (sampleEvent false 0 0)).1
      "assert.AnError" rfl).2,
   (job_builder_failures (submitFailingHandler [hlsTemplateGroup "test-output-group" 10 2]
      "assert.AnError") (sampleEvent false 0 0)).2.1 _ "assert.AnError" rfl rfl⟩

/-- In a template with exactly two groups dispatched to the default group `r`,
the groups merged onto that default are these two, in template order. -/
theorem filter_refOf_two (pre mid post : List GoVal) (g1 g2 : GoVal) (r : GroupRef)
    (h1 : refOf g1 = some r) (h2 : refOf g2 = some r)
    (hpre : ∀ g ∈ pre, refOf g ≠ some r) (hmid : ∀ g ∈ mid, refOf g ≠ some r)
    (hpost : ∀ g ∈ post, refOf g ≠ some r) :
    (pre ++ g1 :: (mid ++ g2 :: post)).filter (fun g => decide (refOf g = some r)) = [g1, g2] := by
  have e1 := filter_eq_nil_of_forall (fun g => decide (refOf g = some r)) pre
    (fun x hx => decide_eq_false (hpre x hx))
  have e2 := filter_eq_nil_of_forall (fun g => decide (refOf g = some r)) mid
    (fun x hx => decide_eq_false (hmid x hx))
  have e3 := filter_eq_nil_of_forall (fun g => decide (refOf g = some r)) post
    (fun x hx => decide_eq_false (hpost x hx))
  simp only [List.filter_append, List.filter_cons, h1, h2, decide_True, if_true, e1, e2, e3,
    List.nil_append]

/-- C30. Repeated discriminant: when the fetched template, all of whose groups
carry a type, declares two output groups g1 and g2 (g1 first) of one
recognised type, dispatched to the catalogue default r, and no other group of
that type, the submitted job's output-group list holds an entry at the place of
g1 and an entry at the place of g2 among the recognised groups, and both
entries are the same group: the catalogue default of the type with g1 and then
g2 merged onto it. -/
theorem repeated_discriminant (h : Handler) (event : EncodeInput) (pre mid post : List GoVal)
    (g1 g2 : GoVal) (r : GroupRef)
    (hty : ∀ g ∈ pre ++ g1 :: (mid ++ g2 :: post), (groupType g).isSome = true)
    (h1 : refOf g1 = some r) (h2 : refOf g2 = some r)
    (hpre : ∀ g ∈ pre, refOf g ≠ some r) (hmid : ∀ g ∈ mid, refOf g ≠ some r)
    (hpost : ∀ g ∈ post, refOf g ≠ some r)
    (hget : h.MediaConvertClient.GetJobTemplate event.JobTemplate
      = .ok (templateOf (pre ++ g1 :: (mid ++ g2 :: post)))) :
    ∃ job A B C, submittedJob h event = some job ∧
      job.Settings.OutputGroups =
        A ++ deepMerge (deepMerge
            ((initGroups event ("s3://" ++ event.DestBucket ++ "/" ++ event.GUID)).get r) g1) g2
          :: (B ++ deepMerge (deepMerge
            ((initGroups event ("s3://" ++ event.DestBucket ++ "/" ++ event.GUID)).get r) g1) g2
          :: C) ∧
      A.length = (pre.filterMap refOf).length ∧
      B.length = (mid.filterMap refOf).length ∧
      C.length = (post.filterMap refOf).length + (if event.FrameCapture = true then 1 else 0) ∧
      job.Settings.OutputGroups[(pre.filterMap refOf).length]? =
        job.Settings.OutputGroups[(pre.filterMap refOf).length + 1
          + (mid.filterMap refOf).length]? := by
  obtain ⟨job, hjob, hgroups⟩ := buildJob_OutputGroups h event _ hty
  have hsub : submittedJob h event = some job := by
    unfold submittedJob
    simp only [hget, hjob]
  have hfilter := filter_refOf_two pre mid post g1 g2 r h1 h2 hpre hmid hpost
  have hshape : job.Settings.OutputGroups =
      (pre.filterMap refOf).map (fun r =>
        ((pre ++ g1 :: (mid ++ g2 :: post)).filter (fun g => decide (refOf g = some r))).foldl
          deepMerge ((initGroups event ("s3://" ++ event.DestBucket ++ "/" ++ event.GUID)).get r))
      ++ deepMerge (deepMerge
            ((initGroups event ("s3://" ++ event.DestBucket ++ "/" ++ event.GUID)).get r) g1) g2
      :: ((mid.filterMap refOf).map (fun r =>
        ((pre ++ g1 :: (mid ++ g2 :: post)).filter (fun g => decide (refOf g = some r))).foldl
          deepMerge ((initGroups event ("s3://" ++ event.DestBucket ++ "/" ++ event.GUID)).get r))
      ++ deepMerge (deepMerge
            ((initGroups event ("s3://" ++ event.DestBucket ++ "/" ++ event.GUID)).get r) g1) g2
      :: ((post.filterMap refOf).map (fun r =>
        ((pre ++ g1 :: (mid ++ g2 :: post)).filter (fun g => decide (refOf g = some r))).foldl
          deepMerge ((initGroups event ("s3://" ++ event.DestBucket ++ "/" ++ event.GUID)).get r))
        ++ (if event.FrameCapture = true then
          [getFrameGroup event ("s3://" ++ event.DestBucket ++ "/" ++ event.GUID)] else []))) := by
    rw [hgroups]
    simp only [List.filterMap_append, List.filterMap_cons_some h1, List.filterMap_cons_some h2,
      List.map_append, List.map_cons, List.append_assoc, List.cons_append, hfilter,
      List.foldl_cons, List.foldl_nil]
  refine ⟨job, _, _, _, hsub, hshape, ?_, ?_, ?_, ?_⟩
  · simp only [List.length_map]
  · simp only [List.length_map]
  · rw [List.length_append, List.length_map]
    split <;> rfl
  · rw [hshape]
    have e0 := getElem?_append_cons_length
      ((pre.filterMap refOf).map (fun r =>
        ((pre ++ g1 :: (mid ++ g2 :: post)).filter (fun g => decide (refOf g = some r))).foldl
          deepMerge ((initGroups event ("s3://" ++ event.DestBucket ++ "/" ++ event.GUID)).get r)))
      (deepMerge (deepMerge
            ((initGroups event ("s3://" ++ event.DestBucket ++ "/" ++ event.GUID)).get r) g1) g2)
      ((mid.filterMap refOf).map (fun r =>
        ((pre ++ g1 :: (mid ++ g2 :: post)).filter (fun g => decide (refOf g = some r))).foldl
          deepMerge ((initGroups event ("s3://" ++ event.DestBucket ++ "/" ++ event.GUID)).get r))
      ++ deepMerge (deepMerge
            ((initGroups event ("s3://" ++ event.DestBucket ++ "/" ++ event.GUID)).get r) g1) g2
      :: ((post.filterMap refOf).map (fun r =>
        ((pre ++ g1 :: (mid ++ g2 :: post)).filter (fun g => decide (refOf g = some r))).foldl
          deepMerge ((initGroups event ("s3://" ++ event.DestBucket ++ "/" ++ event.GUID)).get r))
        ++ (if event.FrameCapture = true then
          [getFrameGroup event ("s3://" ++ event.DestBucket ++ "/" ++ event.GUID)] else [])))
    rw [List.length_map] at e0
    rw [e0]
    rw [List.getElem?_append_right (by rw [List.length_map]; omega)]
    rw [List.length_map, Nat.add_assoc, Nat.add_sub_cancel_left, Nat.add_comm 1,
      List.getElem?_cons_succ]
    have e1 := getElem?_append_cons_length
      ((mid.filterMap refOf).map (fun r =>
        ((pre ++ g1 :: (mid ++ g2 :: post)).filter (fun g => decide (refOf g = some r))).foldl
          deepMerge ((initGroups event ("s3://" ++ event.DestBucket ++ "/" ++ event.GUID)).get r)))
      (deepMerge (deepMerge
            ((initGroups event ("s3://" ++ event.DestBucket ++ "/" ++ event.GUID)).get r) g1) g2)
      ((post.filterMap refOf).map (fun r =>
        ((pre ++ g1 :: (mid ++ g2 :: post)).filter (fun g => decide (refOf g = some r))).foldl
          deepMerge ((initGroups event ("s3://" ++ event.DestBucket ++ "/" ++ event.GUID)).get r))
        ++ (if event.FrameCapture = true then
          [getFrameGroup event ("s3://" ++ event.DestBucket ++ "/" ++ event.GUID)] else []))
    rw [List.length_map] at e1
    rw [e1]

/-- A template with two HLS groups named first and second: the submitted job
has two entries, both the default with first and then second merged onto it, so
both carry the name second. -/
theorem repeated_discriminant_witness :
    ∃ job A B C,
      submittedJob (sampleHandler [hlsTemplateGroup "first" 10 2, hlsTemplateGroup "second" 20 0])
        (sampleEvent false 0 0) = some job ∧
      job.Settings.OutputGroups =
        A ++ deepMerge (deepMerge (getHlsGroup "s3://dest/12345678")
            (hlsTemplateGroup "first" 10 2)) (hlsTemplateGroup "second" 20 0)
          :: (B ++ deepMerge (deepMerge (getHlsGroup "s3://dest/12345678")
            (hlsTemplateGroup "first" 10 2)) (hlsTemplateGroup "second" 20 0) :: C) ∧
      A.length = 0 ∧ B.length = 0 ∧ C.length = 0 ∧
      (deepMerge (deepMerge (getHlsGroup "s3://dest/12345678")
          (hlsTemplateGroup "first" 10 2)) (hlsTemplateGroup "second" 20 0)).get ["Name"]
        = .str "second" :=
  let ⟨job, A, B, C, hsub, hshape, hA, hB, hC, _⟩ :=
    repeated_discriminant (sampleHandler [hlsTemplateGroup "first" 10 2,
        hlsTemplateGroup "second" 20 0]) (sampleEvent false 0 0) [] [] []
      (hlsTemplateGroup "first" 10 2) (hlsTemplateGroup "second" 20 0) .hlsGroup
      (by decide) rfl rfl (by simp) (by simp) (by simp) rfl
  ⟨job, A, B, C, hsub, hshape, hA, hB, hC, rfl⟩

end Encode

/-! ## Output resolution: properties -/

namespace OutputValidate

theorem splitOnChar_ne_nil (sep : Char) (cs : List Char) : splitOnChar sep cs ≠ [] := by
  induction cs with
  | nil => simp [splitOnChar]
  | cons c cs ih =>
    unfold splitOnChar
    split
    · simp
    · split <;> simp

/-- A list of at least three elements ends in three elements. -/
theorem exists_last_three {α : Type} (l : List α) (hl : 3 ≤ l.length) :
    ∃ pieces a b c, l = pieces ++ [a, b, c] := by
  refine ⟨l.take (l.length - 3), ?_⟩
  have hdrop : (l.drop (l.length - 3)).length = 3 := by
    rw [List.length_drop]
    omega
  match hd : l.drop (l.length - 3), hdrop with
  | [a, b, c], _ =>
    refine ⟨a, b, c, ?_⟩
    rw [← hd, List.take_append_drop]

theorem buildUrl_of_split (s3Path : String) (pieces : List String) (a b c : String)
    (hsplit : goSplit s3Path '/' = pieces ++ [a, b, c]) :
    buildUrl s3Path = .ok (a ++ "/" ++ b ++ "/" ++ c) := by
  unfold buildUrl
  simp only [hsplit]
  have hlen : (pieces ++ [a, b, c]).length = pieces.length + 3 := by simp
  rw [if_pos (by omega)]
  have h3 : (pieces ++ [a, b, c]).length - 3 = pieces.length := by omega
  have h2 : (pieces ++ [a, b, c]).length - 2 = pieces.length + 1 := by omega
  have h1 : (pieces ++ [a, b, c]).length - 1 = pieces.length + 2 := by omega
  rw [h3, h2, h1]
  have e0 : (pieces ++ [a, b, c]).getD pieces.length "" = a := by
    rw [List.getD_eq_getElem?_getD, List.getElem?_append_right (Nat.le_refl _)]
    simp
  have e1 : (pieces ++ [a, b, c]).getD (pieces.length + 1) "" = b := by
    rw [List.getD_eq_getElem?_getD, List.getElem?_append_right (Nat.le_add_right _ _)]
    simp
  have e2 : (pieces ++ [a, b, c]).getD (pieces.length + 2) "" = c := by
    rw [List.getD_eq_getElem?_getD, List.getElem?_append_right (Nat.le_add_right _ _)]
    simp
  rw [e0, e1, e2]

theorem buildUrl_ok (s3Path u : String) (hok : buildUrl s3Path = .ok u) :
    ∃ pieces a b c, goSplit s3Path '/' = pieces ++ [a, b, c] ∧ u = a ++ "/" ++ b ++ "/" ++ c := by
  by_cases hl : 3 ≤ (goSplit s3Path '/').length
  · obtain ⟨pieces, a, b, c, hsplit⟩ := exists_last_three _ hl
    refine ⟨pieces, a, b, c, hsplit, ?_⟩
    rw [buildUrl_of_split s3Path pieces a b c hsplit] at hok
    simpa using hok.symm
  · unfold buildUrl at hok
    simp only [hl, if_false] at hok
    simp at hok

theorem publicUrl_ok (cloudFront s3Path w : String) (hok : publicUrl cloudFront s3Path = .ok w) :
    ∃ pieces a b c, goSplit s3Path '/' = pieces ++ [a, b, c] ∧
      w = "https://" ++ cloudFront ++ "/" ++ (a ++ "/" ++ b ++ "/" ++ c) := by
  unfold publicUrl at hok
  cases hb : buildUrl s3Path with
  | error e => simp [hb] at hok
  | panic e => simp [hb] at hok
  | ok u =>
    simp only [hb, Outcome.ok.injEq] at hok
    obtain ⟨pieces, a, b, c, hsplit, hu⟩ := buildUrl_ok s3Path u hb
    exact ⟨pieces, a, b, c, hsplit, by rw [← hok, hu]⟩

theorem playlistAt_ok (cloudFront : String) (paths : List (Option String)) (i : Nat)
    (p u : Option String) (hok : playlistAt cloudFront paths i = .ok (p, u)) :
    ∃ s w, paths[i]? = some (some s) ∧ p = some s ∧ u = some w ∧
      publicUrl cloudFront s = .ok w := by
  unfold playlistAt at hok
  split at hok
  · simp at hok
  · simp at hok
  · rename_i s hs
    cases hw : publicUrl cloudFront s with
    | error e => simp [hw] at hok
    | panic e => simp [hw] at hok
    | ok w =>
      simp only [hw, Outcome.ok.injEq, Prod.mk.injEq] at hok
      exact ⟨s, w, hs, hok.1.symm, hok.2.symm, hw⟩

theorem processGroup_hls (d d1 : DynamoData) (g : OutputGroupDetail)
    (hty : g.«Type» = "HLS_GROUP") (hok : processGroup d (some g) = .ok d1) :
    ∃ p u, playlistAt d.CloudFront g.PlaylistFilePaths 0 = .ok (p, u) ∧
      d1 = { d with HlsPlaylist := p, HlsUrl := u } := by
  unfold processGroup at hok
  dsimp only at hok
  rw [if_pos hty] at hok
  split at hok
  · rename_i p u hp
    exact ⟨p, u, hp, by simpa using hok.symm⟩
  · simp at hok
  · simp at hok

theorem processGroup_dash (d d1 : DynamoData) (g : OutputGroupDetail)
    (hty : g.«Type» = "DASH_ISO_GROUP") (hok : processGroup d (some g) = .ok d1) :
    ∃ p u, playlistAt d.CloudFront g.PlaylistFilePaths 0 = .ok (p, u) ∧
      d1 = { d with DashPlaylist := p, DashUrl := u } := by
  unfold processGroup at hok
  dsimp only at hok
  have hn0 : ¬ g.«Type» = "HLS_GROUP" := by rw [hty]; decide
  rw [if_neg hn0, if_pos hty] at hok
  split at hok
  · rename_i p u hp
    exact ⟨p, u, hp, by simpa using hok.symm⟩
  · simp at hok
  · simp at hok

theorem processGroup_file (d d1 : DynamoData) (g : OutputGroupDetail)
    (hty : g.«Type» = "FILE_GROUP") (hok : processGroup d (some g) = .ok d1) :
    ∃ files urls, collectFiles d.CloudFront ([], []) g.OutputDetails = .ok (files, urls) ∧
      d1 = if acceptFiles files = true then { d with Mp4Outputs := files, Mp4Urls := urls }
        else d := by
  unfold processGroup at hok
  dsimp only at hok
  have hn0 : ¬ g.«Type» = "HLS_GROUP" := by rw [hty]; decide
  have hn1 : ¬ g.«Type» = "DASH_ISO_GROUP" := by rw [hty]; decide
  rw [if_neg hn0, if_neg hn1, if_pos hty] at hok
  split at hok
  · rename_i files urls hc
    refine ⟨files, urls, hc, ?_⟩
    split at hok
    · rename_i hacc
      rw [if_pos hacc]
      simpa using hok.symm
    · rename_i hacc
      rw [if_neg hacc]
      simpa using hok.symm
  · simp at hok
  · simp at hok

theorem processGroup_mss (d d1 : DynamoData) (g : OutputGroupDetail)
    (hty : g.«Type» = "MS_SMOOTH_GROUP") (hok : processGroup d (some g) = .ok d1) :
    ∃ p u, playlistAt d.CloudFront g.PlaylistFilePaths 0 = .ok (p, u) ∧
      d1 = { d with MssPlaylist := p, MssUrl := u } := by
  unfold processGroup at hok
  dsimp only at hok
  have hn0 : ¬ g.«Type» = "HLS_GROUP" := by rw [hty]; decide
  have hn1 : ¬ g.«Type» = "DASH_ISO_GROUP" := by rw [hty]; decide
  have hn2 : ¬ g.«Type» = "FILE_GROUP" := by rw [hty]; decide
  rw [if_neg hn0, if_neg hn1, if_neg hn2, if_pos hty] at hok
  split at hok
  · rename_i p u hp
    exact ⟨p, u, hp, by simpa using hok.symm⟩
  · simp at hok
  · simp at hok

theorem processGroup_cmaf (d d1 : DynamoData) (g : OutputGroupDetail)
    (hty : g.«Type» = "CMAF_GROUP") (hok : processGroup d (some g) = .ok d1) :
    ∃ p0 u0 p1 u1, playlistAt d.CloudFront g.PlaylistFilePaths 0 = .ok (p0, u0) ∧
      playlistAt d.CloudFront g.PlaylistFilePaths 1 = .ok (p1, u1) ∧
      d1 = { d with CmafDashPlaylist := p0, CmafDashUrl := u0,
                    CmafHlsPlaylist := p1, CmafHlsUrl := u1 } := by
  unfold processGroup at hok
  dsimp only at hok
  have hn0 : ¬ g.«Type» = "HLS_GROUP" := by rw [hty]; decide
  have hn1 : ¬ g.«Type» = "DASH_ISO_GROUP" := by rw [hty]; decide
  have hn2 : ¬ g.«Type» = "FILE_GROUP" := by rw [hty]; decide
  have hn3 : ¬ g.«Type» = "MS_SMOOTH_GROUP" := by rw [hty]; decide
  rw [if_neg hn0, if_neg hn1, if_neg hn2, if_neg hn3, if_pos hty] at hok
  split at hok
  · rename_i p0 u0 hp0
    split at hok
    · rename_i p1 u1 hp1
      exact ⟨p0, u0, p1, u1, hp0, hp1, by simpa using hok.symm⟩
    · simp at hok
    · simp at hok
  · simp at hok
  · simp at hok

/-- A processed group has one of the five known types. -/
theorem processGroup_type (d d1 : DynamoData) (g : OutputGroupDetail)
    (hok : processGroup d (some g) = .ok d1) :
    g.«Type» = "HLS_GROUP" ∨ g.«Type» = "DASH_ISO_GROUP" ∨ g.«Type» = "FILE_GROUP" ∨
      g.«Type» = "MS_SMOOTH_GROUP" ∨ g.«Type» = "CMAF_GROUP" := by
  by_cases h1 : g.«Type» = "HLS_GROUP"
  · exact Or.inl h1
  by_cases h2 : g.«Type» = "DASH_ISO_GROUP"
  · exact Or.inr (Or.inl h2)
  by_cases h3 : g.«Type» = "FILE_GROUP"
  · exact Or.inr (Or.inr (Or.inl h3))
  by_cases h4 : g.«Type» = "MS_SMOOTH_GROUP"
  · exact Or.inr (Or.inr (Or.inr (Or.inl h4)))
  by_cases h5 : g.«Type» = "CMAF_GROUP"
  · exact Or.inr (Or.inr (Or.inr (Or.inr h5)))
  unfold processGroup at hok
  simp [h1, h2, h3, h4, h5] at hok

/-- What one group leaves untouched: the fields of the stored record read by
the handler, and the output fields of every other group type. -/
theorem processGroup_frame (d d1 : DynamoData) (g : OutputGroupDetail)
    (hok : processGroup d (some g) = .ok d1) :
    (d1.CloudFront = d.CloudFront ∧ d1.FrameCapture = d.FrameCapture ∧ d1.GUID = d.GUID ∧
      d1.DestBucket = d.DestBucket) ∧
    (g.«Type» ≠ "HLS_GROUP" → d1.HlsPlaylist = d.HlsPlaylist ∧ d1.HlsUrl = d.HlsUrl) ∧
    (g.«Type» ≠ "DASH_ISO_GROUP" → d1.DashPlaylist = d.DashPlaylist ∧ d1.DashUrl = d.DashUrl) ∧
    (g.«Type» ≠ "FILE_GROUP" → d1.Mp4Outputs = d.Mp4Outputs ∧ d1.Mp4Urls = d.Mp4Urls) ∧
    (g.«Type» ≠ "MS_SMOOTH_GROUP" → d1.MssPlaylist = d.MssPlaylist ∧ d1.MssUrl = d.MssUrl) ∧
    (g.«Type» ≠ "CMAF_GROUP" →
      d1.CmafDashPlaylist = d.CmafDashPlaylist ∧ d1.CmafDashUrl = d.CmafDashUrl ∧
      d1.CmafHlsPlaylist = d.CmafHlsPlaylist ∧ d1.CmafHlsUrl = d.CmafHlsUrl) := by
  rcases processGroup_type d d1 g hok with hty | hty | hty | hty | hty
  · obtain ⟨p, u, -, rfl⟩ := processGroup_hls d d1 g hty hok
    simp [hty]
  · obtain ⟨p, u, -, rfl⟩ := processGroup_dash d d1 g hty hok
    simp [hty]
  · obtain ⟨files, urls, -, rfl⟩ := processGroup_file d d1 g hty hok
    split <;> simp [hty]
  · obtain ⟨p, u, -, rfl⟩ := processGroup_mss d d1 g hty hok
    simp [hty]
  · obtain ⟨p0, u0, p1, u1, -, -, rfl⟩ := processGroup_cmaf d d1 g hty hok
    simp [hty]

/-- Splitting a successful run of the loop at one group. -/
theorem resolveGroups_append (pre post : List (Option OutputGroupDetail))
    (g : Option OutputGroupDetail) (d d2 : DynamoData)
    (hok : resolveGroups d (pre ++ g :: post) = .ok d2) :
    ∃ dpre dg, resolveGroups d pre = .ok dpre ∧ processGroup dpre g = .ok dg ∧
      resolveGroups dg post = .ok d2 := by
  induction pre generalizing d with
  | nil =>
    simp only [List.nil_append, resolveGroups] at hok
    cases hg : processGroup d g with
    | error e => simp [hg] at hok
    | panic e => simp [hg] at hok
    | ok dg =>
      simp only [hg] at hok
      exact ⟨d, dg, rfl, hg, hok⟩
  | cons x xs ih =>
    simp only [List.cons_append, resolveGroups] at hok
    cases hx : processGroup d x with
    | error e => simp [hx] at hok
    | panic e => simp [hx] at hok
    | ok dx =>
      simp only [hx] at hok
      obtain ⟨dpre, dg, h1, h2, h3⟩ := ih dx hok
      refine ⟨dpre, dg, ?_, h2, h3⟩
      simp only [resolveGroups, hx]
      exact h1

/-- A value read off the record survives the loop when every group of the list
leaves it alone. -/
theorem resolveGroups_preserve {α : Type} (f : DynamoData → α) (Q : OutputGroupDetail → Prop)
    (hstep : ∀ d g d1, Q g → processGroup d (some g) = .ok d1 → f d1 = f d)
    (gs : List (Option OutputGroupDetail)) (d d1 : DynamoData)
    (hQ : ∀ x ∈ gs, ∀ y, x = some y → Q y) (hok : resolveGroups d gs = .ok d1) :
    f d1 = f d := by
  induction gs generalizing d with
  | nil =>
    simp only [resolveGroups, Outcome.ok.injEq] at hok
    rw [hok]
  | cons x xs ih =>
    simp only [resolveGroups] at hok
    cases hx : processGroup d x with
    | error e => simp [hx] at hok
    | panic e => simp [hx] at hok
    | ok dx =>
      simp only [hx] at hok
      have hrest := ih dx (fun z hz y hy => hQ z (List.mem_cons_of_mem _ hz) y hy) hok
      rw [hrest]
      cases x with
      | none => simp [processGroup] at hx
      | some y => exact hstep d y dx (hQ (some y) (List.mem_cons_self _ _) y rfl) hx

theorem resolveGroups_CloudFront (gs : List (Option OutputGroupDetail)) (d d1 : DynamoData)
    (hok : resolveGroups d gs = .ok d1) :
    d1.CloudFront = d.CloudFront ∧ d1.FrameCapture = d.FrameCapture := by
  have hx := resolveGroups_preserve (fun x => (x.CloudFront, x.FrameCapture)) (fun _ => True)
    (fun a g b _ hg => by
      obtain ⟨⟨h1, h2, -, -⟩, -⟩ := processGroup_frame a b g hg
      simp [h1, h2])
    gs d d1 (fun _ _ _ _ => trivial) hok
  simpa using hx

theorem resolveThumbnails_ok (h : Handler) (d res : DynamoData)
    (hok : resolveThumbnails h d = .ok res) :
    ∃ tn tu, res = { d with ThumbNails := tn, ThumbNailsUrls := tu } := by
  unfold resolveThumbnails at hok
  split at hok
  · split at hok
    · simp at hok
    · split at hok
      · simp at hok
      · simp at hok
      · split at hok
        · simp at hok
        · simp only [Outcome.ok.injEq] at hok
          exact ⟨_, _, hok.symm⟩
  · simp only [Outcome.ok.injEq] at hok
    exact ⟨d.ThumbNails, d.ThumbNailsUrls, by rw [← hok]⟩

/-- What a returned record is made of: the decoded report, the decoded stored
record, the loop over the groups and the thumbnail block. -/
theorem HandleRequest_returns (h : Handler) (event : EventBridgeEvent) (res : DynamoData)
    (hok : HandleRequest h event = .ok res) :
    ∃ detail data d0 d1,
      h.Unmarshal event.Detail = .ok detail ∧
      h.DynamoDBClient.GetItem
        { TableName := h.DynamoDBTable, PK := "VIDEO#" ++ detail.UserMetadata.GUID,
          SK := "METADATA" } = .ok data ∧
      h.UnmarshalMap data.Item = .ok d0 ∧
      detail.OutputGroupDetails ≠ [] ∧
      resolveGroups
        { d0 with EncodingOutput := detail, EndTime := h.Now, WorkflowStatus := "Complete" }
        detail.OutputGroupDetails = .ok d1 ∧
      resolveThumbnails h d1 = .ok res := by
  unfold HandleRequest at hok
  cases hdet : h.Unmarshal event.Detail with
  | error e => simp [hdet] at hok
  | ok detail =>
    simp only [hdet] at hok
    cases hget : h.DynamoDBClient.GetItem
        { TableName := h.DynamoDBTable, PK := "VIDEO#" ++ detail.UserMetadata.GUID,
          SK := "METADATA" } with
    | error e => simp [hget] at hok
    | ok data =>
      simp only [hget] at hok
      split at hok
      · simp at hok
      · cases hmap : h.UnmarshalMap data.Item with
        | error e => simp [hmap] at hok
        | ok d0 =>
          simp only [hmap] at hok
          split at hok
          · simp at hok
          · rename_i hne
            cases hres : resolveGroups
                { d0 with EncodingOutput := detail, EndTime := h.Now,
                          WorkflowStatus := "Complete" } detail.OutputGroupDetails with
            | error e => simp [hres] at hok
            | panic e => simp [hres] at hok
            | ok d1 =>
              simp only [hres] at hok
              refine ⟨detail, data, d0, d1, rfl, hget, hmap, ?_, hres, hok⟩
              intro hnil
              exact hne (by simp [hnil])

theorem splitOnChar_cons_sep (sep : Char) (cs : List Char) :
    splitOnChar sep (sep :: cs) = [] :: splitOnChar sep cs := by
  rw [splitOnChar]
  simp

theorem splitOnChar_cons_ne (sep c : Char) (cs piece : List Char) (pieces : List (List Char))
    (hc : ¬ c = sep) (hs : splitOnChar sep cs = piece :: pieces) :
    splitOnChar sep (c :: cs) = (c :: piece) :: pieces := by
  rw [splitOnChar]
  simp [hc, hs]

theorem splitOnChar_append_sep (sep : Char) (xs ys : List Char) :
    splitOnChar sep (xs ++ sep :: ys) = splitOnChar sep xs ++ splitOnChar sep ys := by
  induction xs with
  | nil =>
    rw [List.nil_append, splitOnChar_cons_sep]
    rfl
  | cons c cs ih =>
    rw [List.cons_append]
    by_cases hc : c = sep
    · subst hc
      rw [splitOnChar_cons_sep, splitOnChar_cons_sep, ih]
      rfl
    · cases hs : splitOnChar sep cs with
      | nil => exact absurd hs (splitOnChar_ne_nil sep cs)
      | cons piece pieces =>
        rw [splitOnChar_cons_ne sep c cs piece pieces hc hs,
          splitOnChar_cons_ne sep c (cs ++ sep :: ys) piece (pieces ++ splitOnChar sep ys) hc
            (by rw [ih, hs]; rfl)]
        rfl

theorem splitOnChar_of_not_mem (sep : Char) (cs : List Char) (h : sep ∉ cs) :
    splitOnChar sep cs = [cs] := by
  induction cs with
  | nil => rfl
  | cons c cs ih =>
    have hc : ¬ c = sep := fun e => h (by simp [e])
    have hcs : sep ∉ cs := fun e => h (List.mem_cons_of_mem _ e)
    exact splitOnChar_cons_ne sep c cs cs [] hc (ih hcs)

/-- Splitting `x/y` gives the pieces of `x` followed by the pieces of `y`. -/
theorem goSplit_append_slash (x y : String) :
    goSplit (x ++ "/" ++ y) '/' = goSplit x '/' ++ goSplit y '/' := by
  unfold goSplit
  have hdata : (x ++ "/" ++ y).data = x.data ++ '/' :: y.data := by
    simp [String.data_append]
  rw [hdata, splitOnChar_append_sep, List.map_append]

theorem goSplit_of_no_slash (x : String) (h : '/' ∉ x.data) : goSplit x '/' = [x] := by
  unfold goSplit
  rw [splitOnChar_of_not_mem _ _ h]
  rfl

/-- The pieces of a path `front/a/b/c` whose last three parts hold no slash. -/
theorem goSplit_three (front a b c : String) (ha : '/' ∉ a.data) (hb : '/' ∉ b.data)
    (hc : '/' ∉ c.data) :
    goSplit (front ++ "/" ++ a ++ "/" ++ b ++ "/" ++ c) '/' = goSplit front '/' ++ [a, b, c] := by
  rw [goSplit_append_slash, goSplit_append_slash, goSplit_append_slash,
    goSplit_of_no_slash a ha, goSplit_of_no_slash b hb, goSplit_of_no_slash c hc]
  simp

theorem forall₂_getElem? {α β : Type} (R : α → β → Prop) (l1 : List α) (l2 : List β)
    (h : List.Forall₂ R l1 l2) (i : Nat) (x : α) (hx : l1[i]? = some x) :
    ∃ y, l2[i]? = some y ∧ R x y := by
  induction h generalizing i with
  | nil => simp at hx
  | cons hr _ ih =>
    cases i with
    | zero =>
      simp only [List.getElem?_cons_zero, Option.some.injEq] at hx
      subst hx
      exact ⟨_, by simp, hr⟩
    | succ j =>
      simp only [List.getElem?_cons_succ] at hx ⊢
      exact ih j hx

/-- The result of the loop collecting the files of a group: the first path of
every rendition that has paths, in order, each with the URL built from it. -/
theorem collectFiles_ok (cloudFront : String) (ods : List (Option OutputDetail))
    (acc : List (Option String) × List (Option String)) (files urls : List (Option String))
    (hok : collectFiles cloudFront acc ods = .ok (files, urls)) :
    ∃ nu, files = acc.1 ++
        ods.filterMap (fun od => od.bind (fun o => o.OutputFilePaths.bind List.head?)) ∧
      urls = acc.2 ++ nu ∧
      List.Forall₂ (fun f u => ∃ p w, f = some p ∧ u = some w ∧ publicUrl cloudFront p = .ok w)
        (ods.filterMap (fun od => od.bind (fun o => o.OutputFilePaths.bind List.head?))) nu := by
  induction ods generalizing acc with
  | nil =>
    simp only [collectFiles, Outcome.ok.injEq] at hok
    subst hok
    exact ⟨[], by simp, by simp, by simp⟩
  | cons od rest ih =>
    simp only [collectFiles] at hok
    cases hstep : collectStep cloudFront acc od with
    | error e => simp [hstep] at hok
    | panic e => simp [hstep] at hok
    | ok acc1 =>
      simp only [hstep] at hok
      obtain ⟨nu, hf, hu, hrel⟩ := ih acc1 hok
      unfold collectStep at hstep
      cases od with
      | none => simp at hstep
      | some o =>
        simp only at hstep
        cases hp : o.OutputFilePaths with
        | none =>
          simp only [hp, Outcome.ok.injEq] at hstep
          subst hstep
          refine ⟨nu, ?_, hu, ?_⟩
          · rw [hf]; simp [hp]
          · simpa [hp] using hrel
        | some paths =>
          cases paths with
          | nil => simp [hp] at hstep
          | cons q qs =>
            cases q with
            | none => simp [hp] at hstep
            | some path =>
              simp only [hp] at hstep
              cases hw : publicUrl cloudFront path with
              | error e => simp [hw] at hstep
              | panic e => simp [hw] at hstep
              | ok w =>
                simp only [hw, Outcome.ok.injEq] at hstep
                subst hstep
                refine ⟨some w :: nu, ?_, ?_, ?_⟩
                · rw [hf]; simp [hp]
                · rw [hu]; simp
                · simp only [List.filterMap_cons, Option.bind, hp, List.head?_cons]
                  exact List.Forall₂.cons ⟨path, w, rfl, rfl, hw⟩ hrel

/-- The loop collecting the files succeeds when every rendition is non-nil and
has either no paths or a first path of at least three pieces. -/
theorem collectFiles_total (cloudFront : String) (ods : List (Option OutputDetail))
    (acc : List (Option String) × List (Option String))
    (hwf : ∀ od ∈ ods, ∃ o, od = some o ∧ (o.OutputFilePaths = none ∨
      ∃ p rest, o.OutputFilePaths = some (some p :: rest) ∧ 3 ≤ (goSplit p '/').length)) :
    ∃ files urls, collectFiles cloudFront acc ods = .ok (files, urls) := by
  induction ods generalizing acc with
  | nil => exact ⟨acc.1, acc.2, rfl⟩
  | cons od rest ih =>
    obtain ⟨o, rfl, ho⟩ := hwf od (List.mem_cons_self _ _)
    have hrest := fun x hx => hwf x (List.mem_cons_of_mem _ hx)
    rcases ho with hnone | ⟨p, tail, hsome, hlen⟩
    · simp only [collectFiles, collectStep, hnone]
      exact ih acc hrest
    · obtain ⟨pieces, a, b, c, hsplit⟩ := exists_last_three _ hlen
      have hurl : publicUrl cloudFront p =
          .ok ("https://" ++ cloudFront ++ "/" ++ (a ++ "/" ++ b ++ "/" ++ c)) := by
        unfold publicUrl
        rw [buildUrl_of_split p pieces a b c hsplit]
      simp only [collectFiles, collectStep, hsome, hurl]
      exact ih _ hrest

theorem publicUrl_of_split (cloudFront s3Path : String) (pieces : List String) (a b c : String)
    (hsplit : goSplit s3Path '/' = pieces ++ [a, b, c]) :
    publicUrl cloudFront s3Path =
      .ok ("https://" ++ cloudFront ++ "/" ++ (a ++ "/" ++ b ++ "/" ++ c)) := by
  unfold publicUrl
  rw [buildUrl_of_split s3Path pieces a b c hsplit]

theorem playlistAt_of_path (cloudFront : String) (paths : List (Option String)) (i : Nat)
    (p : String) (pieces : List String) (a b c : String)
    (hp : paths[i]? = some (some p)) (hsplit : goSplit p '/' = pieces ++ [a, b, c]) :
    playlistAt cloudFront paths i =
      .ok (some p, some ("https://" ++ cloudFront ++ "/" ++ (a ++ "/" ++ b ++ "/" ++ c))) := by
  unfold playlistAt
  simp only [hp, publicUrl_of_split cloudFront p pieces a b c hsplit]

/-- A returned record, seen from one group of the report: the states before and
after that group, the state after the loop, and the stored record. -/
theorem HandleRequest_split (h : Handler) (event : EventBridgeEvent) (res : DynamoData)
    (detail : EventDetail) (pre post : List (Option OutputGroupDetail)) (g : OutputGroupDetail)
    (hok : HandleRequest h event = .ok res)
    (hdet : h.Unmarshal event.Detail = .ok detail)
    (hgroups : detail.OutputGroupDetails = pre ++ some g :: post) :
    ∃ (data : GetItemOutput) (d0 dpre dg d1 : DynamoData) (tn tu : List (Option String)),
      h.UnmarshalMap data.Item = .ok d0 ∧
      processGroup dpre (some g) = .ok dg ∧
      resolveGroups dg post = .ok d1 ∧
      res = { d1 with ThumbNails := tn, ThumbNailsUrls := tu } ∧
      dpre.CloudFront = d0.CloudFront ∧ dg.CloudFront = d0.CloudFront ∧
      d1.CloudFront = d0.CloudFront := by
  obtain ⟨detail1, data, d0, d1, hdet1, -, hmap, -, hres, hthumb⟩ := HandleRequest_returns h event res hok
  rw [hdet] at hdet1
  simp only [Except.ok.injEq] at hdet1
  subst hdet1
  obtain ⟨tn, tu, hres1⟩ := resolveThumbnails_ok h d1 res hthumb
  rw [hgroups] at hres
  obtain ⟨dpre, dg, h1, h2, h3⟩ := resolveGroups_append pre post (some g) _ d1 hres
  have c1 := (resolveGroups_CloudFront pre _ dpre h1).1
  have c2 := (processGroup_frame dpre dg g h2).1.1
  have c3 := (resolveGroups_CloudFront post dg d1 h3).1
  exact ⟨data, d0, dpre, dg, d1, tn, tu, hmap, h2, h3, hres1, c1, c2.trans c1,
    c3.trans (c2.trans c1)⟩

/-- C14. Output resolution fails for every completion report that declares zero
output groups, whatever the stored record contains: the handler returns an
error and no result; when the stored record is read and decoded, the error is
the one for missing output group details. -/
theorem zero_output_groups_fail (h : Handler) (event : EventBridgeEvent) (detail : EventDetail)
    (hdet : h.Unmarshal event.Detail = .ok detail)
    (hzero : detail.OutputGroupDetails = []) :
    (∃ e, HandleRequest h event = .error e) ∧
    (∀ data d0,
      h.DynamoDBClient.GetItem
        { TableName := h.DynamoDBTable, PK := "VIDEO#" ++ detail.UserMetadata.GUID,
          SK := "METADATA" } = .ok data →
      data.Item ≠ [] → h.UnmarshalMap data.Item = .ok d0 →
      HandleRequest h event =
        .error "output-validate: main.Handler.HandleRequest: no output group details found") := by
  constructor
  · unfold HandleRequest
    simp only [hdet, hzero, List.length_nil, if_true]
    cases h.DynamoDBClient.GetItem
        { TableName := h.DynamoDBTable, PK := "VIDEO#" ++ detail.UserMetadata.GUID,
          SK := "METADATA" } with
    | error e => exact ⟨_, rfl⟩
    | ok data =>
      simp only
      split
      · exact ⟨_, rfl⟩
      · cases h.UnmarshalMap data.Item with
        | error e => exact ⟨_, rfl⟩
        | ok d0 => exact ⟨_, rfl⟩
  · intro data d0 hget hne hmap
    unfold HandleRequest
    have hlen : ¬ data.Item.length = 0 := fun e => hne (List.length_eq_zero.mp e)
    simp only [hdet, hget, hmap, hzero, List.length_nil, if_true, hlen, if_false]

/-- A report without output groups against the stored record of the tests. -/
theorem zero_output_groups_fail_witness :
    HandleRequest (sampleHandler (detailOf "vod10" []) false []) { Detail := "" } =
      .error "output-validate: main.Handler.HandleRequest: no output group details found" :=
  (zero_output_groups_fail (sampleHandler (detailOf "vod10" []) false []) { Detail := "" }
    (detailOf "vod10" []) rfl rfl).2 { Item := sampleItem false } (sampleData false) rfl
    (by simp [sampleItem]) rfl

/-- C15, as stated, fails for a group that is followed by another group of its
type: for a report with two HLS groups, with playlists first.m3u8 and
second.m3u8, the handler returns a result whose hlsPlaylist and hlsUrl are
those of the second group, not of the first. -/
theorem earlier_playlist_group_overwritten :
    ∃ res, HandleRequest
        (sampleHandler (detailOf "vod10" [
          some (playlistGroup "HLS_GROUP" ["s3://vod-destination/12345/hls/first.m3u8"]),
          some (playlistGroup "HLS_GROUP" ["s3://vod-destination/12345/hls/second.m3u8"])])
          false [])
        { Detail := "" } = .ok res ∧
      res.HlsPlaylist = some "s3://vod-destination/12345/hls/second.m3u8" ∧
      res.HlsUrl = some "https://cloudfront/12345/hls/second.m3u8" ∧
      res.HlsPlaylist ≠ some "s3://vod-destination/12345/hls/first.m3u8" ∧
      res.HlsUrl ≠ some "https://cloudfront/12345/hls/first.m3u8" :=
  ⟨_, rfl, rfl, rfl, by decide, by decide⟩

/-- C15, amended. Single-playlist groups: for every report group of type
HLS_GROUP, DASH_ISO_GROUP or MS_SMOOTH_GROUP whose first playlist path is p,
with last three slash-separated pieces a, b, c, the record right after the
group is processed, and the returned record when no later group of the report
has the same type, has p in the playlist field of that type and
https://cloudFront/a/b/c in its URL field, cloudFront being that of the stored
record.  A path s3://bucket/a/b/c has the last three pieces a, b, c. -/
theorem single_playlist_groups (h : Handler) (event : EventBridgeEvent) (res : DynamoData)
    (detail : EventDetail) (pre post : List (Option OutputGroupDetail)) (g : OutputGroupDetail)
    (p : String) (rest : List (Option String)) (pieces : List String) (a b c : String)
    (hok : HandleRequest h event = .ok res)
    (hdet : h.Unmarshal event.Detail = .ok detail)
    (hgroups : detail.OutputGroupDetails = pre ++ some g :: post)
    (hpath : g.PlaylistFilePaths = some p :: rest)
    (hsplit : goSplit p '/' = pieces ++ [a, b, c]) :
    (∃ (data : GetItemOutput) (d0 : DynamoData),
      h.UnmarshalMap data.Item = .ok d0 ∧ res.CloudFront = d0.CloudFront) ∧
    (∃ dpre dg, processGroup dpre (some g) = .ok dg ∧
      ∀ d, (d = dg ∨ ((∀ x ∈ post, ∀ y, x = some y → y.«Type» ≠ g.«Type») ∧ d = res)) →
        (g.«Type» = "HLS_GROUP" → d.HlsPlaylist = some p ∧
          d.HlsUrl = some ("https://" ++ res.CloudFront ++ "/" ++ (a ++ "/" ++ b ++ "/" ++ c))) ∧
        (g.«Type» = "DASH_ISO_GROUP" → d.DashPlaylist = some p ∧
          d.DashUrl = some ("https://" ++ res.CloudFront ++ "/" ++ (a ++ "/" ++ b ++ "/" ++ c))) ∧
        (g.«Type» = "MS_SMOOTH_GROUP" → d.MssPlaylist = some p ∧
          d.MssUrl = some ("https://" ++ res.CloudFront ++ "/" ++ (a ++ "/" ++ b ++ "/" ++ c)))) ∧
    (∀ bucket x y z : String, '/' ∉ x.data → '/' ∉ y.data → '/' ∉ z.data →
      goSplit ("s3://" ++ bucket ++ "/" ++ x ++ "/" ++ y ++ "/" ++ z) '/' =
        goSplit ("s3://" ++ bucket) '/' ++ [x, y, z]) := by
  obtain ⟨data, d0, dpre, dg, d1, tn, tu, hmap, hstep, hpost, rfl, cpre, cdg, c1⟩ :=
    HandleRequest_split h event res detail pre post g hok hdet hgroups
  have hp0 : g.PlaylistFilePaths[0]? = some (some p) := by rw [hpath]; simp
  have hplay := playlistAt_of_path dpre.CloudFront g.PlaylistFilePaths 0 p pieces a b c hp0 hsplit
  refine ⟨⟨data, d0, hmap, c1⟩, ⟨dpre, dg, hstep, ?_⟩,
    fun bucket x y z hx hy hz => goSplit_three ("s3://" ++ bucket) x y z hx hy hz⟩
  have hcf : dpre.CloudFront = d1.CloudFront := cpre.trans c1.symm
  have hdgfields :
      (g.«Type» = "HLS_GROUP" → dg.HlsPlaylist = some p ∧
        dg.HlsUrl = some ("https://" ++ d1.CloudFront ++ "/" ++ (a ++ "/" ++ b ++ "/" ++ c))) ∧
      (g.«Type» = "DASH_ISO_GROUP" → dg.DashPlaylist = some p ∧
        dg.DashUrl = some ("https://" ++ d1.CloudFront ++ "/" ++ (a ++ "/" ++ b ++ "/" ++ c))) ∧
      (g.«Type» = "MS_SMOOTH_GROUP" → dg.MssPlaylist = some p ∧
        dg.MssUrl = some ("https://" ++ d1.CloudFront ++ "/" ++ (a ++ "/" ++ b ++ "/" ++ c))) := by
    refine ⟨?_, ?_, ?_⟩
    · intro hty
      obtain ⟨p1, u1, hp1, rfl⟩ := processGroup_hls dpre dg g hty hstep
      rw [hplay] at hp1
      simp only [Outcome.ok.injEq, Prod.mk.injEq] at hp1
      rw [← hcf]
      exact ⟨hp1.1.symm, hp1.2.symm⟩
    · intro hty
      obtain ⟨p1, u1, hp1, rfl⟩ := processGroup_dash dpre dg g hty hstep
      rw [hplay] at hp1
      simp only [Outcome.ok.injEq, Prod.mk.injEq] at hp1
      rw [← hcf]
      exact ⟨hp1.1.symm, hp1.2.symm⟩
    · intro hty
      obtain ⟨p1, u1, hp1, rfl⟩ := processGroup_mss dpre dg g hty hstep
      rw [hplay] at hp1
      simp only [Outcome.ok.injEq, Prod.mk.injEq] at hp1
      rw [← hcf]
      exact ⟨hp1.1.symm, hp1.2.symm⟩
  intro d hd
  rcases hd with rfl | ⟨hlater, rfl⟩
  · exact hdgfields
  · refine ⟨?_, ?_, ?_⟩
    · intro hty
      have hkeep := resolveGroups_preserve (fun x => (x.HlsPlaylist, x.HlsUrl))
        (fun y => y.«Type» ≠ "HLS_GROUP")
        (fun x y z hy hz => by
          obtain ⟨e1, e2⟩ := (processGroup_frame x z y hz).2.1 hy
          simp [e1, e2])
        post dg d1 (fun x hx y hxy => by rw [← hty]; exact hlater x hx y hxy) hpost
      simp only [Prod.mk.injEq] at hkeep
      exact ⟨hkeep.1.trans (hdgfields.1 hty).1, hkeep.2.trans (hdgfields.1 hty).2⟩
    · intro hty
      have hkeep := resolveGroups_preserve (fun x => (x.DashPlaylist, x.DashUrl))
        (fun y => y.«Type» ≠ "DASH_ISO_GROUP")
        (fun x y z hy hz => by
          obtain ⟨e1, e2⟩ := (processGroup_frame x z y hz).2.2.1 hy
          simp [e1, e2])
        post dg d1 (fun x hx y hxy => by rw [← hty]; exact hlater x hx y hxy) hpost
      simp only [Prod.mk.injEq] at hkeep
      exact ⟨hkeep.1.trans (hdgfields.2.1 hty).1, hkeep.2.trans (hdgfields.2.1 hty).2⟩
    · intro hty
      have hkeep := resolveGroups_preserve (fun x => (x.MssPlaylist, x.MssUrl))
        (fun y => y.«Type» ≠ "MS_SMOOTH_GROUP")
        (fun x y z hy hz => by
          obtain ⟨e1, e2⟩ := (processGroup_frame x z y hz).2.2.2.2.1 hy
          simp [e1, e2])
        post dg d1 (fun x hx y hxy => by rw [← hty]; exact hlater x hx y hxy) hpost
      simp only [Prod.mk.injEq] at hkeep
      exact ⟨hkeep.1.trans (hdgfields.2.2 hty).1, hkeep.2.trans (hdgfields.2.2 hty).2⟩

/-- The report `HlsDash` of the tests against the stored record of the tests:
the handler returns, with the HLS playlist and its URL. -/
theorem single_playlist_groups_witness :
    ∃ res, HandleRequest (sampleHandler HlsDash false []) { Detail := "" } = .ok res ∧
      res.HlsPlaylist = some "s3://vod-destination/12345/hls/dude.m3u8" ∧
      res.HlsUrl = some "https://cloudfront/12345/hls/dude.m3u8" := by
  refine ⟨_, rfl, ?_⟩
  obtain ⟨-, ⟨dpre, dg, -, hall⟩, -⟩ := single_playlist_groups
    (sampleHandler HlsDash false []) { Detail := "" } _ HlsDash []
    [some (playlistGroup "DASH_ISO_GROUP" ["s3://vod-destination/12345/dash/dude.mpd"])]
    (playlistGroup "HLS_GROUP" ["s3://vod-destination/12345/hls/dude.m3u8"])
    "s3://vod-destination/12345/hls/dude.m3u8" [] ["s3:", "", "vod-destination"]
    "12345" "hls" "dude.m3u8" rfl rfl rfl rfl (by decide)
  exact (hall _ (Or.inr ⟨by simp [playlistGroup], rfl⟩)).1 rfl

/-- C16. buildUrl: for every storage path with at least three slash-separated
pieces, buildUrl returns exactly its last three pieces joined by slashes, in
their order, and the URL built from it is https://cdn/ followed by them; the
path s3://bucket/12345/hls/x.m3u8 gives 12345/hls/x.m3u8 and
https://cdn/12345/hls/x.m3u8. -/
theorem buildUrl_last_three (s3Path : String) (hlen : 3 ≤ (goSplit s3Path '/').length) :
    (∃ pieces a b c, goSplit s3Path '/' = pieces ++ [a, b, c] ∧
      buildUrl s3Path = .ok (a ++ "/" ++ b ++ "/" ++ c) ∧
      ∀ cdn, publicUrl cdn s3Path =
        .ok ("https://" ++ cdn ++ "/" ++ (a ++ "/" ++ b ++ "/" ++ c))) ∧
    buildUrl "s3://bucket/12345/hls/x.m3u8" = .ok "12345/hls/x.m3u8" ∧
    (∀ cdn, publicUrl cdn "s3://bucket/12345/hls/x.m3u8" =
      .ok ("https://" ++ cdn ++ "/" ++ "12345/hls/x.m3u8")) := by
  obtain ⟨pieces, a, b, c, hsplit⟩ := exists_last_three _ hlen
  refine ⟨⟨pieces, a, b, c, hsplit, buildUrl_of_split s3Path pieces a b c hsplit,
    fun cdn => publicUrl_of_split cdn s3Path pieces a b c hsplit⟩, by decide, ?_⟩
  intro cdn
  exact publicUrl_of_split cdn "s3://bucket/12345/hls/x.m3u8" ["s3:", "", "bucket"]
    "12345" "hls" "x.m3u8" (by decide)

/-- The path of the spec has six pieces; its last three give the key. -/
theorem buildUrl_last_three_witness :
    3 ≤ (goSplit "s3://bucket/12345/hls/x.m3u8" '/').length ∧
    buildUrl "s3://bucket/12345/hls/x.m3u8" = .ok "12345/hls/x.m3u8" :=
  ⟨by decide, (buildUrl_last_three "s3://bucket/12345/hls/x.m3u8" (by decide)).2.1⟩

/-- C19, as stated, fails for a CMAF_GROUP that is followed by another
CMAF_GROUP: for a report with two CMAF groups, with playlists a.mpd, a.m3u8 and
b.mpd, b.m3u8, the handler returns a result whose four CMAF fields are those of
the second group, not of the first. -/
theorem earlier_cmaf_group_overwritten :
    ∃ res, HandleRequest
        (sampleHandler (detailOf "CMAF" [
          some (playlistGroup "CMAF_GROUP" ["s3://vod-destination/12345/cmaf/a.mpd",
            "s3://vod-destination/12345/cmaf/a.m3u8"]),
          some (playlistGroup "CMAF_GROUP" ["s3://vod-destination/12345/cmaf/b.mpd",
            "s3://vod-destination/12345/cmaf/b.m3u8"])]) false [])
        { Detail := "" } = .ok res ∧
      res.CmafDashPlaylist = some "s3://vod-destination/12345/cmaf/b.mpd" ∧
      res.CmafDashUrl = some "https://cloudfront/12345/cmaf/b.mpd" ∧
      res.CmafHlsPlaylist = some "s3://vod-destination/12345/cmaf/b.m3u8" ∧
      res.CmafHlsUrl = some "https://cloudfront/12345/cmaf/b.m3u8" ∧
      res.CmafDashPlaylist ≠ some "s3://vod-destination/12345/cmaf/a.mpd" ∧
      res.CmafHlsPlaylist ≠ some "s3://vod-destination/12345/cmaf/a.m3u8" :=
  ⟨_, rfl, rfl, rfl, rfl, rfl, by decide, by decide⟩

/-- C19, amended. CMAF dual playlist: for every CMAF_GROUP whose playlist paths
start with p0 and p1, with last three pieces a0, b0, c0 and a1, b1, c1, the
record right after the group is processed, and the returned record when no
later group of the report is a CMAF_GROUP, has cmafDashPlaylist = p0 with the
URL built from p0 and cmafHlsPlaylist = p1 with the URL built from p1. -/
theorem cmaf_dual_playlist (h : Handler) (event : EventBridgeEvent) (res : DynamoData)
    (detail : EventDetail) (pre post : List (Option OutputGroupDetail)) (g : OutputGroupDetail)
    (p0 p1 : String) (rest : List (Option String))
    (pieces0 : List String) (a0 b0 c0 : String) (pieces1 : List String) (a1 b1 c1 : String)
    (hok : HandleRequest h event = .ok res)
    (hdet : h.Unmarshal event.Detail = .ok detail)
    (hgroups : detail.OutputGroupDetails = pre ++ some g :: post)
    (hty : g.«Type» = "CMAF_GROUP")
    (hpath : g.PlaylistFilePaths = some p0 :: some p1 :: rest)
    (hsplit0 : goSplit p0 '/' = pieces0 ++ [a0, b0, c0])
    (hsplit1 : goSplit p1 '/' = pieces1 ++ [a1, b1, c1]) :
    ∃ dpre dg, processGroup dpre (some g) = .ok dg ∧
      ∀ d, (d = dg ∨ ((∀ x ∈ post, ∀ y, x = some y → y.«Type» ≠ "CMAF_GROUP") ∧ d = res)) →
        d.CmafDashPlaylist = some p0 ∧
        d.CmafDashUrl =
          some ("https://" ++ res.CloudFront ++ "/" ++ (a0 ++ "/" ++ b0 ++ "/" ++ c0)) ∧
        d.CmafHlsPlaylist = some p1 ∧
        d.CmafHlsUrl =
          some ("https://" ++ res.CloudFront ++ "/" ++ (a1 ++ "/" ++ b1 ++ "/" ++ c1)) := by
  obtain ⟨data, d0, dpre, dg, d1, tn, tu, hmap, hstep, hpost, rfl, cpre, cdg, c1x⟩ :=
    HandleRequest_split h event res detail pre post g hok hdet hgroups
  have hcf : dpre.CloudFront = d1.CloudFront := cpre.trans c1x.symm
  have hq0 : g.PlaylistFilePaths[0]? = some (some p0) := by rw [hpath]; simp
  have hq1 : g.PlaylistFilePaths[1]? = some (some p1) := by rw [hpath]; simp
  have hplay0 := playlistAt_of_path dpre.CloudFront g.PlaylistFilePaths 0 p0 pieces0 a0 b0 c0
    hq0 hsplit0
  have hplay1 := playlistAt_of_path dpre.CloudFront g.PlaylistFilePaths 1 p1 pieces1 a1 b1 c1
    hq1 hsplit1
  obtain ⟨x0, u0, x1, u1, hx0, hx1, hdg⟩ := processGroup_cmaf dpre dg g hty hstep
  rw [hplay0] at hx0
  rw [hplay1] at hx1
  simp only [Outcome.ok.injEq, Prod.mk.injEq] at hx0 hx1
  have hfields : dg.CmafDashPlaylist = some p0 ∧
      dg.CmafDashUrl =
        some ("https://" ++ d1.CloudFront ++ "/" ++ (a0 ++ "/" ++ b0 ++ "/" ++ c0)) ∧
      dg.CmafHlsPlaylist = some p1 ∧
      dg.CmafHlsUrl =
        some ("https://" ++ d1.CloudFront ++ "/" ++ (a1 ++ "/" ++ b1 ++ "/" ++ c1)) := by
    rw [hdg, ← hcf]
    exact ⟨hx0.1.symm, hx0.2.symm, hx1.1.symm, hx1.2.symm⟩
  refine ⟨dpre, dg, hstep, ?_⟩
  intro d hd
  rcases hd with rfl | ⟨hlater, rfl⟩
  · exact hfields
  · have hkeep := resolveGroups_preserve
      (fun x => (x.CmafDashPlaylist, x.CmafDashUrl, x.CmafHlsPlaylist, x.CmafHlsUrl))
      (fun y => y.«Type» ≠ "CMAF_GROUP")
      (fun x y z hy hz => by
        obtain ⟨e1, e2, e3, e4⟩ := (processGroup_frame x z y hz).2.2.2.2.2 hy
        simp [e1, e2, e3, e4])
      post dg d1 hlater hpost
    simp only [Prod.mk.injEq] at hkeep
    exact ⟨hkeep.1.trans hfields.1, hkeep.2.1.trans hfields.2.1,
      hkeep.2.2.1.trans hfields.2.2.1, hkeep.2.2.2.trans hfields.2.2.2⟩

/-- The report `CmafMss` of the tests: the DASH pair comes from the .mpd path
and the HLS pair from the .m3u8 path. -/
theorem cmaf_dual_playlist_witness :
    ∃ res, HandleRequest (sampleHandler CmafMss false []) { Detail := "" } = .ok res ∧
      res.CmafDashPlaylist = some "s3://vod-destination/12345/cmaf/big_bunny.mpd" ∧
      res.CmafDashUrl = some "https://cloudfront/12345/cmaf/big_bunny.mpd" ∧
      res.CmafHlsPlaylist = some "s3://vod-destination/12345/cmaf/big_bunny.m3u8" ∧
      res.CmafHlsUrl = some "https://cloudfront/12345/cmaf/big_bunny.m3u8" := by
  refine ⟨_, rfl, ?_⟩
  obtain ⟨dpre, dg, -, hall⟩ := cmaf_dual_playlist
    (sampleHandler CmafMss false []) { Detail := "" } _ CmafMss []
    [some {
      OutputDetails := [some {
        OutputFilePaths := some [some "s3://vod-destination/12345/mss/big_bunny.ismv"],
        DurationInMs := 0 }]
      PlaylistFilePaths := [some "s3://vod-destination/12345/mss/big_bunny.ism"]
      «Type» := "MS_SMOOTH_GROUP" }]
    (playlistGroup "CMAF_GROUP" [
      "s3://vod-destination/12345/cmaf/big_bunny.mpd",
      "s3://vod-destination/12345/cmaf/big_bunny.m3u8"])
    "s3://vod-destination/12345/cmaf/big_bunny.mpd"
    "s3://vod-destination/12345/cmaf/big_bunny.m3u8" []
    ["s3:", "", "vod-destination"] "12345" "cmaf" "big_bunny.mpd"
    ["s3:", "", "vod-destination"] "12345" "cmaf" "big_bunny.m3u8"
    rfl rfl rfl rfl rfl (by decide) (by decide)
  exact hall _ (Or.inr ⟨by simp, rfl⟩)

theorem publicUrl_cases (cloudFront s3Path : String) :
    (∃ w, publicUrl cloudFront s3Path = .ok w) ∨
      ∃ msg, publicUrl cloudFront s3Path = .panic msg := by
  unfold publicUrl buildUrl
  by_cases hl : 3 ≤ (goSplit s3Path '/').length
  · simp only [hl, if_true]
    exact Or.inl ⟨_, rfl⟩
  · simp only [hl, if_false]
    exact Or.inr ⟨_, rfl⟩

theorem playlistAt_cases (cloudFront : String) (paths : List (Option String)) (i : Nat) :
    (∃ p u, playlistAt cloudFront paths i = .ok (p, u)) ∨
      ∃ msg, playlistAt cloudFront paths i = .panic msg := by
  unfold playlistAt
  split
  · exact Or.inr ⟨_, rfl⟩
  · exact Or.inr ⟨_, rfl⟩
  · rename_i s hs
    rcases publicUrl_cases cloudFront s with ⟨w, hw⟩ | ⟨msg, hw⟩
    · rw [hw]
      exact Or.inl ⟨_, _, rfl⟩
    · rw [hw]
      exact Or.inr ⟨_, rfl⟩

/-- C20. A CMAF_GROUP with fewer than two playlist paths makes the whole
resolution fail: the handler returns no result for a report that holds such a
group, and processing the group always aborts (index out of range or nil
pointer), so it is never resolved with the DASH pair alone. -/
theorem cmaf_missing_playlist_fails (h : Handler) (event : EventBridgeEvent)
    (detail : EventDetail) (g : OutputGroupDetail)
    (hdet : h.Unmarshal event.Detail = .ok detail)
    (hmem : some g ∈ detail.OutputGroupDetails)
    (hty : g.«Type» = "CMAF_GROUP")
    (hlen : g.PlaylistFilePaths.length < 2) :
    (∀ res, HandleRequest h event ≠ .ok res) ∧
    (∀ d, ∃ msg, processGroup d (some g) = .panic msg) := by
  have hnone : g.PlaylistFilePaths[1]? = none := by
    rw [List.getElem?_eq_none_iff]
    omega
  have hstep : ∀ d, ∃ msg, processGroup d (some g) = .panic msg := by
    intro d
    unfold processGroup
    dsimp only
    have hn0 : ¬ g.«Type» = "HLS_GROUP" := by rw [hty]; decide
    have hn1 : ¬ g.«Type» = "DASH_ISO_GROUP" := by rw [hty]; decide
    have hn2 : ¬ g.«Type» = "FILE_GROUP" := by rw [hty]; decide
    have hn3 : ¬ g.«Type» = "MS_SMOOTH_GROUP" := by rw [hty]; decide
    rw [if_neg hn0, if_neg hn1, if_neg hn2, if_neg hn3, if_pos hty]
    rcases playlistAt_cases d.CloudFront g.PlaylistFilePaths 0 with ⟨p, u, h0⟩ | ⟨msg, h0⟩
    · rw [h0]
      have h1 : playlistAt d.CloudFront g.PlaylistFilePaths 1 =
          .panic "runtime error: index out of range" := by
        unfold playlistAt
        rw [hnone]
      simp only [h1]
      exact ⟨_, rfl⟩
    · rw [h0]
      exact ⟨_, rfl⟩
  refine ⟨?_, hstep⟩
  intro res hok
  obtain ⟨pre, post, hgroups⟩ := List.append_of_mem hmem
  obtain ⟨data, d0, dpre, dg, d1, tn, tu, -, hg, -⟩ :=
    HandleRequest_split h event res detail pre post g hok hdet hgroups
  obtain ⟨msg, hpanic⟩ := hstep dpre
  rw [hpanic] at hg
  simp at hg

/-- A report with a CMAF group that has the .mpd playlist only: the handler
aborts and returns no result. -/
theorem cmaf_missing_playlist_fails_witness :
    HandleRequest
        (sampleHandler (detailOf "CMAF" [some (playlistGroup "CMAF_GROUP"
          ["s3://vod-destination/12345/cmaf/big_bunny.mpd"])]) false [])
        { Detail := "" } = .panic "runtime error: index out of range" ∧
    ∀ res, HandleRequest
        (sampleHandler (detailOf "CMAF" [some (playlistGroup "CMAF_GROUP"
          ["s3://vod-destination/12345/cmaf/big_bunny.mpd"])]) false [])
        { Detail := "" } ≠ .ok res :=
  ⟨rfl, (cmaf_missing_playlist_fails
    (sampleHandler (detailOf "CMAF" [some (playlistGroup "CMAF_GROUP"
      ["s3://vod-destination/12345/cmaf/big_bunny.mpd"])]) false [])
    { Detail := "" }
    (detailOf "CMAF" [some (playlistGroup "CMAF_GROUP"
      ["s3://vod-destination/12345/cmaf/big_bunny.mpd"])])
    (playlistGroup "CMAF_GROUP" ["s3://vod-destination/12345/cmaf/big_bunny.mpd"])
    rfl (by simp [detailOf]) rfl (by decide)).1⟩

/-- The `FILE_GROUP` case, once the files are collected. -/
theorem processGroup_file_eval (d : DynamoData) (g : OutputGroupDetail)
    (files urls : List (Option String)) (hty : g.«Type» = "FILE_GROUP")
    (hc : collectFiles d.CloudFront ([], []) g.OutputDetails = .ok (files, urls)) :
    processGroup d (some g) =
      .ok (if acceptFiles files = true then { d with Mp4Outputs := files, Mp4Urls := urls }
        else d) := by
  unfold processGroup
  dsimp only
  have hn0 : ¬ g.«Type» = "HLS_GROUP" := by rw [hty]; decide
  have hn1 : ¬ g.«Type» = "DASH_ISO_GROUP" := by rw [hty]; decide
  rw [if_neg hn0, if_neg hn1, if_pos hty, hc]
  dsimp only
  split <;> rfl

/-- A `FILE_GROUP` whose collected files are not accepted leaves the record as
it is. -/
theorem processGroup_file_reject (d d1 : DynamoData) (g : OutputGroupDetail)
    (hty : g.«Type» = "FILE_GROUP") (hok : processGroup d (some g) = .ok d1)
    (hrej : acceptFiles
      (g.OutputDetails.filterMap (fun od => od.bind (fun o => o.OutputFilePaths.bind List.head?)))
        = false) :
    d1 = d := by
  obtain ⟨files, urls, hc, rfl⟩ := processGroup_file d d1 g hty hok
  obtain ⟨nu, hf, -, -⟩ := collectFiles_ok d.CloudFront g.OutputDetails ([], []) files urls hc
  simp only [List.nil_append] at hf
  rw [hf, hrej]
  simp

/-- C17, as stated, fails for a FILE_GROUP that is followed by another accepted
FILE_GROUP: for a report with two FILE_GROUPs, with the paths first.mp4 and
second.mp4, the first collected path of the first group ends in the piece mp4,
yet the handler returns a result whose mp4Outputs and mp4Urls are those of the
second group. -/
theorem earlier_file_group_overwritten :
    hasMp4Extension "s3://vod-destination/12345/mp4/first.mp4" = true ∧
    ∃ res, HandleRequest
        (sampleHandler (detailOf "vod10" [
          some (fileGroup ["s3://vod-destination/12345/mp4/first.mp4"]),
          some (fileGroup ["s3://vod-destination/12345/mp4/second.mp4"])]) false [])
        { Detail := "" } = .ok res ∧
      res.Mp4Outputs = [some "s3://vod-destination/12345/mp4/second.mp4"] ∧
      res.Mp4Urls = [some "https://cloudfront/12345/mp4/second.mp4"] ∧
      res.Mp4Outputs ≠ [some "s3://vod-destination/12345/mp4/first.mp4"] :=
  ⟨by decide, _, rfl, rfl, rfl, by decide⟩

/-- C17, amended. Progressive-file acceptance: for every FILE_GROUP whose first
collected path has last dot-separated piece mp4, the record right after the
group is processed, and the returned record when no later FILE_GROUP of the
report is accepted, has as mp4Outputs the first output file path of every
rendition that has output file paths, in report order, and mp4Urls of the same
length, the URL at index i being https://cloudFront/ followed by the last three
path pieces of mp4Outputs at index i. -/
theorem progressive_file_acceptance (h : Handler) (event : EventBridgeEvent) (res : DynamoData)
    (detail : EventDetail) (pre post : List (Option OutputGroupDetail)) (g : OutputGroupDetail)
    (p : String) (tail : List (Option String))
    (hok : HandleRequest h event = .ok res)
    (hdet : h.Unmarshal event.Detail = .ok detail)
    (hgroups : detail.OutputGroupDetails = pre ++ some g :: post)
    (hty : g.«Type» = "FILE_GROUP")
    (hfirst : g.OutputDetails.filterMap
      (fun od => od.bind (fun o => o.OutputFilePaths.bind List.head?)) = some p :: tail)
    (hext : (goSplit p '.').getLast? = some "mp4") :
    ∃ dpre dg, processGroup dpre (some g) = .ok dg ∧
      ∀ d, (d = dg ∨
          ((∀ x ∈ post, ∀ y, x = some y → y.«Type» = "FILE_GROUP" →
              acceptFiles (y.OutputDetails.filterMap
                (fun od => od.bind (fun o => o.OutputFilePaths.bind List.head?))) = false) ∧
            d = res)) →
        d.Mp4Outputs = g.OutputDetails.filterMap
          (fun od => od.bind (fun o => o.OutputFilePaths.bind List.head?)) ∧
        d.Mp4Urls.length = d.Mp4Outputs.length ∧
        ∀ (i : Nat) (q : Option String), d.Mp4Outputs[i]? = some q →
          ∃ path pieces a b c, q = some path ∧ goSplit path '/' = pieces ++ [a, b, c] ∧
            d.Mp4Urls[i]? =
              some (some ("https://" ++ res.CloudFront ++ "/" ++ (a ++ "/" ++ b ++ "/" ++ c))) := by
  obtain ⟨data, d0, dpre, dg, d1, tn, tu, hmap, hstep, hpost, rfl, cpre, cdg, c1⟩ :=
    HandleRequest_split h event res detail pre post g hok hdet hgroups
  have hcf : dpre.CloudFront = d1.CloudFront := cpre.trans c1.symm
  obtain ⟨files, urls, hc, hdg⟩ := processGroup_file dpre dg g hty hstep
  obtain ⟨nu, hf, hu, hrel⟩ := collectFiles_ok dpre.CloudFront g.OutputDetails ([], []) files urls hc
  simp only [List.nil_append] at hf hu
  subst hu
  have hacc : acceptFiles files = true := by
    rw [hf, hfirst]
    simp [acceptFiles, hasMp4Extension, hext]
  rw [if_pos hacc] at hdg
  have hfields : dg.Mp4Outputs = g.OutputDetails.filterMap
        (fun od => od.bind (fun o => o.OutputFilePaths.bind List.head?)) ∧
      dg.Mp4Urls.length = dg.Mp4Outputs.length ∧
      ∀ (i : Nat) (q : Option String), dg.Mp4Outputs[i]? = some q →
        ∃ path pieces a b c, q = some path ∧ goSplit path '/' = pieces ++ [a, b, c] ∧
          dg.Mp4Urls[i]? =
            some (some ("https://" ++ d1.CloudFront ++ "/" ++ (a ++ "/" ++ b ++ "/" ++ c))) := by
    rw [hdg]
    refine ⟨hf, ?_, ?_⟩
    · show urls.length = files.length
      rw [hf]
      exact hrel.length_eq.symm
    · intro i q hq
      have hq1 : (g.OutputDetails.filterMap
          (fun od => od.bind (fun o => o.OutputFilePaths.bind List.head?)))[i]? = some q := by
        rw [← hf]; exact hq
      obtain ⟨y, hy, path, w, rfl, rfl, hw⟩ := forall₂_getElem? _ _ _ hrel i q hq1
      obtain ⟨pieces, a, b, c, hsplit, rfl⟩ := publicUrl_ok dpre.CloudFront path w hw
      refine ⟨path, pieces, a, b, c, rfl, hsplit, ?_⟩
      rw [← hcf]
      exact hy
  refine ⟨dpre, dg, hstep, ?_⟩
  intro d hd
  rcases hd with rfl | ⟨hlater, rfl⟩
  · exact hfields
  · have hkeep := resolveGroups_preserve (fun x => (x.Mp4Outputs, x.Mp4Urls))
      (fun y => y.«Type» = "FILE_GROUP" →
        acceptFiles (y.OutputDetails.filterMap
          (fun od => od.bind (fun o => o.OutputFilePaths.bind List.head?))) = false)
      (fun x y z hy hz => by
        by_cases hfile : y.«Type» = "FILE_GROUP"
        · rw [processGroup_file_reject x z y hfile hz (hy hfile)]
        · obtain ⟨e1, e2⟩ := (processGroup_frame x z y hz).2.2.2.1 hfile
          simp [e1, e2])
      post dg d1 hlater hpost
    simp only [Prod.mk.injEq] at hkeep
    show d1.Mp4Outputs = _ ∧ d1.Mp4Urls.length = d1.Mp4Outputs.length ∧ _
    rw [hkeep.1, hkeep.2]
    exact hfields

/-- The report `Mp4` of the tests: the handler returns with the one mp4 file
and one URL. -/
theorem progressive_file_acceptance_witness :
    ∃ res, HandleRequest (sampleHandler Mp4 false []) { Detail := "" } = .ok res ∧
      res.Mp4Outputs = [some "s3://vod-destination/12345/mp4/dude_3.0Mbps.mp4"] ∧
      res.Mp4Urls.length = res.Mp4Outputs.length := by
  refine ⟨_, rfl, ?_⟩
  obtain ⟨dpre, dg, -, hall⟩ := progressive_file_acceptance
    (sampleHandler Mp4 false []) { Detail := "" } _ Mp4 [] []
    { OutputDetails := [some {
        OutputFilePaths := some [some "s3://vod-destination/12345/mp4/dude_3.0Mbps.mp4"],
        DurationInMs := 13471 }]
      PlaylistFilePaths := []
      «Type» := "FILE_GROUP" }
    "s3://vod-destination/12345/mp4/dude_3.0Mbps.mp4" [] rfl rfl rfl rfl rfl (by decide)
  have hx := hall _ (Or.inr ⟨by simp, rfl⟩)
  exact ⟨hx.1, hx.2.1⟩

/-- C18, as stated, fails: a FILE_GROUP whose only path is thumb.jpg has a first
collected path with extension jpg, yet processing it aborts, because the URL of
every path is built (from its last three slash-separated pieces) before the
extension is looked at; the handler returns no record. -/
theorem short_path_file_group_aborts :
    hasMp4Extension "thumb.jpg" = false ∧
    (fileGroup ["thumb.jpg"]).OutputDetails.filterMap
      (fun od => od.bind (fun o => o.OutputFilePaths.bind List.head?)) = [some "thumb.jpg"] ∧
    (∀ d, processGroup d (some (fileGroup ["thumb.jpg"])) =
      .panic "runtime error: index out of range") ∧
    HandleRequest (sampleHandler (detailOf "vod10" [some (fileGroup ["thumb.jpg"])]) false [])
      { Detail := "" } = .panic "runtime error: index out of range" := by
  refine ⟨by decide, rfl, ?_, rfl⟩
  intro d
  have hb : buildUrl "thumb.jpg" = .panic "runtime error: index out of range" := by decide
  simp [processGroup, fileGroup, collectFiles, collectStep, publicUrl, hb]

/-- C18, amended. For every FILE_GROUP whose renditions are non-nil and have
either no output file paths or a first path of at least three slash-separated
pieces, and whose first collected path does not end in the piece mp4 (as .jpg
or .MP4) or which has no collected path: processing the group returns without
error and leaves the whole record, mp4Outputs and mp4Urls included, as it was;
so with an mp4 FILE_GROUP of such paths, either order of the two groups yields
the same record, whose mp4Outputs are the first paths of the mp4 group. -/
theorem progressive_file_rejection (d : DynamoData) (g : OutputGroupDetail)
    (hty : g.«Type» = "FILE_GROUP")
    (hwf : ∀ od ∈ g.OutputDetails, ∃ o, od = some o ∧ (o.OutputFilePaths = none ∨
      ∃ p rest, o.OutputFilePaths = some (some p :: rest) ∧ 3 ≤ (goSplit p '/').length))
    (hrej : g.OutputDetails.filterMap
        (fun od => od.bind (fun o => o.OutputFilePaths.bind List.head?)) = [] ∨
      ∃ p tail, g.OutputDetails.filterMap
        (fun od => od.bind (fun o => o.OutputFilePaths.bind List.head?)) = some p :: tail ∧
        (goSplit p '.').getLast? ≠ some "mp4") :
    processGroup d (some g) = .ok d ∧
    (∀ gm : OutputGroupDetail, gm.«Type» = "FILE_GROUP" →
      (∀ od ∈ gm.OutputDetails, ∃ o, od = some o ∧ (o.OutputFilePaths = none ∨
        ∃ p rest, o.OutputFilePaths = some (some p :: rest) ∧ 3 ≤ (goSplit p '/').length)) →
      (∃ p tail, gm.OutputDetails.filterMap
        (fun od => od.bind (fun o => o.OutputFilePaths.bind List.head?)) = some p :: tail ∧
        (goSplit p '.').getLast? = some "mp4") →
      ∃ r, resolveGroups d [some gm, some g] = .ok r ∧
        resolveGroups d [some g, some gm] = .ok r ∧
        r.Mp4Outputs = gm.OutputDetails.filterMap
          (fun od => od.bind (fun o => o.OutputFilePaths.bind List.head?)) ∧
        r.Mp4Urls.length = r.Mp4Outputs.length) ∧
    hasMp4Extension "s3://vod-destination/12345/thumbnails/dude.0000001.jpg" = false ∧
    hasMp4Extension "s3://vod-destination/12345/mp4/dude.MP4" = false := by
  have hacc : acceptFiles (g.OutputDetails.filterMap
      (fun od => od.bind (fun o => o.OutputFilePaths.bind List.head?))) = false := by
    rcases hrej with hnil | ⟨p, tail, hp, hext⟩
    · rw [hnil]; rfl
    · rw [hp]
      simp [acceptFiles, hasMp4Extension, hext]
  have hkeep : ∀ x : DynamoData, processGroup x (some g) = .ok x := by
    intro x
    obtain ⟨files, urls, hc⟩ := collectFiles_total x.CloudFront g.OutputDetails ([], []) hwf
    obtain ⟨nu, hf, -, -⟩ := collectFiles_ok x.CloudFront g.OutputDetails ([], []) files urls hc
    simp only [List.nil_append] at hf
    rw [processGroup_file_eval x g files urls hty hc, hf, hacc]
    simp
  refine ⟨hkeep d, ?_, by decide, by decide⟩
  intro gm hgm hwfm ⟨p, tail, hp, hext⟩
  obtain ⟨files, urls, hc⟩ := collectFiles_total d.CloudFront gm.OutputDetails ([], []) hwfm
  obtain ⟨nu, hf, hu, hrel⟩ := collectFiles_ok d.CloudFront gm.OutputDetails ([], []) files urls hc
  simp only [List.nil_append] at hf hu
  have haccm : acceptFiles files = true := by
    rw [hf, hp]
    simp [acceptFiles, hasMp4Extension, hext]
  have hm := processGroup_file_eval d gm files urls hgm hc
  rw [if_pos haccm] at hm
  refine ⟨{ d with Mp4Outputs := files, Mp4Urls := urls }, ?_, ?_, hf, ?_⟩
  · simp only [resolveGroups, hm, hkeep]
  · simp only [resolveGroups, hm, hkeep]
  · show urls.length = files.length
    rw [hu, hf]
    exact hrel.length_eq.symm

/-- A thumbnail FILE_GROUP with a .jpg path of six pieces, after the record of
the tests: processing returns the record unchanged. -/
theorem progressive_file_rejection_witness :
    processGroup (sampleData false)
        (some (fileGroup ["s3://vod-destination/12345/thumbnails/dude.0000001.jpg"])) =
      .ok (sampleData false) :=
  (progressive_file_rejection (sampleData false)
    (fileGroup ["s3://vod-destination/12345/thumbnails/dude.0000001.jpg"]) rfl
    (by
      intro od hod
      simp only [fileGroup, List.map_cons, List.map_nil, List.mem_singleton] at hod
      subst hod
      exact ⟨_, rfl, Or.inr ⟨_, _, rfl, by decide⟩⟩)
    (Or.inr ⟨"s3://vod-destination/12345/thumbnails/dude.0000001.jpg", [], rfl,
      by decide⟩)).1

/-- The resolver applied to an object written under a job's output path: for a
directory part `dir` of the form `/d/`, with no slash in the identifier, in
`d` and in the file name, the URL path is the object's key. -/
theorem buildUrl_destination (destBucket guid d f cloudFront dir : String)
    (hdir : dir = "/" ++ d ++ "/")
    (hguid : '/' ∉ guid.data) (hd : '/' ∉ d.data) (hf : '/' ∉ f.data) :
    buildUrl ("s3://" ++ destBucket ++ "/" ++ guid ++ dir ++ f) = .ok (guid ++ dir ++ f) ∧
    publicUrl cloudFront ("s3://" ++ destBucket ++ "/" ++ guid ++ dir ++ f)
      = .ok ("https://" ++ cloudFront ++ "/" ++ (guid ++ dir ++ f)) ∧
    "s3://" ++ destBucket ++ "/" ++ guid ++ dir ++ f
      = "s3://" ++ destBucket ++ "/" ++ (guid ++ dir ++ f) := by
  subst hdir
  have hpath : "s3://" ++ destBucket ++ "/" ++ guid ++ ("/" ++ d ++ "/") ++ f
      = "s3://" ++ destBucket ++ "/" ++ guid ++ "/" ++ d ++ "/" ++ f := by
    simp only [String.append_assoc]
  have hkey : guid ++ ("/" ++ d ++ "/") ++ f = guid ++ "/" ++ d ++ "/" ++ f := by
    simp only [String.append_assoc]
  have hsplit := goSplit_three ("s3://" ++ destBucket) guid d f hguid hd hf
  rw [hpath, hkey]
  refine ⟨buildUrl_of_split _ _ _ _ _ hsplit, publicUrl_of_split _ _ _ _ _ _ hsplit, ?_⟩
  simp only [String.append_assoc]

/-- C29. Builder/resolver path agreement: for every destination bucket, every
job identifier and file name without a slash, and each of the five catalogue
default groups (directories mp4, hls, dash, cmaf, mss), the default destination
of the group built for the job output path s3://destBucket/guid is that path
followed by the directory, and buildUrl applied to the destination followed by
the file name yields guid/directory/file name, which is the key of the object
in the bucket; the public URL is that key under the CDN host. -/
theorem builder_resolver_path_agreement (destBucket guid f cloudFront : String)
    (hguid : '/' ∉ guid.data) (hf : '/' ∉ f.data) :
    (∃ dest, (Encode.getMp4Group ("s3://" ++ destBucket ++ "/" ++ guid)).get
        ["OutputGroupSettings", "FileGroupSettings", "Destination"] = .str dest ∧
      buildUrl (dest ++ f) = .ok (guid ++ "/mp4/" ++ f) ∧
      publicUrl cloudFront (dest ++ f)
        = .ok ("https://" ++ cloudFront ++ "/" ++ (guid ++ "/mp4/" ++ f)) ∧
      dest ++ f = "s3://" ++ destBucket ++ "/" ++ (guid ++ "/mp4/" ++ f)) ∧
    (∃ dest, (Encode.getHlsGroup ("s3://" ++ destBucket ++ "/" ++ guid)).get
        ["OutputGroupSettings", "HlsGroupSettings", "Destination"] = .str dest ∧
      buildUrl (dest ++ f) = .ok (guid ++ "/hls/" ++ f) ∧
      publicUrl cloudFront (dest ++ f)
        = .ok ("https://" ++ cloudFront ++ "/" ++ (guid ++ "/hls/" ++ f)) ∧
      dest ++ f = "s3://" ++ destBucket ++ "/" ++ (guid ++ "/hls/" ++ f)) ∧
    (∃ dest, (Encode.getDashGroup ("s3://" ++ destBucket ++ "/" ++ guid)).get
        ["OutputGroupSettings", "DashIsoGroupSettings", "Destination"] = .str dest ∧
      buildUrl (dest ++ f) = .ok (guid ++ "/dash/" ++ f) ∧
      publicUrl cloudFront (dest ++ f)
        = .ok ("https://" ++ cloudFront ++ "/" ++ (guid ++ "/dash/" ++ f)) ∧
      dest ++ f = "s3://" ++ destBucket ++ "/" ++ (guid ++ "/dash/" ++ f)) ∧
    (∃ dest, (Encode.getCmafGroup ("s3://" ++ destBucket ++ "/" ++ guid)).get
        ["OutputGroupSettings", "CmafGroupSettings", "Destination"] = .str dest ∧
      buildUrl (dest ++ f) = .ok (guid ++ "/cmaf/" ++ f) ∧
      publicUrl cloudFront (dest ++ f)
        = .ok ("https://" ++ cloudFront ++ "/" ++ (guid ++ "/cmaf/" ++ f)) ∧
      dest ++ f = "s3://" ++ destBucket ++ "/" ++ (guid ++ "/cmaf/" ++ f)) ∧
    (∃ dest, (Encode.getMssGroup ("s3://" ++ destBucket ++ "/" ++ guid)).get
        ["OutputGroupSettings", "MsSmoothGroupSettings", "Destination"] = .str dest ∧
      buildUrl (dest ++ f) = .ok (guid ++ "/mss/" ++ f) ∧
      publicUrl cloudFront (dest ++ f)
        = .ok ("https://" ++ cloudFront ++ "/" ++ (guid ++ "/mss/" ++ f)) ∧
      dest ++ f = "s3://" ++ destBucket ++ "/" ++ (guid ++ "/mss/" ++ f)) :=
  ⟨⟨_, rfl, buildUrl_destination destBucket guid "mp4" f cloudFront "/mp4/" (by decide) hguid
      (by decide) hf⟩,
   ⟨_, rfl, buildUrl_destination destBucket guid "hls" f cloudFront "/hls/" (by decide) hguid
      (by decide) hf⟩,
   ⟨_, rfl, buildUrl_destination destBucket guid "dash" f cloudFront "/dash/" (by decide) hguid
      (by decide) hf⟩,
   ⟨_, rfl, buildUrl_destination destBucket guid "cmaf" f cloudFront "/cmaf/" (by decide) hguid
      (by decide) hf⟩,
   ⟨_, rfl, buildUrl_destination destBucket guid "mss" f cloudFront "/mss/" (by decide) hguid
      (by decide) hf⟩⟩

/-- The playlist dude.m3u8 written to the default HLS destination of job 12345
in bucket vod-destination resolves to 12345/hls/dude.m3u8. -/
theorem builder_resolver_path_agreement_witness :
    ∃ dest, (Encode.getHlsGroup ("s3://" ++ "vod-destination" ++ "/" ++ "12345")).get
        ["OutputGroupSettings", "HlsGroupSettings", "Destination"] = .str dest ∧
      buildUrl (dest ++ "dude.m3u8") = .ok ("12345" ++ "/hls/" ++ "dude.m3u8") ∧
      publicUrl "cloudfront" (dest ++ "dude.m3u8")
        = .ok ("https://" ++ "cloudfront" ++ "/" ++ ("12345" ++ "/hls/" ++ "dude.m3u8")) ∧
      dest ++ "dude.m3u8"
        = "s3://" ++ "vod-destination" ++ "/" ++ ("12345" ++ "/hls/" ++ "dude.m3u8") :=
  (builder_resolver_path_agreement "vod-destination" "12345" "dude.m3u8" "cloudfront"
    (by decide) (by decide)).2.1

/-- The `default` case of the `switch`: a group of none of the five types makes
the loop body return the error naming its type. -/
theorem processGroup_unknown (d : DynamoData) (g : OutputGroupDetail)
    (h1 : g.«Type» ≠ "HLS_GROUP") (h2 : g.«Type» ≠ "DASH_ISO_GROUP")
    (h3 : g.«Type» ≠ "FILE_GROUP") (h4 : g.«Type» ≠ "MS_SMOOTH_GROUP")
    (h5 : g.«Type» ≠ "CMAF_GROUP") :
    processGroup d (some g) =
      .error ("output-validate: main.Handler.HandleRequest: unknown output group type: "
        ++ g.«Type») := by
  unfold processGroup
  dsimp only
  rw [if_neg h1, if_neg h2, if_neg h3, if_neg h4, if_neg h5]

/-- The loop over a list in two parts. -/
theorem resolveGroups_append_eq (pre rest : List (Option OutputGroupDetail)) (d : DynamoData) :
    resolveGroups d (pre ++ rest) =
      match resolveGroups d pre with
      | .ok d1 => resolveGroups d1 rest
      | .error e => .error e
      | .panic e => .panic e := by
  induction pre generalizing d with
  | nil => rfl
  | cons x xs ih =>
    simp only [List.cons_append, resolveGroups]
    cases processGroup d x with
    | ok d1 => exact ih d1
    | error e => rfl
    | panic e => rfl

/-- The loop leaves the fields read by the thumbnail block as they were. -/
theorem resolveGroups_frame (gs : List (Option OutputGroupDetail)) (d d1 : DynamoData)
    (hok : resolveGroups d gs = .ok d1) :
    d1.CloudFront = d.CloudFront ∧ d1.FrameCapture = d.FrameCapture ∧ d1.GUID = d.GUID ∧
      d1.DestBucket = d.DestBucket := by
  have hx := resolveGroups_preserve
    (fun x => (x.CloudFront, x.FrameCapture, x.GUID, x.DestBucket)) (fun _ => True)
    (fun a g b _ hg => by
      obtain ⟨⟨h1, h2, h3, h4⟩, -⟩ := processGroup_frame a b g hg
      simp [h1, h2, h3, h4])
    gs d d1 (fun _ _ _ _ => trivial) hok
  simpa using hx

/-- Once the report and the stored record are decoded and the report has a
group, the handler is the loop over the groups followed by the thumbnail
block. -/
theorem HandleRequest_of_decoded (h : Handler) (event : EventBridgeEvent) (detail : EventDetail)
    (data : GetItemOutput) (d0 : DynamoData)
    (hdet : h.Unmarshal event.Detail = .ok detail)
    (hget : h.DynamoDBClient.GetItem
      { TableName := h.DynamoDBTable, PK := "VIDEO#" ++ detail.UserMetadata.GUID,
        SK := "METADATA" } = .ok data)
    (hne : data.Item ≠ []) (hmap : h.UnmarshalMap data.Item = .ok d0)
    (hgroups : detail.OutputGroupDetails ≠ []) :
    HandleRequest h event =
      match resolveGroups
          { d0 with EncodingOutput := detail, EndTime := h.Now, WorkflowStatus := "Complete" }
          detail.OutputGroupDetails with
      | .error e => .error e
      | .panic e => .panic e
      | .ok d1 => resolveThumbnails h d1 := by
  have hlen : ¬ data.Item.length = 0 := fun e => hne (List.length_eq_zero.mp e)
  have hlen2 : ¬ detail.OutputGroupDetails.length = 0 :=
    fun e => hgroups (List.length_eq_zero.mp e)
  unfold HandleRequest
  simp only [hdet, hget, hmap, hlen, hlen2, if_false]

/-- A handler that fails before the loop over the groups returns an error. -/
theorem HandleRequest_cases (h : Handler) (event : EventBridgeEvent) (detail : EventDetail)
    (hdet : h.Unmarshal event.Detail = .ok detail) :
    (∃ e, HandleRequest h event = .error e) ∨
    ∃ (data : GetItemOutput) (d0 : DynamoData),
      h.DynamoDBClient.GetItem
        { TableName := h.DynamoDBTable, PK := "VIDEO#" ++ detail.UserMetadata.GUID,
          SK := "METADATA" } = .ok data ∧
      data.Item ≠ [] ∧ h.UnmarshalMap data.Item = .ok d0 := by
  cases hget : h.DynamoDBClient.GetItem
      { TableName := h.DynamoDBTable, PK := "VIDEO#" ++ detail.UserMetadata.GUID,
        SK := "METADATA" } with
  | error e =>
    left
    unfold HandleRequest
    simp only [hdet, hget]
    exact ⟨_, rfl⟩
  | ok data =>
    by_cases hlen : data.Item.length = 0
    · left
      unfold HandleRequest
      simp only [hdet, hget, hlen, if_true]
      exact ⟨_, rfl⟩
    · cases hmap : h.UnmarshalMap data.Item with
      | error e =>
        left
        unfold HandleRequest
        simp only [hdet, hget, hlen, if_false, hmap]
        exact ⟨_, rfl⟩
      | ok d0 =>
        right
        exact ⟨data, d0, rfl, fun e => hlen (by rw [e]; rfl), hmap⟩

/-- C21, as stated, fails when a recognised group before the unknown one makes
the handler abort: for the report with a CMAF_GROUP of one playlist path
followed by a group of type WEBM_GROUP the handler aborts at the second
playlist index and returns no error, while with the two groups in the other
order it returns the error naming WEBM_GROUP. -/
theorem abort_before_unknown_type :
    HandleRequest
        (sampleHandler (detailOf "CMAF" [
          some (playlistGroup "CMAF_GROUP" ["s3://vod-destination/12345/cmaf/big_bunny.mpd"]),
          some (playlistGroup "WEBM_GROUP" ["s3://vod-destination/12345/webm/dude.webm"])])
          false [])
        { Detail := "" } = .panic "runtime error: index out of range" ∧
    (∀ e, HandleRequest
        (sampleHandler (detailOf "CMAF" [
          some (playlistGroup "CMAF_GROUP" ["s3://vod-destination/12345/cmaf/big_bunny.mpd"]),
          some (playlistGroup "WEBM_GROUP" ["s3://vod-destination/12345/webm/dude.webm"])])
          false [])
        { Detail := "" } ≠ .error e) ∧
    HandleRequest
        (sampleHandler (detailOf "CMAF" [
          some (playlistGroup "WEBM_GROUP" ["s3://vod-destination/12345/webm/dude.webm"]),
          some (playlistGroup "CMAF_GROUP" ["s3://vod-destination/12345/cmaf/big_bunny.mpd"])])
          false [])
        { Detail := "" } =
      .error "output-validate: main.Handler.HandleRequest: unknown output group type: WEBM_GROUP" := by
  have hpanic : HandleRequest
      (sampleHandler (detailOf "CMAF" [
        some (playlistGroup "CMAF_GROUP" ["s3://vod-destination/12345/cmaf/big_bunny.mpd"]),
        some (playlistGroup "WEBM_GROUP" ["s3://vod-destination/12345/webm/dude.webm"])])
        false [])
      { Detail := "" } = .panic "runtime error: index out of range" := rfl
  refine ⟨hpanic, ?_, rfl⟩
  intro e he
  rw [hpanic] at he
  simp at he

/-- C21, amended. Unknown type is fatal: for every decoded completion report
that holds, at any position, a group whose type is none of HLS_GROUP,
DASH_ISO_GROUP, FILE_GROUP, MS_SMOOTH_GROUP, CMAF_GROUP, whatever groups stand
before and after it, the handler returns no result; processing that group
returns the error naming the unknown type; the handler returns an error, unless
a group standing before the unknown one makes the handler abort, and then it
aborts; and once the stored record is read and the groups before it are
processed, the error returned is the one naming the unknown type. -/
theorem unknown_type_fatal (h : Handler) (event : EventBridgeEvent) (detail : EventDetail)
    (pre post : List (Option OutputGroupDetail)) (g : OutputGroupDetail)
    (hdet : h.Unmarshal event.Detail = .ok detail)
    (hgroups : detail.OutputGroupDetails = pre ++ some g :: post)
    (h1 : g.«Type» ≠ "HLS_GROUP") (h2 : g.«Type» ≠ "DASH_ISO_GROUP")
    (h3 : g.«Type» ≠ "FILE_GROUP") (h4 : g.«Type» ≠ "MS_SMOOTH_GROUP")
    (h5 : g.«Type» ≠ "CMAF_GROUP") :
    (∀ res, HandleRequest h event ≠ .ok res) ∧
    (∀ d, processGroup d (some g) =
      .error ("output-validate: main.Handler.HandleRequest: unknown output group type: "
        ++ g.«Type»)) ∧
    ((∃ e, HandleRequest h event = .error e) ∨
      ∃ d msg, resolveGroups d pre = .panic msg ∧ HandleRequest h event = .panic msg) ∧
    (∀ (data : GetItemOutput) (d0 dpre : DynamoData),
      h.DynamoDBClient.GetItem
        { TableName := h.DynamoDBTable, PK := "VIDEO#" ++ detail.UserMetadata.GUID,
          SK := "METADATA" } = .ok data →
      data.Item ≠ [] → h.UnmarshalMap data.Item = .ok d0 →
      resolveGroups
        { d0 with EncodingOutput := detail, EndTime := h.Now, WorkflowStatus := "Complete" }
        pre = .ok dpre →
      HandleRequest h event =
        .error ("output-validate: main.Handler.HandleRequest: unknown output group type: "
          ++ g.«Type»)) := by
  have hunk := fun d => processGroup_unknown d g h1 h2 h3 h4 h5
  have hnonempty : detail.OutputGroupDetails ≠ [] := by
    rw [hgroups]
    simp
  have hcases : (∃ e, HandleRequest h event = .error e) ∨
      ∃ d msg, resolveGroups d pre = .panic msg ∧ HandleRequest h event = .panic msg := by
    rcases HandleRequest_cases h event detail hdet with herr | ⟨data, d0, hget, hne, hmap⟩
    · exact Or.inl herr
    · rw [HandleRequest_of_decoded h event detail data d0 hdet hget hne hmap hnonempty, hgroups,
        resolveGroups_append_eq]
      cases hpre : resolveGroups
          { d0 with EncodingOutput := detail, EndTime := h.Now, WorkflowStatus := "Complete" }
          pre with
      | ok dpre =>
        left
        simp only [resolveGroups, hunk]
        exact ⟨_, rfl⟩
      | error e => exact Or.inl ⟨_, rfl⟩
      | panic msg => exact Or.inr ⟨_, msg, hpre, rfl⟩
  refine ⟨?_, hunk, hcases, ?_⟩
  · intro res hok
    rcases hcases with ⟨e, he⟩ | ⟨d, msg, -, he⟩
    · rw [he] at hok
      simp at hok
    · rw [he] at hok
      simp at hok
  · intro data d0 dpre hget hne hmap hpre
    rw [HandleRequest_of_decoded h event detail data d0 hdet hget hne hmap hnonempty, hgroups,
      resolveGroups_append_eq, hpre]
    simp only [resolveGroups, hunk]

/-- A report with a group of type WEBM_GROUP between an HLS group and a file
group: the handler returns the error naming WEBM_GROUP. -/
theorem unknown_type_fatal_witness :
    HandleRequest
      (sampleHandler (detailOf "vod10" [
        some (playlistGroup "HLS_GROUP" ["s3://vod-destination/12345/hls/dude.m3u8"]),
        some (playlistGroup "WEBM_GROUP" ["s3://vod-destination/12345/webm/dude.webm"]),
        some (fileGroup ["s3://vod-destination/12345/mp4/dude.mp4"])]) false [])
      { Detail := "" } =
    .error "output-validate: main.Handler.HandleRequest: unknown output group type: WEBM_GROUP" :=
  (unknown_type_fatal
    (sampleHandler (detailOf "vod10" [
      some (playlistGroup "HLS_GROUP" ["s3://vod-destination/12345/hls/dude.m3u8"]),
      some (playlistGroup "WEBM_GROUP" ["s3://vod-destination/12345/webm/dude.webm"]),
      some (fileGroup ["s3://vod-destination/12345/mp4/dude.mp4"])]) false [])
    { Detail := "" } _
    [some (playlistGroup "HLS_GROUP" ["s3://vod-destination/12345/hls/dude.m3u8"])]
    [some (fileGroup ["s3://vod-destination/12345/mp4/dude.mp4"])]
    (playlistGroup "WEBM_GROUP" ["s3://vod-destination/12345/webm/dude.webm"])
    rfl rfl (by decide) (by decide) (by decide) (by decide) (by decide)).2.2.2
    { Item := sampleItem false } (sampleData false) _ rfl (by simp [sampleItem]) rfl rfl

/-- The thumbnail block when frame capture is enabled and the listing is
returned: an error for an empty listing, otherwise the pair built from the key
of the last entry (Go aborts on a nil entry or a nil key). -/
theorem resolveThumbnails_listing (h : Handler) (d : DynamoData) (listing : ListObjectsOutput)
    (hfc : d.FrameCapture = true)
    (hlist : h.S3Client.ListObjects { Bucket := d.DestBucket, Prefix := d.GUID ++ "/thumbnails" }
      = .ok listing) :
    (listing.Contents = [] →
      resolveThumbnails h d =
        .error "output-validate: main.Handler.HandleRequest: no thumbnails found in S3") ∧
    (∀ last key, listing.Contents.getLast? = some (some last) → last.Key = some key →
      resolveThumbnails h d = .ok { d with
        ThumbNails := [some ("s3://" ++ d.DestBucket ++ "/" ++ key)],
        ThumbNailsUrls := [some ("https://" ++ d.CloudFront ++ "/" ++ key)] }) := by
  constructor
  · intro hempty
    unfold resolveThumbnails
    simp only [hfc, if_true, hlist, hempty, List.getLast?_nil]
  · intro last key hlast hkey
    unfold resolveThumbnails
    simp only [hfc, if_true, hlist, hlast, hkey]

/-- A record returned by the thumbnail block with frame capture enabled: the
listing was returned, is not empty, and the record carries the one pair built
from the key of its last entry. -/
theorem resolveThumbnails_returns (h : Handler) (d res : DynamoData)
    (hfc : d.FrameCapture = true) (hok : resolveThumbnails h d = .ok res) :
    ∃ listing last key,
      h.S3Client.ListObjects { Bucket := d.DestBucket, Prefix := d.GUID ++ "/thumbnails" }
        = .ok listing ∧
      listing.Contents ≠ [] ∧
      listing.Contents.getLast? = some (some last) ∧ last.Key = some key ∧
      res = { d with
        ThumbNails := [some ("s3://" ++ d.DestBucket ++ "/" ++ key)],
        ThumbNailsUrls := [some ("https://" ++ d.CloudFront ++ "/" ++ key)] } := by
  unfold resolveThumbnails at hok
  rw [if_pos hfc] at hok
  cases hlist : h.S3Client.ListObjects
      { Bucket := d.DestBucket, Prefix := d.GUID ++ "/thumbnails" } with
  | error e => simp [hlist] at hok
  | ok listing =>
    simp only [hlist] at hok
    cases hlast : listing.Contents.getLast? with
    | none => simp [hlast] at hok
    | some o =>
      cases o with
      | none => simp [hlast] at hok
      | some last =>
        simp only [hlast] at hok
        cases hkey : last.Key with
        | none => simp [hkey] at hok
        | some key =>
          simp only [hkey, Outcome.ok.injEq] at hok
          refine ⟨listing, last, key, rfl, ?_, hlast, hkey, hok.symm⟩
          intro hnil
          rw [hnil] at hlast
          simp at hlast

/-- C22, as stated, fails when a group of the report makes the handler abort
before the listing is requested: with frame capture enabled in the stored
record, an empty thumbnail listing and a report whose CMAF_GROUP has one
playlist path, the handler aborts at the second playlist index and returns no
error. -/
theorem abort_before_thumbnail_listing :
    (sampleData true).FrameCapture = true ∧
    (sampleHandler (detailOf "CMAF" [
        some (playlistGroup "CMAF_GROUP" ["s3://vod-destination/12345/cmaf/big_bunny.mpd"])])
        true []).S3Client.ListObjects
      { Bucket := (sampleData true).DestBucket, Prefix := (sampleData true).GUID ++ "/thumbnails" }
      = .ok { Contents := [] } ∧
    HandleRequest
        (sampleHandler (detailOf "CMAF" [
          some (playlistGroup "CMAF_GROUP" ["s3://vod-destination/12345/cmaf/big_bunny.mpd"])])
          true [])
        { Detail := "" } = .panic "runtime error: index out of range" ∧
    (∀ e, HandleRequest
        (sampleHandler (detailOf "CMAF" [
          some (playlistGroup "CMAF_GROUP" ["s3://vod-destination/12345/cmaf/big_bunny.mpd"])])
          true [])
        { Detail := "" } ≠ .error e) := by
  have hpanic : HandleRequest
      (sampleHandler (detailOf "CMAF" [
        some (playlistGroup "CMAF_GROUP" ["s3://vod-destination/12345/cmaf/big_bunny.mpd"])])
        true [])
      { Detail := "" } = .panic "runtime error: index out of range" := rfl
  refine ⟨rfl, rfl, hpanic, ?_⟩
  intro e he
  rw [hpanic] at he
  simp at he

/-- C22, amended. Frame capture requires a hit: when the stored record read
for the report has frame capture enabled, an empty thumbnail listing makes the
handler return no result, and the error for missing thumbnails once the groups
of the report, at least one, are resolved; and every result the handler returns
for such a record carries exactly one thumbnail and one thumbnail URL, never an
empty or absent one. -/
theorem frame_capture_requires_hit (h : Handler) (event : EventBridgeEvent)
    (detail : EventDetail) (data : GetItemOutput) (d0 : DynamoData)
    (hdet : h.Unmarshal event.Detail = .ok detail)
    (hget : h.DynamoDBClient.GetItem
      { TableName := h.DynamoDBTable, PK := "VIDEO#" ++ detail.UserMetadata.GUID,
        SK := "METADATA" } = .ok data)
    (hne : data.Item ≠ []) (hmap : h.UnmarshalMap data.Item = .ok d0)
    (hfc : d0.FrameCapture = true) :
    (∀ listing,
      h.S3Client.ListObjects { Bucket := d0.DestBucket, Prefix := d0.GUID ++ "/thumbnails" }
        = .ok listing →
      listing.Contents = [] →
      (∀ res, HandleRequest h event ≠ .ok res) ∧
      (∀ d1, resolveGroups
          { d0 with EncodingOutput := detail, EndTime := h.Now, WorkflowStatus := "Complete" }
          detail.OutputGroupDetails = .ok d1 → detail.OutputGroupDetails ≠ [] →
        HandleRequest h event =
          .error "output-validate: main.Handler.HandleRequest: no thumbnails found in S3")) ∧
    (∀ res, HandleRequest h event = .ok res →
      ∃ tn tu, res.ThumbNails = [some tn] ∧ res.ThumbNailsUrls = [some tu]) := by
  have hret : ∀ res, HandleRequest h event = .ok res →
      ∃ (d1 : DynamoData) (listing : ListObjectsOutput) (key : String),
        h.S3Client.ListObjects { Bucket := d0.DestBucket, Prefix := d0.GUID ++ "/thumbnails" }
          = .ok listing ∧
        listing.Contents ≠ [] ∧
        res = { d1 with
          ThumbNails := [some ("s3://" ++ d1.DestBucket ++ "/" ++ key)],
          ThumbNailsUrls := [some ("https://" ++ d1.CloudFront ++ "/" ++ key)] } := by
    intro res hok
    obtain ⟨detail1, data1, d01, d1, hdet1, hget1, hmap1, -, hres, hthumb⟩ :=
      HandleRequest_returns h event res hok
    rw [hdet] at hdet1
    simp only [Except.ok.injEq] at hdet1
    subst hdet1
    rw [hget] at hget1
    simp only [Except.ok.injEq] at hget1
    subst hget1
    rw [hmap] at hmap1
    simp only [Except.ok.injEq] at hmap1
    subst hmap1
    obtain ⟨-, hf, hg, hb⟩ := resolveGroups_frame _ _ _ hres
    have hfc1 : d1.FrameCapture = true := by rw [hf]; exact hfc
    obtain ⟨listing, last, key, hlist, hnonempty, -, -, hresult⟩ :=
      resolveThumbnails_returns h d1 res hfc1 hthumb
    rw [hg, hb] at hlist
    exact ⟨d1, listing, key, hlist, hnonempty, hresult⟩
  constructor
  · intro listing hlist hempty
    constructor
    · intro res hok
      obtain ⟨d1, listing1, key, hlist1, hnonempty, -⟩ := hret res hok
      rw [hlist] at hlist1
      simp only [Except.ok.injEq] at hlist1
      subst hlist1
      exact hnonempty hempty
    · intro d1 hres hgroups
      rw [HandleRequest_of_decoded h event detail data d0 hdet hget hne hmap hgroups, hres]
      obtain ⟨-, hf, hg, hb⟩ := resolveGroups_frame _ _ _ hres
      have hfc1 : d1.FrameCapture = true := by rw [hf]; exact hfc
      have hlist1 : h.S3Client.ListObjects
          { Bucket := d1.DestBucket, Prefix := d1.GUID ++ "/thumbnails" } = .ok listing := by
        rw [hg, hb]
        exact hlist
      exact (resolveThumbnails_listing h d1 listing hfc1 hlist1).1 hempty
  · intro res hok
    obtain ⟨d1, listing, key, -, -, hresult⟩ := hret res hok
    exact ⟨_, _, by rw [hresult], by rw [hresult]⟩

/-- The report Mp4 against the stored record of the tests with frame capture
enabled and no thumbnail in the bucket: the handler returns the error for
missing thumbnails. -/
theorem frame_capture_requires_hit_witness :
    HandleRequest (sampleHandler Mp4 true []) { Detail := "" } =
      .error "output-validate: main.Handler.HandleRequest: no thumbnails found in S3" :=
  ((frame_capture_requires_hit (sampleHandler Mp4 true []) { Detail := "" } Mp4
    { Item := sampleItem true } (sampleData true) rfl rfl (by simp [sampleItem]) rfl rfl).1
    { Contents := [] } rfl rfl).2 _ rfl (by simp [Mp4, detailOf])

/-- In a list ordered pairwise by a relation, every entry other than the last
stands in that relation to the last. -/
theorem getLast?_of_pairwise {α : Type} (R : α → α → Prop) (l : List α) (last : α)
    (hlast : l.getLast? = some last) (hp : l.Pairwise R) :
    ∀ x ∈ l, x = last ∨ R x last := by
  obtain ⟨ys, rfl⟩ := List.getLast?_eq_some_iff.mp hlast
  rw [List.pairwise_append] at hp
  intro x hx
  rcases List.mem_append.mp hx with hmem | hmem
  · exact Or.inr (hp.2.2 x hmem last (by simp))
  · exact Or.inl (by simpa using hmem)

/-- A record returned for a stored record with frame capture enabled: the
record after the loop with the one thumbnail pair built from the key of the
last entry of the listing, which was queried with the bucket and the
identifier of the stored record. -/
theorem HandleRequest_thumbnails (h : Handler) (event : EventBridgeEvent)
    (detail : EventDetail) (data : GetItemOutput) (d0 res : DynamoData)
    (hdet : h.Unmarshal event.Detail = .ok detail)
    (hget : h.DynamoDBClient.GetItem
      { TableName := h.DynamoDBTable, PK := "VIDEO#" ++ detail.UserMetadata.GUID,
        SK := "METADATA" } = .ok data)
    (hmap : h.UnmarshalMap data.Item = .ok d0)
    (hfc : d0.FrameCapture = true) (hok : HandleRequest h event = .ok res) :
    ∃ (d1 : DynamoData) (listing : ListObjectsOutput) (last : Object) (key : String),
      resolveGroups
        { d0 with EncodingOutput := detail, EndTime := h.Now, WorkflowStatus := "Complete" }
        detail.OutputGroupDetails = .ok d1 ∧
      h.S3Client.ListObjects { Bucket := d0.DestBucket, Prefix := d0.GUID ++ "/thumbnails" }
        = .ok listing ∧
      listing.Contents ≠ [] ∧
      listing.Contents.getLast? = some (some last) ∧ last.Key = some key ∧
      res = { d1 with
        ThumbNails := [some ("s3://" ++ d0.DestBucket ++ "/" ++ key)],
        ThumbNailsUrls := [some ("https://" ++ d0.CloudFront ++ "/" ++ key)] } := by
  obtain ⟨detail1, data1, d01, d1, hdet1, hget1, hmap1, -, hres, hthumb⟩ :=
    HandleRequest_returns h event res hok
  rw [hdet] at hdet1
  simp only [Except.ok.injEq] at hdet1
  subst hdet1
  rw [hget] at hget1
  simp only [Except.ok.injEq] at hget1
  subst hget1
  rw [hmap] at hmap1
  simp only [Except.ok.injEq] at hmap1
  subst hmap1
  obtain ⟨hc, hf, hg, hb⟩ := resolveGroups_frame _ _ _ hres
  have hfc1 : d1.FrameCapture = true := by rw [hf]; exact hfc
  obtain ⟨listing, last, key, hlist, hnonempty, hlast, hkey, hresult⟩ :=
    resolveThumbnails_returns h d1 res hfc1 hthumb
  have hb1 : d1.DestBucket = d0.DestBucket := hb
  have hc1 : d1.CloudFront = d0.CloudFront := hc
  have hg1 : d1.GUID = d0.GUID := hg
  rw [hg1, hb1] at hlist
  refine ⟨d1, listing, last, key, hres, hlist, hnonempty, hlast, hkey, ?_⟩
  rw [hresult]
  simp only [hb1, hc1]

/-- C23. Thumbnail selection: when the stored record read for the report has
frame capture enabled, every result the handler returns comes with a non-empty
listing, queried with the bucket destBucket and the prefix guid/thumbnails of
the stored record, and its thumbNails and thumbNailsUrls hold exactly one
element each, s3://destBucket/k and https://cloudFront/k for the key k of the
last entry of the listing, to which every other entry stands in the order of
the listing; and the handler does return such a result once the groups of
the report are resolved and the last entry of the listing has a key. -/
theorem thumbnail_selection (h : Handler) (event : EventBridgeEvent)
    (detail : EventDetail) (data : GetItemOutput) (d0 : DynamoData)
    (hdet : h.Unmarshal event.Detail = .ok detail)
    (hget : h.DynamoDBClient.GetItem
      { TableName := h.DynamoDBTable, PK := "VIDEO#" ++ detail.UserMetadata.GUID,
        SK := "METADATA" } = .ok data)
    (hne : data.Item ≠ []) (hmap : h.UnmarshalMap data.Item = .ok d0)
    (hfc : d0.FrameCapture = true) :
    (∀ res, HandleRequest h event = .ok res →
      ∃ (listing : ListObjectsOutput) (last : Object) (key : String),
        h.S3Client.ListObjects { Bucket := d0.DestBucket, Prefix := d0.GUID ++ "/thumbnails" }
          = .ok listing ∧
        listing.Contents ≠ [] ∧
        listing.Contents.getLast? = some (some last) ∧ last.Key = some key ∧
        res.ThumbNails = [some ("s3://" ++ d0.DestBucket ++ "/" ++ key)] ∧
        res.ThumbNailsUrls = [some ("https://" ++ d0.CloudFront ++ "/" ++ key)] ∧
        (∀ R : Option Object → Option Object → Prop, listing.Contents.Pairwise R →
          ∀ x ∈ listing.Contents, x = some last ∨ R x (some last))) ∧
    (∀ (d1 : DynamoData) (listing : ListObjectsOutput) (last : Object) (key : String),
      detail.OutputGroupDetails ≠ [] →
      resolveGroups
        { d0 with EncodingOutput := detail, EndTime := h.Now, WorkflowStatus := "Complete" }
        detail.OutputGroupDetails = .ok d1 →
      h.S3Client.ListObjects { Bucket := d0.DestBucket, Prefix := d0.GUID ++ "/thumbnails" }
        = .ok listing →
      listing.Contents.getLast? = some (some last) → last.Key = some key →
      HandleRequest h event = .ok { d1 with
        ThumbNails := [some ("s3://" ++ d0.DestBucket ++ "/" ++ key)],
        ThumbNailsUrls := [some ("https://" ++ d0.CloudFront ++ "/" ++ key)] }) := by
  constructor
  · intro res hok
    obtain ⟨d1, listing, last, key, -, hlist, hnonempty, hlast, hkey, hresult⟩ :=
      HandleRequest_thumbnails h event detail data d0 res hdet hget hmap hfc hok
    refine ⟨listing, last, key, hlist, hnonempty, hlast, hkey, by rw [hresult], by rw [hresult],
      ?_⟩
    intro R hp
    exact getLast?_of_pairwise R listing.Contents (some last) hlast hp
  · intro d1 listing last key hgroups hres hlist hlast hkey
    rw [HandleRequest_of_decoded h event detail data d0 hdet hget hne hmap hgroups, hres]
    obtain ⟨hc, hf, hg, hb⟩ := resolveGroups_frame _ _ _ hres
    have hfc1 : d1.FrameCapture = true := by rw [hf]; exact hfc
    have hlist1 : h.S3Client.ListObjects
        { Bucket := d1.DestBucket, Prefix := d1.GUID ++ "/thumbnails" } = .ok listing := by
      rw [hg, hb]
      exact hlist
    have hb1 : d1.DestBucket = d0.DestBucket := hb
    have hc1 : d1.CloudFront = d0.CloudFront := hc
    simp only []
    rw [(resolveThumbnails_listing h d1 listing hfc1 hlist1).2 last key hlast hkey]
    simp only [hb1, hc1]

/-- The test with frame capture enabled, with one more frame in the bucket: the
report Mp4, the stored record of the tests and a listing that ends with
12345/thumbnails/dude3.000.jpg give that thumbnail and its URL. -/
theorem thumbnail_selection_witness :
    ∃ res, HandleRequest
        (sampleHandler Mp4 true [some { Key := some "12345/thumbnails/dude2.000.jpg" },
          some { Key := some "12345/thumbnails/dude3.000.jpg" }])
        { Detail := "" } = .ok res ∧
      res.ThumbNails = [some "s3://vod-destination/12345/thumbnails/dude3.000.jpg"] ∧
      res.ThumbNailsUrls = [some "https://cloudfront/12345/thumbnails/dude3.000.jpg"] :=
  ⟨_, (thumbnail_selection
      (sampleHandler Mp4 true [some { Key := some "12345/thumbnails/dude2.000.jpg" },
        some { Key := some "12345/thumbnails/dude3.000.jpg" }])
      { Detail := "" } Mp4 { Item := sampleItem true } (sampleData true) rfl rfl
      (by simp [sampleItem]) rfl rfl).2 _
      { Contents := [some { Key := some "12345/thumbnails/dude2.000.jpg" },
          some { Key := some "12345/thumbnails/dude3.000.jpg" }] }
      { Key := some "12345/thumbnails/dude3.000.jpg" } "12345/thumbnails/dude3.000.jpg"
      (by simp [Mp4, detailOf]) rfl rfl rfl rfl, rfl, rfl⟩

/-- The loop leaves the output fields of a type alone when no group of the list
has that type. -/
theorem resolveGroups_unreported (gs : List (Option OutputGroupDetail)) (d d1 : DynamoData)
    (hok : resolveGroups d gs = .ok d1) :
    ((∀ x ∈ gs, ∀ y, x = some y → y.«Type» ≠ "HLS_GROUP") →
      d1.HlsPlaylist = d.HlsPlaylist ∧ d1.HlsUrl = d.HlsUrl) ∧
    ((∀ x ∈ gs, ∀ y, x = some y → y.«Type» ≠ "DASH_ISO_GROUP") →
      d1.DashPlaylist = d.DashPlaylist ∧ d1.DashUrl = d.DashUrl) ∧
    ((∀ x ∈ gs, ∀ y, x = some y → y.«Type» ≠ "FILE_GROUP") →
      d1.Mp4Outputs = d.Mp4Outputs ∧ d1.Mp4Urls = d.Mp4Urls) ∧
    ((∀ x ∈ gs, ∀ y, x = some y → y.«Type» ≠ "MS_SMOOTH_GROUP") →
      d1.MssPlaylist = d.MssPlaylist ∧ d1.MssUrl = d.MssUrl) ∧
    ((∀ x ∈ gs, ∀ y, x = some y → y.«Type» ≠ "CMAF_GROUP") →
      d1.CmafDashPlaylist = d.CmafDashPlaylist ∧ d1.CmafDashUrl = d.CmafDashUrl ∧
      d1.CmafHlsPlaylist = d.CmafHlsPlaylist ∧ d1.CmafHlsUrl = d.CmafHlsUrl) := by
  refine ⟨?_, ?_, ?_, ?_, ?_⟩
  · intro hno
    have hx := resolveGroups_preserve (fun x => (x.HlsPlaylist, x.HlsUrl))
      (fun y => y.«Type» ≠ "HLS_GROUP")
      (fun a g b hq hg => by
        obtain ⟨h1, h2⟩ := (processGroup_frame a b g hg).2.1 hq
        simp [h1, h2])
      gs d d1 hno hok
    simpa using hx
  · intro hno
    have hx := resolveGroups_preserve (fun x => (x.DashPlaylist, x.DashUrl))
      (fun y => y.«Type» ≠ "DASH_ISO_GROUP")
      (fun a g b hq hg => by
        obtain ⟨h1, h2⟩ := (processGroup_frame a b g hg).2.2.1 hq
        simp [h1, h2])
      gs d d1 hno hok
    simpa using hx
  · intro hno
    have hx := resolveGroups_preserve (fun x => (x.Mp4Outputs, x.Mp4Urls))
      (fun y => y.«Type» ≠ "FILE_GROUP")
      (fun a g b hq hg => by
        obtain ⟨h1, h2⟩ := (processGroup_frame a b g hg).2.2.2.1 hq
        simp [h1, h2])
      gs d d1 hno hok
    simpa using hx
  · intro hno
    have hx := resolveGroups_preserve (fun x => (x.MssPlaylist, x.MssUrl))
      (fun y => y.«Type» ≠ "MS_SMOOTH_GROUP")
      (fun a g b hq hg => by
        obtain ⟨h1, h2⟩ := (processGroup_frame a b g hg).2.2.2.2.1 hq
        simp [h1, h2])
      gs d d1 hno hok
    simpa using hx
  · intro hno
    have hx := resolveGroups_preserve
      (fun x => (x.CmafDashPlaylist, x.CmafDashUrl, x.CmafHlsPlaylist, x.CmafHlsUrl))
      (fun y => y.«Type» ≠ "CMAF_GROUP")
      (fun a g b hq hg => by
        obtain ⟨h1, h2, h3, h4⟩ := (processGroup_frame a b g hg).2.2.2.2.2 hq
        simp [h1, h2, h3, h4])
      gs d d1 hno hok
    simpa using hx

/-- C24, as stated, fails: for the report Mp4, which has a FILE_GROUP only,
against a stored record that already holds an HLS playlist and URL, the handler
returns a result whose hlsPlaylist and hlsUrl are those of the stored record,
not absent, although no group of the report has type HLS_GROUP. -/
theorem stored_outputs_carried_over :
    (∀ x ∈ Mp4.OutputGroupDetails, ∀ y, x = some y → y.«Type» ≠ "HLS_GROUP") ∧
    ∃ res, HandleRequest (storedHlsHandler Mp4) { Detail := "" } = .ok res ∧
      res.HlsPlaylist = some "s3://vod-destination/12345/hls/dude.m3u8" ∧
      res.HlsUrl = some "https://cloudfront/12345/hls/dude.m3u8" ∧
      res.HlsPlaylist ≠ none ∧
      res.Mp4Outputs = [some "s3://vod-destination/12345/mp4/dude_3.0Mbps.mp4"] :=
  ⟨by decide, _, rfl, rfl, rfl, by decide, rfl⟩

/-- C24, amended. For every result the handler returns, each resolved field
(hlsPlaylist and hlsUrl, dashPlaylist and dashUrl, mssPlaylist and mssUrl,
cmafDashPlaylist, cmafDashUrl, cmafHlsPlaylist and cmafHlsUrl, mp4Outputs and
mp4Urls) whose output-group type does not occur in the completion report has
the value it has in the stored record as decoded: it is absent in the result
exactly when it is absent in the stored record. -/
theorem unreported_fields_keep_stored (h : Handler) (event : EventBridgeEvent)
    (res : DynamoData) (hok : HandleRequest h event = .ok res) :
    ∃ (detail : EventDetail) (data : GetItemOutput) (d0 : DynamoData),
      h.Unmarshal event.Detail = .ok detail ∧
      h.DynamoDBClient.GetItem
        { TableName := h.DynamoDBTable, PK := "VIDEO#" ++ detail.UserMetadata.GUID,
          SK := "METADATA" } = .ok data ∧
      h.UnmarshalMap data.Item = .ok d0 ∧
      ((∀ x ∈ detail.OutputGroupDetails, ∀ y, x = some y → y.«Type» ≠ "HLS_GROUP") →
        res.HlsPlaylist = d0.HlsPlaylist ∧ res.HlsUrl = d0.HlsUrl) ∧
      ((∀ x ∈ detail.OutputGroupDetails, ∀ y, x = some y → y.«Type» ≠ "DASH_ISO_GROUP") →
        res.DashPlaylist = d0.DashPlaylist ∧ res.DashUrl = d0.DashUrl) ∧
      ((∀ x ∈ detail.OutputGroupDetails, ∀ y, x = some y → y.«Type» ≠ "FILE_GROUP") →
        res.Mp4Outputs = d0.Mp4Outputs ∧ res.Mp4Urls = d0.Mp4Urls) ∧
      ((∀ x ∈ detail.OutputGroupDetails, ∀ y, x = some y → y.«Type» ≠ "MS_SMOOTH_GROUP") →
        res.MssPlaylist = d0.MssPlaylist ∧ res.MssUrl = d0.MssUrl) ∧
      ((∀ x ∈ detail.OutputGroupDetails, ∀ y, x = some y → y.«Type» ≠ "CMAF_GROUP") →
        res.CmafDashPlaylist = d0.CmafDashPlaylist ∧ res.CmafDashUrl = d0.CmafDashUrl ∧
        res.CmafHlsPlaylist = d0.CmafHlsPlaylist ∧ res.CmafHlsUrl = d0.CmafHlsUrl) := by
  obtain ⟨detail, data, d0, d1, hdet, hget, hmap, -, hres, hthumb⟩ :=
    HandleRequest_returns h event res hok
  obtain ⟨tn, tu, rfl⟩ := resolveThumbnails_ok h d1 _ hthumb
  obtain ⟨e1, e2, e3, e4, e5⟩ := resolveGroups_unreported _ _ _ hres
  exact ⟨detail, data, d0, hdet, hget, hmap, e1, e2, e3, e4, e5⟩

/-- The report Mp4 against the stored record of the tests, which holds no
output: the result has no HLS playlist and no HLS URL. -/
theorem unreported_fields_keep_stored_witness :
    ∃ res, HandleRequest (sampleHandler Mp4 false []) { Detail := "" } = .ok res ∧
      res.HlsPlaylist = none ∧ res.HlsUrl = none := by
  obtain ⟨detail, data, d0, hdet, hget, hmap, e1, -⟩ :=
    unreported_fields_keep_stored (sampleHandler Mp4 false []) { Detail := "" } _ rfl
  have hdetail : detail = Mp4 := by
    simp only [sampleHandler, Except.ok.injEq] at hdet
    exact hdet.symm
  have hd0 : d0 = sampleData false := by
    simp only [sampleHandler, Except.ok.injEq] at hmap
    exact hmap.symm
  subst hdetail hd0
  exact ⟨_, rfl, (e1 (by decide)).1.trans rfl, (e1 (by decide)).2.trans rfl⟩

end OutputValidate

/-! ## Asset ingest: properties -/

namespace MediaPackageAssets

theorem utf8ByteSize_go_append (xs ys : List Char) :
    String.utf8ByteSize.go (xs ++ ys) = String.utf8ByteSize.go xs + String.utf8ByteSize.go ys := by
  induction xs with
  | nil => simp [String.utf8ByteSize.go]
  | cons c cs ih =>
    show String.utf8ByteSize.go (cs ++ ys) + c.utf8Size =
      String.utf8ByteSize.go cs + c.utf8Size + String.utf8ByteSize.go ys
    rw [ih]
    omega

/-- A string that starts with the scheme has at least as many bytes. -/
theorem scheme_le_utf8ByteSize (rest : String) :
    ¬ ("s3://" ++ rest).utf8ByteSize < "s3://".utf8ByteSize := by
  have h : ("s3://" ++ rest).utf8ByteSize =
      String.utf8ByteSize.go ("s3://".data ++ rest.data) := by
    rw [← String.data_append]
    rfl
  have h0 : "s3://".utf8ByteSize = String.utf8ByteSize.go "s3://".data := rfl
  rw [h, utf8ByteSize_go_append, ← h0]
  omega

/-- Without an occurrence of `old` nothing is replaced. -/
theorem replaceAllAux_of_no_occurrence (old new : List Char) (l : List Char)
    (hno : ∀ t, t <:+ l → old.isPrefixOf t = false) :
    replaceAllAux old new 0 l = l := by
  induction l with
  | nil => rfl
  | cons c cs ih =>
    rw [replaceAllAux, hno (c :: cs) (List.suffix_refl _)]
    simp only [Bool.false_eq_true, if_false]
    rw [ih (fun t ht => hno t (ht.trans (List.suffix_cons c cs)))]

/-- Passing over the rest of an occurrence. -/
theorem replaceAllAux_skip (old new : List Char) (xs l : List Char) :
    replaceAllAux old new xs.length (xs ++ l) = replaceAllAux old new 0 l := by
  induction xs with
  | nil => rfl
  | cons c cs ih =>
    simp only [List.length_cons, List.cons_append, replaceAllAux]
    exact ih

/-- The function on a URI that starts with the scheme: the scheme is removed at
the front, and the scan goes on through the rest. -/
theorem buildArnFromUri_scheme (rest : String) :
    buildArnFromUri ("s3://" ++ rest) =
      .ok ("arn:aws:s3:::" ++ String.mk (replaceAllAux "s3://".data [] 0 rest.data)) := by
  have hpre : "s3://".data.isPrefixOf ("s3://" ++ rest).data = true := by
    rw [String.data_append, List.isPrefixOf_iff_prefix]
    exact List.prefix_append _ _
  unfold buildArnFromUri
  rw [if_neg (scheme_le_utf8ByteSize rest), hpre]
  simp only [Bool.true_eq_false, if_false]
  have hscan : replaceAllAux "s3://".data "".data 0 ("s3://" ++ rest).data =
      replaceAllAux "s3://".data [] 0 rest.data := by
    rw [String.data_append]
    have h4 := replaceAllAux_skip "s3://".data [] ['3', ':', '/', '/'] rest.data
    have hp : "s3://".data.isPrefixOf ('s' :: (['3', ':', '/', '/'] ++ rest.data)) = true := by
      rw [List.isPrefixOf_iff_prefix]
      exact List.prefix_append "s3://".data rest.data
    show replaceAllAux "s3://".data [] 0 ('s' :: (['3', ':', '/', '/'] ++ rest.data)) = _
    rw [replaceAllAux, if_pos hp]
    exact h4
  unfold goReplaceAll
  rw [hscan]

/-- For a rest in which the scheme does not occur again, the result is the ARN
prefix followed by the rest. -/
theorem buildArnFromUri_of_no_inner_scheme (rest : String)
    (hno : ∀ t, t <:+ rest.data → "s3://".data.isPrefixOf t = false) :
    buildArnFromUri ("s3://" ++ rest) = .ok ("arn:aws:s3:::" ++ rest) := by
  rw [buildArnFromUri_scheme, replaceAllAux_of_no_occurrence _ _ _ hno]

/-- C26. The two URIs of the tests, with and without sub-folders, give the ARN
prefix followed by the rest of the URI.  For the URI
s3://my-bucket/archive/s3://old-bucket/video.m3u8, whose object key itself
holds the characters of the scheme, the function succeeds with
arn:aws:s3:::my-bucket/archive/old-bucket/video.m3u8, which is not the ARN
prefix followed by the rest of the URI: ReplaceAll removes every occurrence of
the scheme, not the leading one alone. -/
theorem buildArnFromUri_removes_inner_scheme :
    buildArnFromUri ("s3://" ++ "my-bucket/video.m3u8")
      = .ok ("arn:aws:s3:::" ++ "my-bucket/video.m3u8") ∧
    buildArnFromUri ("s3://" ++ "my-bucket/output/hls/video.m3u8")
      = .ok ("arn:aws:s3:::" ++ "my-bucket/output/hls/video.m3u8") ∧
    buildArnFromUri ("s3://" ++ "my-bucket/archive/s3://old-bucket/video.m3u8")
      = .ok "arn:aws:s3:::my-bucket/archive/old-bucket/video.m3u8" ∧
    buildArnFromUri ("s3://" ++ "my-bucket/archive/s3://old-bucket/video.m3u8")
      ≠ .ok ("arn:aws:s3:::" ++ "my-bucket/archive/s3://old-bucket/video.m3u8") := by
  refine ⟨?_, ?_, ?_, ?_⟩
  · rw [buildArnFromUri_scheme]
    rfl
  · rw [buildArnFromUri_scheme]
    rfl
  · rw [buildArnFromUri_scheme]
    rfl
  · rw [buildArnFromUri_scheme]
    decide

end MediaPackageAssets

/-! ## Failure propagation through the stages -/

/-- C25. Failure propagation: in each of the three stages, an error returned by
a collaborator call the handler makes is returned by HandleRequest as an error,
which carries no result.  Profiler: the metadata GetItem.  Encode:
GetJobTemplate, and CreateJob on the submitted job.  Output-validate: the
metadata GetItem for the decoded report, and the thumbnail ListObjects, which
is called once the groups of the report are resolved for a stored record with
frame capture enabled. -/
theorem failure_propagation :
    (∀ (h : Profiler.Handler) (event : Profiler.ProfilerInput) (cause : String),
      h.DynamoDBClient.GetItem
        { TableName := h.DynamoDBTable, PK := "VIDEO#" ++ event.GUID, SK := "METADATA" }
          = .error cause →
      Profiler.HandleRequest h event = .error ("profiler: main.Handler: GetItem: " ++ cause)) ∧
    (∀ (h : Encode.Handler) (event : Encode.EncodeInput) (cause : String),
      h.MediaConvertClient.GetJobTemplate event.JobTemplate = .error cause →
      Encode.HandleRequest h event =
        .error ("encode: main.Handler.HandleRequest: GetJobTemplate: " ++ cause)) ∧
    (∀ (h : Encode.Handler) (event : Encode.EncodeInput) (job : Encode.CreateJobInput)
        (cause : String),
      Encode.submittedJob h event = some job →
      h.MediaConvertClient.CreateJob job = .error cause →
      Encode.HandleRequest h event =
        .error ("encode: main.Handler.HandleRequest: CreateJob: " ++ cause)) ∧
    (∀ (h : OutputValidate.Handler) (event : OutputValidate.EventBridgeEvent)
        (detail : OutputValidate.EventDetail) (cause : String),
      h.Unmarshal event.Detail = .ok detail →
      h.DynamoDBClient.GetItem
        { TableName := h.DynamoDBTable, PK := "VIDEO#" ++ detail.UserMetadata.GUID,
          SK := "METADATA" } = .error cause →
      OutputValidate.HandleRequest h event =
        .error ("output-validate: main.Handler.HandlerRequest: dynamodb.GetItem: " ++ cause)) ∧
    (∀ (h : OutputValidate.Handler) (event : OutputValidate.EventBridgeEvent)
        (detail : OutputValidate.EventDetail) (data : OutputValidate.GetItemOutput)
        (d0 d1 : OutputValidate.DynamoData) (cause : String),
      h.Unmarshal event.Detail = .ok detail →
      h.DynamoDBClient.GetItem
        { TableName := h.DynamoDBTable, PK := "VIDEO#" ++ detail.UserMetadata.GUID,
          SK := "METADATA" } = .ok data →
      data.Item ≠ [] → h.UnmarshalMap data.Item = .ok d0 →
      detail.OutputGroupDetails ≠ [] →
      OutputValidate.resolveGroups
        { d0 with EncodingOutput := detail, EndTime := h.Now, WorkflowStatus := "Complete" }
        detail.OutputGroupDetails = .ok d1 →
      d0.FrameCapture = true →
      h.S3Client.ListObjects { Bucket := d0.DestBucket, Prefix := d0.GUID ++ "/thumbnails" }
        = .error cause →
      OutputValidate.HandleRequest h event =
        .error ("output-validate: main.Handler.HandleRequest: s3.ListObjects: " ++ cause)) := by
  refine ⟨?_, ?_, ?_, ?_, ?_⟩
  · intro h event cause hget
    unfold Profiler.HandleRequest
    simp only [hget]
  · intro h event cause hget
    unfold Encode.HandleRequest
    simp only [hget]
  · intro h event job cause hsub hcreate
    obtain ⟨template, hget, hjob⟩ := Encode.submittedJob_some h event job hsub
    unfold Encode.HandleRequest
    simp only [hget, hjob, hcreate]
  · intro h event detail cause hdet hget
    unfold OutputValidate.HandleRequest
    simp only [hdet, hget]
  · intro h event detail data d0 d1 cause hdet hget hne hmap hgroups hres hfc hlist
    rw [OutputValidate.HandleRequest_of_decoded h event detail data d0 hdet hget hne hmap hgroups,
      hres]
    obtain ⟨-, hf, hg, hb⟩ := OutputValidate.resolveGroups_frame _ _ _ hres
    have hfc1 : d1.FrameCapture = true := by rw [hf]; exact hfc
    have hlist1 : h.S3Client.ListObjects
        { Bucket := d1.DestBucket, Prefix := d1.GUID ++ "/thumbnails" } = .error cause := by
      rw [hg, hb]
      exact hlist
    simp only []
    unfold OutputValidate.resolveThumbnails
    simp only [hfc1, if_true, hlist1]

/-- The failing clients of the tests: a table that cannot be read, in the
profiler and in output-validate, and a bucket that cannot be listed. -/
theorem failure_propagation_witness :
    Profiler.HandleRequest
        { Profiler.sampleHandler false "x" 0 0 with
          DynamoDBClient := { GetItem := fun _ => .error "assert.AnError" } }
        { GUID := "g", JobTemplate := none }
      = .error "profiler: main.Handler: GetItem: assert.AnError" ∧
    OutputValidate.HandleRequest
        { OutputValidate.sampleHandler OutputValidate.CmafMss false [] with
          DynamoDBClient := { GetItem := fun _ => .error "assert.AnError" } }
        { Detail := "" }
      = .error "output-validate: main.Handler.HandlerRequest: dynamodb.GetItem: assert.AnError" ∧
    OutputValidate.HandleRequest
        { OutputValidate.sampleHandler OutputValidate.Mp4 true [] with
          S3Client := { ListObjects := fun _ => .error "assert.AnError" } }
        { Detail := "" }
      = .error "output-validate: main.Handler.HandleRequest: s3.ListObjects: assert.AnError" :=
  ⟨failure_propagation.1 _ _ "assert.AnError" rfl,
   failure_propagation.2.2.2.1 _ _ OutputValidate.CmafMss "assert.AnError" rfl rfl,
   failure_propagation.2.2.2.2 _ _ OutputValidate.Mp4
     { Item := OutputValidate.sampleItem true } (OutputValidate.sampleData true) _
     "assert.AnError" rfl rfl (by simp [OutputValidate.sampleItem]) rfl
     (by simp [OutputValidate.Mp4, OutputValidate.detailOf]) rfl rfl rfl⟩

end Vod
